import Mathlib

/-!
Verification development for the sqldbal driver-dispatch core, a shallow
embedding of src/sqldbal.c.  Machine integers are modeled as Nat or Int with
explicit wrap at the platform widths of an LP64 build: int is 32 bits,
unsigned long and size_t are 64 bits.  Backend library calls (libmysqlclient,
libpq, libsqlite3) and heap allocation outcomes are modeled as explicit
oracle inputs.  The connection value carries a few ghost fields, marked as
such, that record observations used by the theorems: the ordered list of
assignments to the status field, counters of adapter and backend-connect
invocations, the microsecond durations of busy-retry sleeps, and an id-based
model of the heap buffers owned by prepared-statement parameter slots.
-/

namespace Sqldbal

/-- Largest value of the C type size_t on the modeled platform. -/
def SIZE_MAX : Nat := 2 ^ 64 - 1

/-- Largest value of the C type unsigned long on the modeled platform. -/
def ULONG_MAX : Nat := 2 ^ 64 - 1

/-- Largest value of the C type unsigned int on the modeled platform. -/
def UINT_MAX : Nat := 2 ^ 32 - 1

/-- Largest value of the C type int on the modeled platform. -/
def INT_MAX : Nat := 2 ^ 31 - 1

/-- Largest value of the C type long long on the modeled platform. -/
def LLONG_MAX : Int := 2 ^ 63 - 1

/-- Smallest value of the C type long long on the modeled platform. -/
def LLONG_MIN : Int := -(2 ^ 63)

/-- Largest value of the C type int64_t. -/
def INT64_MAX : Int := 2 ^ 63 - 1

/-- Smallest value of the C type int64_t. -/
def INT64_MIN : Int := -(2 ^ 63)

/-- Status code SQLDBAL_STATUS_OK of enum sqldbal_status_code. -/
def SQLDBAL_STATUS_OK : Nat := 0

/-- Status code SQLDBAL_STATUS_PARAM of enum sqldbal_status_code. -/
def SQLDBAL_STATUS_PARAM : Nat := 1

/-- Status code SQLDBAL_STATUS_NOMEM of enum sqldbal_status_code. -/
def SQLDBAL_STATUS_NOMEM : Nat := 2

/-- Status code SQLDBAL_STATUS_OVERFLOW of enum sqldbal_status_code. -/
def SQLDBAL_STATUS_OVERFLOW : Nat := 3

/-- Status code SQLDBAL_STATUS_EXEC of enum sqldbal_status_code. -/
def SQLDBAL_STATUS_EXEC : Nat := 4

/-- Status code SQLDBAL_STATUS_PREPARE of enum sqldbal_status_code. -/
def SQLDBAL_STATUS_PREPARE : Nat := 5

/-- Status code SQLDBAL_STATUS_BIND of enum sqldbal_status_code. -/
def SQLDBAL_STATUS_BIND : Nat := 6

/-- Status code SQLDBAL_STATUS_FETCH of enum sqldbal_status_code. -/
def SQLDBAL_STATUS_FETCH : Nat := 7

/-- Status code SQLDBAL_STATUS_COLUMN_COERCE of enum sqldbal_status_code. -/
def SQLDBAL_STATUS_COLUMN_COERCE : Nat := 8

/-- Status code SQLDBAL_STATUS_DRIVER_NOSUPPORT of enum sqldbal_status_code. -/
def SQLDBAL_STATUS_DRIVER_NOSUPPORT : Nat := 9

/-- Status code SQLDBAL_STATUS_OPEN of enum sqldbal_status_code. -/
def SQLDBAL_STATUS_OPEN : Nat := 10

/-- Status code SQLDBAL_STATUS_CLOSE of enum sqldbal_status_code. -/
def SQLDBAL_STATUS_CLOSE : Nat := 11

/-- Sentinel upper bound SQLDBAL_STATUS__LAST of enum sqldbal_status_code. -/
def SQLDBAL_STATUS_LAST : Nat := 12

/-- Flag SQLDBAL_FLAG_DEBUG. -/
def SQLDBAL_FLAG_DEBUG : Nat := 1

/-- Flag SQLDBAL_FLAG_SQLITE_OPEN_READONLY. -/
def SQLDBAL_FLAG_SQLITE_OPEN_READONLY : Nat := 2 ^ 16

/-- Flag SQLDBAL_FLAG_SQLITE_OPEN_READWRITE. -/
def SQLDBAL_FLAG_SQLITE_OPEN_READWRITE : Nat := 2 ^ 17

/-- Flag SQLDBAL_FLAG_SQLITE_OPEN_CREATE. -/
def SQLDBAL_FLAG_SQLITE_OPEN_CREATE : Nat := 2 ^ 18

/-- Flag SQLDBAL_FLAG_INVALID_MEMORY, the error-sentinel marker. -/
def SQLDBAL_FLAG_INVALID_MEMORY : Nat := 2 ^ 30

/-- Maximum port number accepted by the network drivers. -/
def SQLDBAL_MAX_PORT_NUMBER : Nat := 65535

/-- Maximum seconds allowed in the CONNECT_TIMEOUT option of the
MariaDB driver. -/
def SQLDBAL_MARIADB_MAX_CONNECT_TIMEOUT : Nat := 1000

/-- Maximum number of retries when SQLITE_BUSY gets returned. -/
def SQLDBAL_SQLITE_MAX_NUM_RETRIES : Nat := 10

/-- OID_MAX of the libpq headers, the largest unsigned Oid value. -/
def OID_MAX : Nat := 2 ^ 32 - 1

/-- SQLDBAL_TYPE_INT of enum sqldbal_column_type. -/
def columnTypeInt : Nat := 0

/-- SQLDBAL_TYPE_TEXT of enum sqldbal_column_type. -/
def columnTypeText : Nat := 1

/-- SQLDBAL_TYPE_BLOB of enum sqldbal_column_type. -/
def columnTypeBlob : Nat := 2

/-- SQLDBAL_TYPE_NULL of enum sqldbal_column_type. -/
def columnTypeNull : Nat := 3

/-- SQLDBAL_TYPE_OTHER of enum sqldbal_column_type. -/
def columnTypeOther : Nat := 4

/-- SQLDBAL_TYPE_ERROR of enum sqldbal_column_type. -/
def columnTypeError : Nat := 5

/-- Driver tags of enum sqldbal_driver. -/
inductive Driver where
  | mariadb
  | mysql
  | postgresql
  | sqlite
  | invalid
deriving DecidableEq, Repr

/-- Result values of enum sqldbal_fetch_result. -/
inductive FetchResult where
  | row
  | done
  | error
deriving DecidableEq, Repr

/-! Character-level model of the C library scanners used by the source:
strtoul with bases 10 and 16 and strtoll with base 10, following C99
semantics: optional isspace prefix skipping, an optional sign, an optional
0x prefix in base 16, then the longest run of digits; when no digit is
consumed the end pointer equals the original input pointer.  Out-of-range
results clamp to the type bounds, which the caller detects with ERANGE. -/

/-- The C isspace predicate in the POSIX locale. -/
def cIsSpace (c : Char) : Bool :=
  c = ' ' ∨ c = '\t' ∨ c = '\n' ∨ c = Char.ofNat 11 ∨ c = Char.ofNat 12 ∨
  c = '\r'

/-- The ten decimal digit characters. -/
def decDigitList : List Char :=
  (List.range 10).map (fun i => Char.ofNat (48 + i))

/-- The twenty-two hexadecimal digit characters: the decimal digits
followed by the six lowercase and the six uppercase hex letters. -/
def hexDigitList : List Char :=
  decDigitList ++ (List.range 6).map (fun i => Char.ofNat (97 + i)) ++
    (List.range 6).map (fun i => Char.ofNat (65 + i))

/-- Decimal digit test. -/
def cIsDigit (c : Char) : Bool := decide (c ∈ decDigitList)

/-- Hexadecimal digit test. -/
def cIsXDigit (c : Char) : Bool := decide (c ∈ hexDigitList)

/-- Numeric value of a hexadecimal digit. -/
def hexVal (c : Char) : Nat :=
  if '0' ≤ c ∧ c ≤ '9' then c.toNat - '0'.toNat
  else if 'a' ≤ c ∧ c ≤ 'f' then c.toNat - 'a'.toNat + 10
  else if 'A' ≤ c ∧ c ≤ 'F' then c.toNat - 'A'.toNat + 10
  else 0

/-- Value of a digit list under the given base, most significant first. -/
def digitsVal (base : Nat) (ds : List Char) : Nat :=
  ds.foldl (fun acc c => acc * base + hexVal c) 0

/-- Sign scan shared by the strtoul and strtoll models.  Returns the
negation flag and the number of characters consumed by the sign. -/
def scanSign (s : List Char) : Bool × Nat :=
  match s with
  | c :: _ =>
      if c = '+' then (false, 1) else if c = '-' then (true, 1) else (false, 0)
  | [] => (false, 0)

/-- Model of strtoul with base 16 on a NUL-terminated string given as a
character list.  Returns the converted unsigned long value and the offset
of the end pointer from the start of the string. -/
def strtoul16 (s : List Char) : Nat × Nat :=
  let ws := (s.takeWhile cIsSpace).length
  let s1 := s.drop ws
  let (neg, sgnLen) := scanSign s1
  let s2 := s1.drop sgnLen
  let (pfxLen, s3) :=
    match s2 with
    | '0' :: c :: d :: rest =>
        if (c = 'x' ∨ c = 'X') ∧ cIsXDigit d then (2, d :: rest) else (0, s2)
    | _ => (0, s2)
  let ds := s3.takeWhile cIsXDigit
  if ds.length = 0 then (0, 0)
  else
    let v := digitsVal 16 ds
    let v := if v > ULONG_MAX then ULONG_MAX
             else if neg then (2 ^ 64 - v % 2 ^ 64) % 2 ^ 64 else v
    (v, ws + sgnLen + pfxLen + ds.length)

/-- Model of strtoul with base 10. -/
def strtoul10 (s : List Char) : Nat × Nat :=
  let ws := (s.takeWhile cIsSpace).length
  let s1 := s.drop ws
  let (neg, sgnLen) := scanSign s1
  let s2 := s1.drop sgnLen
  let ds := s2.takeWhile cIsDigit
  if ds.length = 0 then (0, 0)
  else
    let v := digitsVal 10 ds
    let v := if v > ULONG_MAX then ULONG_MAX
             else if neg then (2 ^ 64 - v % 2 ^ 64) % 2 ^ 64 else v
    (v, ws + sgnLen + ds.length)

/-- Model of strtoll with base 10.  Returns the converted value, the offset
of the end pointer and the ERANGE flag. -/
def strtoll10 (s : List Char) : Int × Nat × Bool :=
  let ws := (s.takeWhile cIsSpace).length
  let s1 := s.drop ws
  let (neg, sgnLen) := scanSign s1
  let s2 := s1.drop sgnLen
  let ds := s2.takeWhile cIsDigit
  if ds.length = 0 then (0, 0, false)
  else
    let v : Int := (digitsVal 10 ds : Nat)
    let signed : Int := if neg then -v else v
    let clamped : Int :=
      if signed > LLONG_MAX then LLONG_MAX
      else if signed < LLONG_MIN then LLONG_MIN else signed
    (clamped, ws + sgnLen + ds.length, signed > LLONG_MAX ∨ signed < LLONG_MIN)

/-! Model of sqldbal_str_hex2bin, sqldbal.c lines 2277 to 2317.  The input
is the NUL-terminated hexadecimal string as a character list and the result
is the byte list, or none where the C function returns NULL with binlen 0.
Heap allocation inside this function is modeled as always succeeding; the
caller that needs an allocation-failure outcome substitutes none itself. -/

/-- One iteration step of the hex2bin loop: each two-character chunk goes
through strtoul with base 16 and fails when the end pointer does not reach
the terminator of the two-character buffer. -/
def hex2binLoop : List Char → Option (List Nat)
  | [] => some []
  | c0 :: c1 :: rest =>
      let (ulval, ep) := strtoul16 [c0, c1]
      if ep ≠ 2 then none
      else
        match hex2binLoop rest with
        | none => none
        | some bs => some (ulval % 256 :: bs)
  | _ :: [] => none

/-- Model of sqldbal_str_hex2bin.  An odd-length input fails before the
loop runs; the C guard slen mod 2 not equal 1 admits exactly the
even-length strings. -/
def sqldbal_str_hex2bin (hex_str : List Char) : Option (List Nat) :=
  if hex_str.length % 2 ≠ 1 then hex2binLoop hex_str else none

/-- Specification-side hexadecimal encoder used to state the round-trip
property of the decoder: each byte maps to two lowercase hex digits. -/
def hexDigitChar (n : Nat) : Char :=
  Char.ofNat (if n < 10 then 48 + n else 87 + n)

/-- Specification-side encoder of a byte list as lowercase hexadecimal. -/
def hexEncode (bs : List Nat) : List Char :=
  bs.flatMap (fun b => [hexDigitChar (b / 16), hexDigitChar (b % 16)])

/-- The two-character chunks a hex2bin run consumes in full: the end pointer
of the base-16 strtoul scan reaches the chunk terminator. -/
def pairsOk : List Char → Bool
  | [] => true
  | c0 :: c1 :: rest => decide ((strtoul16 [c0, c1]).2 = 2) && pairsOk rest
  | _ :: [] => false

/-! State model.  The connection and statement values of sqldbal.c,
struct sqldbal_db and struct sqldbal_stmt, with the opaque per-driver
handle fields expanded into the per-driver context structures they point
to.  Heap buffers owned by parameter slots are modeled by ghost numeric
ids handed out by an allocation counter on the connection. -/

/-- Driver context of the MariaDB adapter.  The MYSQL session object is
opaque; the model records the mysql_options calls applied to it so that the
option-handling claims can observe them. -/
structure MariadbDb where
  appliedOptions : List (String × String)
deriving Repr, DecidableEq

/-- One entry of struct sqldbal_pq_oid_typname. -/
structure PqOidTypname where
  oid : Nat
  typname : String
deriving Repr, DecidableEq

/-- Driver context of the PostgreSQL adapter, struct sqldbal_pq_db. -/
structure PqDb where
  stmtCounter : Nat
  oidTypnameList : List PqOidTypname
deriving Repr, DecidableEq

/-- The void pointer handle field of struct sqldbal_db, expanded per
driver.  The SQLite handle is fully opaque to the core. -/
inductive DbHandle where
  | none
  | mariadb (h : MariadbDb)
  | pq (h : PqDb)
  | sqlite
deriving Repr, DecidableEq

/-- struct sqldbal_db.  The errstr field records only whether the error
string is non-NULL.  The fields from writes on are ghost instrumentation:
writes lists every assignment performed on the status_code field in order;
adapterCalls counts dispatches through the driver function table;
connectCalls counts backend session-establishment attempts; sleeps lists
the microsecond durations of busy-retry pauses; allocSeq, allocs and freed
implement the ghost heap for parameter buffers. -/
structure Db where
  errstr : Bool
  handle : DbHandle
  status : Nat
  flags : Nat
  driver : Driver
  writes : List Nat
  adapterCalls : Nat
  connectCalls : Nat
  sleeps : List Nat
  allocSeq : Nat
  allocs : List Nat
  freed : List Nat
deriving Repr, DecidableEq

/-- Driver statement context of the MariaDB adapter,
struct sqldbal_mariadb_stmt.  bindOut holds the ghost buffer id of each
outgoing parameter slot; the bindIn lists model the stored-result buffers
the backend fills on fetch, with buffer contents kept as strings because
the int64 column accessor parses them. -/
structure MariadbStmt where
  stmtPresent : Bool
  bindOut : List (Option Nat)
  bindInPresent : Bool
  bindInNullList : List Bool
  bindInLengthList : List Nat
  bindInBufList : List String
deriving Repr, DecidableEq

/-- Driver statement context of the PostgreSQL adapter,
struct sqldbal_pq_stmt.  paramValueList holds the ghost buffer id of each
parameter slot, none for a NULL parameter. -/
structure PqStmt where
  namePresent : Bool
  paramValueList : List (Option Nat)
  paramLengthList : List Nat
  paramFormatList : List Nat
  columnValueListPresent : Bool
  columnValueList : List (Option Nat)
  execResultPresent : Bool
  execRowCount : Nat
  fetchRowIndex : Nat
deriving Repr, DecidableEq

/-- The void pointer handle field of struct sqldbal_stmt, per driver. -/
inductive StmtHandle where
  | none
  | mariadb (h : MariadbStmt)
  | pq (h : PqStmt)
  | sqlite
deriving Repr, DecidableEq

/-- struct sqldbal_stmt.  The isErrorStmt flag is ghost: it models pointer
identity with the static g_stmt_error value, which the statement-close
facade compares against. -/
structure Stmt where
  num_params : Nat
  num_cols_result : Nat
  handle : StmtHandle
  valid : Nat
  isErrorStmt : Bool
deriving Repr, DecidableEq

/-- Ghost heap allocation: returns a fresh buffer id. -/
def allocBuf (db : Db) : Db × Nat :=
  ({ db with allocSeq := db.allocSeq + 1, allocs := db.allocs ++ [db.allocSeq] },
   db.allocSeq)

/-- Ghost heap release of one buffer id. -/
def freeBuf (db : Db) (b : Nat) : Db :=
  { db with freed := db.freed ++ [b] }

/-! Integer safety helpers, sqldbal.c lines 316 to 548.  Each returns the
wrap flag of the C function together with the converted value. -/

/-- si_add_size_t, wrap-checked size_t addition. -/
def si_add_size_t (a b : Nat) : Bool × Nat :=
  let result := (a + b) % 2 ^ 64
  (decide (result < a), result)

/-- si_mul_size_t, wrap-checked size_t multiplication. -/
def si_mul_size_t (a b : Nat) : Bool × Nat :=
  let result := (a * b) % 2 ^ 64
  (decide (b ≠ 0 ∧ a > SIZE_MAX / b), result)

/-- si_size_to_uint, checked size_t to unsigned int conversion. -/
def si_size_to_uint (size : Nat) : Bool × Nat := (decide (size > UINT_MAX), size)

/-- si_size_to_int, checked size_t to int conversion. -/
def si_size_to_int (size : Nat) : Bool × Nat := (decide (size > INT_MAX), size)

/-- si_int_to_size, checked int to size_t conversion. -/
def si_int_to_size (i : Int) : Bool × Nat := (decide (i < 0), i.toNat)

/-- si_int64_to_llong, checked int64_t to long long conversion. -/
def si_int64_to_llong (i64 : Int) : Bool × Int := (decide (i64 > LLONG_MAX), i64)

/-- si_llong_to_int64, checked long long to int64_t conversion. -/
def si_llong_to_int64 (lli : Int) : Bool × Int :=
  (decide (lli > INT64_MAX ∨ lli < INT64_MIN), lli)

/-- si_int64_to_uint64, checked signed to unsigned 64-bit conversion. -/
def si_int64_to_uint64 (i64 : Int) : Bool × Nat := (decide (i64 < 0), i64.toNat)

/-- si_ulong_to_size, checked unsigned long to size_t conversion. -/
def si_ulong_to_size (ul : Nat) : Bool × Nat := (decide (ul > SIZE_MAX), ul)

/-! Status plumbing, sqldbal.c lines 615 to 749 and 4131 to 4143. -/

/-- sqldbal_status_code_set, lines 622 to 630.  When the given status lies
outside the enumeration the function first calls itself with
SQLDBAL_STATUS_PARAM, then unconditionally assigns the given status and
returns it.  Every assignment to the status field is also appended to the
ghost write trace. -/
def sqldbal_status_code_set (db : Db) (status : Nat) : Db × Nat :=
  let db :=
    if SQLDBAL_STATUS_LAST ≤ status then
      (sqldbal_status_code_set db SQLDBAL_STATUS_PARAM).1
    else db
  ({ db with status := status, writes := db.writes ++ [status] }, status)
termination_by (if SQLDBAL_STATUS_LAST ≤ status then 1 else 0)
decreasing_by simp_all [SQLDBAL_STATUS_LAST, SQLDBAL_STATUS_PARAM]

/-- sqldbal_status_code_get, lines 4131 to 4134. -/
def sqldbal_status_code_get (db : Db) : Nat := db.status

/-- sqldbal_errstr_set, lines 726 to 734.  Frees the previous error string
and duplicates the new one; the strdupOk oracle tells whether the
duplication allocation succeeds. -/
def sqldbal_errstr_set (db : Db) (strdupOk : Bool) : Db :=
  let db := { db with errstr := false }
  if strdupOk then { db with errstr := true }
  else (sqldbal_status_code_set db SQLDBAL_STATUS_NOMEM).1

/-- sqldbal_err_set, lines 743 to 749: status then error string. -/
def sqldbal_err_set (db : Db) (status_code : Nat) (strdupOk : Bool) : Db :=
  sqldbal_errstr_set (sqldbal_status_code_set db status_code).1 strdupOk

/-- sqldbal_strtoi64, lines 669 to 684.  Parses the text with strtoll and
sets the column-coerce status on any failure, yielding 0 in that case. -/
def sqldbal_strtoi64 (db : Db) (text : String) : Db × Int :=
  let (lli, ep, erange) := strtoll10 text.data
  if text.data.length = 0 ∨ ep ≠ text.data.length ∨
     (erange ∧ (lli = LLONG_MAX ∨ lli = LLONG_MIN)) ∨
     (si_llong_to_int64 lli).1 then
    ((sqldbal_status_code_set db SQLDBAL_STATUS_COLUMN_COERCE).1, 0)
  else (db, lli)

/-- sqldbal_strtoui, lines 696 to 716.  Returns the updated connection, the
returned status and the converted value, which stays 0 unless converted. -/
def sqldbal_strtoui (db : Db) (str : Option String) (maxval : Nat) :
    Db × Nat × Nat :=
  match str with
  | Option.none => (db, sqldbal_status_code_get db, 0)
  | Option.some s =>
      let (ul, ep) := strtoul10 s.data
      if s.data.length = 0 ∨ ep ≠ s.data.length ∨ ul > maxval then
        let db := (sqldbal_status_code_set db SQLDBAL_STATUS_PARAM).1
        (db, sqldbal_status_code_get db, 0)
      else (db, sqldbal_status_code_get db, ul)

/-- A connection value in its freshly initialized form, used as the base
point of concrete evaluations. -/
def dbInit : Db :=
  { errstr := false, handle := DbHandle.none, status := 0, flags := 0,
    driver := Driver.sqlite, writes := [], adapterCalls := 0,
    connectCalls := 0, sleeps := [], allocSeq := 0, allocs := [], freed := [] }

/-! Oracle environment.  Every backend library call and heap allocation
outcome that the core branches on is an explicit input.  Function-valued
fields give per-call outcomes where a loop makes several calls. -/

/-- Return classification of mysql_stmt_fetch. -/
inductive MariadbFetchRc where
  | row
  | nodata
  | error
deriving DecidableEq, Repr

/-- One row served to the MariaDB direct-exec loop: the column lengths
reported by mysql_fetch_lengths and the abort outcome of the application
callback. -/
structure MariadbExecRow where
  lengths : List Nat
  cbRc : Bool
deriving DecidableEq, Repr

/-- One row served to the SQLite exec callback: the allocation outcome of
the column-length array and the abort outcome of the application
callback. -/
structure SqliteExecRow where
  allocOk : Bool
  cbRc : Bool
deriving DecidableEq, Repr

/-- Classification of PQresultStatus outcomes the core branches on. -/
inductive PqResultStatus where
  | commandOk
  | tuplesOk
  | error
deriving DecidableEq, Repr

/-- Return classification of sqlite3_step. -/
inductive SqliteStepRc where
  | row
  | done
  | busy
  | error
deriving DecidableEq, Repr

/-- Oracle inputs for one public operation. -/
structure Env where
  mallocDbOk : Bool
  mallocStmtOk : Bool
  strdupOk : Bool
  mysqlInitOk : Bool
  mysqlOptionsFail : Nat → Bool
  mysqlRealConnectOk : Bool
  mysqlAutocommitOffOk : Bool
  mysqlCommitOk : Bool
  mysqlRollbackOk : Bool
  mysqlAutocommitOnOk : Bool
  mysqlRealQueryOk : Bool
  mysqlStoreResultSome : Bool
  mysqlErrnoSet : Bool
  execAllocLengthsOk : Bool
  mariadbExecRows : List MariadbExecRow
  mallocMariadbStmtOk : Bool
  mysqlStmtInitOk : Bool
  mysqlStmtPrepareOk : Bool
  mysqlStmtParamCount : Nat
  reallocBindOutOk : Bool
  mysqlStmtMetadataSome : Bool
  mysqlStmtErrnoSet : Bool
  mysqlNumFields : Nat
  mallocMariadbBindOk : Bool
  callocBindInListOk : Bool
  callocBindInLengthOk : Bool
  callocBindInNullOk : Bool
  bindInMallocOk : Nat → Bool
  mysqlStmtAttrSetOk : Bool
  mysqlStmtBindParamOk : Bool
  mysqlStmtExecuteOk : Bool
  mysqlStmtStoreResultOk : Bool
  mysqlStmtBindResultOk : Bool
  mysqlStmtFetchRc : MariadbFetchRc
  mallocPqDbOk : Bool
  mallocConninfoOk : Bool
  pqConnectdbSome : Bool
  pqStatusOk : Bool
  pqOidTuplesOk : Bool
  reallocOidListOk : Bool
  pqOidRows : List (String × String)
  pqExecNoresSome : Bool
  pqExecNoresOk : Bool
  pqExecSome : Bool
  pqExecStatus : PqResultStatus
  reallocColResultOk : Bool
  reallocColLengthOk : Bool
  reallocColAttrOk : Bool
  pqExecNfields : Int
  pqExecNtuples : Nat
  pqCellLength : Nat → Nat → Int
  pqCellIsNull : Nat → Nat → Bool
  pqCellValue : Nat → Nat → String
  pqCellFtype : Nat → Nat
  pqHexMallocOk : Bool
  pqExecCbRc : Nat → Bool
  mallocPqStmtOk : Bool
  mallocNameOk : Bool
  sprintfNameOk : Bool
  pqPrepareSome : Bool
  pqPrepareOk : Bool
  pqDescribeOk : Bool
  pqNparams : Int
  callocParamValueOk : Bool
  reallocParamLengthOk : Bool
  reallocParamFormatOk : Bool
  pqBindMallocOk : Bool
  sprintfI64Ok : Bool
  pqExecPrepOk : Bool
  pqStmtNtuples : Nat
  pqStmtNfields : Int
  callocColumnListOk : Bool
  pqColLength : Nat → Int
  pqColIsNull : Nat → Bool
  pqColValue : Nat → String
  pqColFtype : Nat → Nat
  sqliteOpenOk : Bool
  sqliteTraceOk : Bool
  sqliteCloseOk : Bool
  sqliteExecOk : Bool
  sqliteExecRows : List SqliteExecRow
  sqliteExecErrmsg : Bool
  sqlitePrepareOk : Bool
  sqliteColCount : Nat
  sqliteParamCount : Nat
  sqliteBindOk : Bool
  sqliteStep : Nat → SqliteStepRc
  sqliteResetOk : Bool
  sqliteFinalizeOk : Bool
  sqliteColBytes : Int
  sqliteColTextNull : Bool
  sqliteColBlobNull : Bool
  sqliteColType : Nat
  sqliteColI64 : Int

/-- The all-success oracle: every allocation and backend call succeeds,
result sets are empty, all counts are zero. -/
def envAllOk : Env :=
  { mallocDbOk := true, mallocStmtOk := true, strdupOk := true,
    mysqlInitOk := true, mysqlOptionsFail := fun _ => false,
    mysqlRealConnectOk := true, mysqlAutocommitOffOk := true,
    mysqlCommitOk := true, mysqlRollbackOk := true,
    mysqlAutocommitOnOk := true, mysqlRealQueryOk := true,
    mysqlStoreResultSome := true, mysqlErrnoSet := false,
    execAllocLengthsOk := true, mariadbExecRows := [],
    mallocMariadbStmtOk := true, mysqlStmtInitOk := true,
    mysqlStmtPrepareOk := true, mysqlStmtParamCount := 0,
    reallocBindOutOk := true, mysqlStmtMetadataSome := true,
    mysqlStmtErrnoSet := false, mysqlNumFields := 0,
    mallocMariadbBindOk := true, callocBindInListOk := true,
    callocBindInLengthOk := true, callocBindInNullOk := true,
    bindInMallocOk := fun _ => true, mysqlStmtAttrSetOk := true,
    mysqlStmtBindParamOk := true, mysqlStmtExecuteOk := true,
    mysqlStmtStoreResultOk := true, mysqlStmtBindResultOk := true,
    mysqlStmtFetchRc := MariadbFetchRc.nodata, mallocPqDbOk := true,
    mallocConninfoOk := true, pqConnectdbSome := true, pqStatusOk := true,
    pqOidTuplesOk := true, reallocOidListOk := true, pqOidRows := [],
    pqExecNoresSome := true, pqExecNoresOk := true, pqExecSome := true,
    pqExecStatus := PqResultStatus.commandOk, reallocColResultOk := true,
    reallocColLengthOk := true, reallocColAttrOk := true,
    pqExecNfields := 0, pqExecNtuples := 0,
    pqCellLength := fun _ _ => 0, pqCellIsNull := fun _ _ => false,
    pqCellValue := fun _ _ => "", pqCellFtype := fun _ => 0,
    pqHexMallocOk := true, pqExecCbRc := fun _ => false,
    mallocPqStmtOk := true, mallocNameOk := true, sprintfNameOk := true,
    pqPrepareSome := true, pqPrepareOk := true, pqDescribeOk := true,
    pqNparams := 0, callocParamValueOk := true,
    reallocParamLengthOk := true, reallocParamFormatOk := true,
    pqBindMallocOk := true, sprintfI64Ok := true, pqExecPrepOk := true,
    pqStmtNtuples := 0, pqStmtNfields := 0, callocColumnListOk := true,
    pqColLength := fun _ => 0, pqColIsNull := fun _ => false,
    pqColValue := fun _ => "", pqColFtype := fun _ => 0,
    sqliteOpenOk := true, sqliteTraceOk := true, sqliteCloseOk := true,
    sqliteExecOk := true, sqliteExecRows := [], sqliteExecErrmsg := false,
    sqlitePrepareOk := true, sqliteColCount := 0, sqliteParamCount := 0,
    sqliteBindOk := true, sqliteStep := fun _ => SqliteStepRc.done,
    sqliteResetOk := true, sqliteFinalizeOk := true, sqliteColBytes := 0,
    sqliteColTextNull := true, sqliteColBlobNull := true,
    sqliteColType := 0, sqliteColI64 := 0 }

/-! SQLite adapter, sqldbal.c lines 3200 to 4129. -/

/-- sqldbal_sqlite_error, lines 3247 to 3264: status plus the backend
error string. -/
def sqldbal_sqlite_error (db : Db) (status_code : Nat) (env : Env) : Db :=
  sqldbal_err_set db status_code env.strdupOk

/-- Option loop of sqldbal_sqlite_open, lines 3368 to 3376: the VFS key is
recognized, any other key sets invalid-parameter. -/
def sqldbal_sqlite_open_options (db : Db) :
    List (String × String) → Db
  | [] => db
  | (key, _) :: rest =>
      let db :=
        if key = "VFS" then db
        else (sqldbal_status_code_set db SQLDBAL_STATUS_PARAM).1
      sqldbal_sqlite_open_options db rest

/-- sqldbal_sqlite_open, lines 3344 to 3416.  After the option loop the
backend file open runs only when the status is still OK; the handle field
is assigned in that case whether or not the open succeeded. -/
def sqldbal_sqlite_open (db : Db) (option_list : List (String × String))
    (env : Env) : Db :=
  let db := sqldbal_sqlite_open_options db option_list
  if sqldbal_status_code_get db = SQLDBAL_STATUS_OK then
    let db := { db with connectCalls := db.connectCalls + 1 }
    let db :=
      if ¬ env.sqliteOpenOk then
        sqldbal_sqlite_error db SQLDBAL_STATUS_OPEN env
      else
        if db.flags &&& SQLDBAL_FLAG_DEBUG ≠ 0 ∧ ¬ env.sqliteTraceOk then
          sqldbal_sqlite_error db SQLDBAL_STATUS_OPEN env
        else db
    { db with handle := DbHandle.sqlite }
  else db

/-- sqldbal_sqlite_close, lines 3423 to 3433. -/
def sqldbal_sqlite_close (db : Db) (env : Env) : Db :=
  if ¬ env.sqliteCloseOk then sqldbal_sqlite_error db SQLDBAL_STATUS_CLOSE env
  else db

/-- sqldbal_sqlite_noresult, lines 3469 to 3482. -/
def sqldbal_sqlite_noresult (db : Db) (env : Env) : Db :=
  if ¬ env.sqliteExecOk then sqldbal_err_set db SQLDBAL_STATUS_EXEC env.strdupOk
  else db

/-- sqldbal_sqlite_begin_transaction, lines 3489 to 3492. -/
def sqldbal_sqlite_begin_transaction (db : Db) (env : Env) : Db :=
  sqldbal_sqlite_noresult db env

/-- sqldbal_sqlite_commit, lines 3499 to 3502. -/
def sqldbal_sqlite_commit (db : Db) (env : Env) : Db :=
  sqldbal_sqlite_noresult db env

/-- sqldbal_sqlite_rollback, lines 3509 to 3512. -/
def sqldbal_sqlite_rollback (db : Db) (env : Env) : Db :=
  sqldbal_sqlite_noresult db env

/-- Row loop of sqlite3_exec with the sqldbal_sqlite_exec_callback of
lines 3528 to 3578: each row allocates the column-length array, then runs
the application callback; either failure aborts the exec.  Returns the
connection and the abort flag. -/
def sqldbal_sqlite_exec_rows (db : Db) : List SqliteExecRow → Db × Bool
  | [] => (db, false)
  | row :: rest =>
      if ¬ row.allocOk then
        ((sqldbal_status_code_set db SQLDBAL_STATUS_NOMEM).1, true)
      else if row.cbRc then
        ((sqldbal_status_code_set db SQLDBAL_STATUS_EXEC).1, true)
      else sqldbal_sqlite_exec_rows db rest

/-- sqldbal_sqlite_exec, lines 3591 to 3621.  When a callback is given the
rows run through the callback shim; an abort or an SQL error leaves an
errmsg, which sets exec-failed. -/
def sqldbal_sqlite_exec (db : Db) (hasCallback : Bool) (env : Env) : Db :=
  let (db, aborted) :=
    if hasCallback then sqldbal_sqlite_exec_rows db env.sqliteExecRows
    else (db, false)
  if aborted ∨ env.sqliteExecErrmsg then
    sqldbal_err_set db SQLDBAL_STATUS_EXEC env.strdupOk
  else db

/-- sqldbal_sqlite_stmt_prepare, lines 3661 to 3710. -/
def sqldbal_sqlite_stmt_prepare (db : Db) (sql_len : Nat) (stmt : Stmt)
    (env : Env) : Db × Stmt :=
  let nbyteSentinel : Bool := ¬ (sql_len = SIZE_MAX) ∧ sql_len > INT_MAX
  let db :=
    if nbyteSentinel then (sqldbal_status_code_set db SQLDBAL_STATUS_PARAM).1
    else db
  if ¬ nbyteSentinel then
    let db :=
      if ¬ env.sqlitePrepareOk then
        sqldbal_sqlite_error db SQLDBAL_STATUS_PREPARE env
      else db
    let stmt := { stmt with handle := StmtHandle.sqlite }
    let stmt := { stmt with num_cols_result := env.sqliteColCount }
    let stmt := { stmt with num_params := env.sqliteParamCount }
    (db, stmt)
  else (db, stmt)

/-- sqldbal_sqlite_get_col_idx, lines 3724 to 3734: checked conversion of
the 0-based index to the 1-based int index of SQLite. -/
def sqldbal_sqlite_get_col_idx (col_idx_in : Nat) : Bool × Nat :=
  let (w1, col_idx_sum) := si_add_size_t col_idx_in 1
  if w1 ∨ (si_size_to_int col_idx_sum).1 then (true, 0)
  else (false, col_idx_sum)

/-- sqldbal_sqlite_stmt_bind_blob, lines 3744 to 3769. -/
def sqldbal_sqlite_stmt_bind_blob (db : Db) (stmt : Stmt) (col_idx : Nat)
    (blobsz : Nat) (env : Env) : Db × Stmt :=
  if (si_size_to_int blobsz).1 ∨ (sqldbal_sqlite_get_col_idx col_idx).1 then
    ((sqldbal_status_code_set db SQLDBAL_STATUS_OVERFLOW).1, stmt)
  else if ¬ env.sqliteBindOk then
    (sqldbal_sqlite_error db SQLDBAL_STATUS_BIND env, stmt)
  else (db, stmt)

/-- sqldbal_sqlite_stmt_bind_int64, lines 3778 to 3798. -/
def sqldbal_sqlite_stmt_bind_int64 (db : Db) (stmt : Stmt) (col_idx : Nat)
    (env : Env) : Db × Stmt :=
  if (sqldbal_sqlite_get_col_idx col_idx).1 then
    ((sqldbal_status_code_set db SQLDBAL_STATUS_OVERFLOW).1, stmt)
  else if ¬ env.sqliteBindOk then
    (sqldbal_sqlite_error db SQLDBAL_STATUS_BIND env, stmt)
  else (db, stmt)

/-- sqldbal_sqlite_stmt_bind_text, lines 3808 to 3833. -/
def sqldbal_sqlite_stmt_bind_text (db : Db) (stmt : Stmt) (col_idx : Nat)
    (slen : Nat) (env : Env) : Db × Stmt :=
  if (si_size_to_int slen).1 ∨ (sqldbal_sqlite_get_col_idx col_idx).1 then
    ((sqldbal_status_code_set db SQLDBAL_STATUS_OVERFLOW).1, stmt)
  else if ¬ env.sqliteBindOk then
    (sqldbal_sqlite_error db SQLDBAL_STATUS_BIND env, stmt)
  else (db, stmt)

/-- sqldbal_sqlite_stmt_bind_null, lines 3841 to 3859. -/
def sqldbal_sqlite_stmt_bind_null (db : Db) (stmt : Stmt) (col_idx : Nat)
    (env : Env) : Db × Stmt :=
  if (sqldbal_sqlite_get_col_idx col_idx).1 then
    ((sqldbal_status_code_set db SQLDBAL_STATUS_OVERFLOW).1, stmt)
  else if ¬ env.sqliteBindOk then
    (sqldbal_sqlite_error db SQLDBAL_STATUS_BIND env, stmt)
  else (db, stmt)

/-- sqldbal_sqlite_busy_sleep, lines 3864 to 3871: a 10000 microsecond
pause, recorded in the ghost sleep trace. -/
def sqldbal_sqlite_busy_sleep (db : Db) : Db :=
  { db with sleeps := db.sleeps ++ [10000] }

/-- Retry loop of sqldbal_sqlite_stmt_execute, lines 3878 to 3913.  The
counter num_retries mirrors the C variable and also indexes the step
oracle, because every loop iteration makes exactly one sqlite3_step
call. -/
def sqldbal_sqlite_stmt_execute_loop (db : Db) (env : Env)
    (num_retries : Nat) : Db :=
  match env.sqliteStep num_retries with
  | SqliteStepRc.done | SqliteStepRc.row =>
      if ¬ env.sqliteResetOk then
        sqldbal_sqlite_error db SQLDBAL_STATUS_EXEC env
      else db
  | SqliteStepRc.busy =>
      if num_retries < SQLDBAL_SQLITE_MAX_NUM_RETRIES then
        let db := sqldbal_sqlite_busy_sleep db
        sqldbal_sqlite_stmt_execute_loop db env (num_retries + 1)
      else sqldbal_sqlite_error db SQLDBAL_STATUS_EXEC env
  | SqliteStepRc.error => sqldbal_sqlite_error db SQLDBAL_STATUS_EXEC env
termination_by SQLDBAL_SQLITE_MAX_NUM_RETRIES + 1 - num_retries
decreasing_by omega

/-- sqldbal_sqlite_stmt_execute, lines 3878 to 3913. -/
def sqldbal_sqlite_stmt_execute (db : Db) (stmt : Stmt) (env : Env) :
    Db × Stmt :=
  (sqldbal_sqlite_stmt_execute_loop db env 0, stmt)

/-- Retry loop of sqldbal_sqlite_stmt_fetch, lines 3921 to 3960. -/
def sqldbal_sqlite_stmt_fetch_loop (db : Db) (env : Env)
    (num_retries : Nat) : Db × FetchResult :=
  match env.sqliteStep num_retries with
  | SqliteStepRc.row => (db, FetchResult.row)
  | SqliteStepRc.done => (db, FetchResult.done)
  | SqliteStepRc.busy =>
      if num_retries < SQLDBAL_SQLITE_MAX_NUM_RETRIES then
        let db := sqldbal_sqlite_busy_sleep db
        sqldbal_sqlite_stmt_fetch_loop db env (num_retries + 1)
      else
        (sqldbal_sqlite_error db SQLDBAL_STATUS_FETCH env, FetchResult.error)
  | SqliteStepRc.error =>
      (sqldbal_sqlite_error db SQLDBAL_STATUS_FETCH env, FetchResult.error)
termination_by SQLDBAL_SQLITE_MAX_NUM_RETRIES + 1 - num_retries
decreasing_by omega

/-- sqldbal_sqlite_stmt_fetch, lines 3921 to 3960.  The fetch result
starts as ERROR and stays ERROR when the retries run out. -/
def sqldbal_sqlite_stmt_fetch (db : Db) (stmt : Stmt) (env : Env) :
    Db × Stmt × FetchResult :=
  let (db, r) := sqldbal_sqlite_stmt_fetch_loop db env 0
  (db, stmt, r)

/-- sqldbal_sqlite_stmt_column_blob, lines 3970 to 3998.  The returned
options are none where the C function leaves the out-parameter
unwritten. -/
def sqldbal_sqlite_stmt_column_blob (db : Db) (stmt : Stmt) (col_idx : Nat)
    (env : Env) : Db × Option Bool × Option Nat :=
  if (si_size_to_int col_idx).1 then
    ((sqldbal_status_code_set db SQLDBAL_STATUS_OVERFLOW).1,
     Option.none, Option.none)
  else
    let col_bytes := env.sqliteColBytes
    let blobPresent := ¬ env.sqliteColBlobNull
    let (w, blobsz) := si_int_to_size col_bytes
    if w then
      ((sqldbal_status_code_set db SQLDBAL_STATUS_OVERFLOW).1,
       Option.some blobPresent, Option.none)
    else
      if blobsz ≠ 0 ∧ ¬ blobPresent then
        (sqldbal_sqlite_error db SQLDBAL_STATUS_NOMEM env,
         Option.some blobPresent, Option.some blobsz)
      else (db, Option.some blobPresent, Option.some blobsz)

/-- sqldbal_sqlite_stmt_column_int64, lines 4007 to 4023. -/
def sqldbal_sqlite_stmt_column_int64 (db : Db) (stmt : Stmt) (col_idx : Nat)
    (env : Env) : Db × Option Int :=
  if (si_size_to_int col_idx).1 then
    ((sqldbal_status_code_set db SQLDBAL_STATUS_OVERFLOW).1, Option.none)
  else (db, Option.some env.sqliteColI64)

/-- sqldbal_sqlite_stmt_column_text, lines 4033 to 4064.  The reported
size is decremented only when nonzero; the text pointer presence is
returned as a Bool. -/
def sqldbal_sqlite_stmt_column_text (db : Db) (stmt : Stmt) (col_idx : Nat)
    (env : Env) : Db × Option Bool × Option Nat :=
  if (si_size_to_int col_idx).1 then
    ((sqldbal_status_code_set db SQLDBAL_STATUS_OVERFLOW).1,
     Option.none, Option.none)
  else
    let col_bytes := env.sqliteColBytes
    let textPresent := ¬ env.sqliteColTextNull
    let (w, textsz) := si_int_to_size col_bytes
    if w then
      ((sqldbal_status_code_set db SQLDBAL_STATUS_OVERFLOW).1,
       Option.some textPresent, Option.none)
    else
      if textsz ≠ 0 then
        let textsz := textsz - 1
        if ¬ textPresent then
          (sqldbal_sqlite_error db SQLDBAL_STATUS_NOMEM env,
           Option.some textPresent, Option.some textsz)
        else (db, Option.some textPresent, Option.some textsz)
      else (db, Option.some textPresent, Option.some textsz)

/-- sqldbal_sqlite_stmt_column_type, lines 4073 to 4110.  The oracle gives
the SQLite column type as one of the integer tags 1 to 5 following the
SQLITE_INTEGER, SQLITE_FLOAT, SQLITE_TEXT, SQLITE_BLOB, SQLITE_NULL
constants, with SQLITE_TEXT being 3. -/
def sqldbal_sqlite_stmt_column_type (db : Db) (stmt : Stmt) (col_idx : Nat)
    (env : Env) : Db × Nat :=
  if (si_size_to_int col_idx).1 then
    ((sqldbal_status_code_set db SQLDBAL_STATUS_OVERFLOW).1, columnTypeError)
  else
    let t :=
      if env.sqliteColType = 1 then columnTypeInt
      else if env.sqliteColType = 3 then columnTypeText
      else if env.sqliteColType = 4 then columnTypeBlob
      else if env.sqliteColType = 5 then columnTypeNull
      else columnTypeOther
    (db, t)

/-- sqldbal_sqlite_stmt_close, lines 4117 to 4127. -/
def sqldbal_sqlite_stmt_close (db : Db) (stmt : Stmt) (env : Env) : Db :=
  if ¬ env.sqliteFinalizeOk then
    sqldbal_sqlite_error db SQLDBAL_STATUS_CLOSE env
  else db

/-! MariaDB adapter, sqldbal.c lines 751 to 1750.  The model assumes a
client library recent enough that SQLDBAL_MARIADB_HAS_SSL is defined, so
the five TLS option keys are recognized. -/

/-- sqldbal_mariadb_error, lines 805 to 814, and
sqldbal_mariadb_stmt_error, lines 823 to 834: status plus the backend
error string. -/
def sqldbal_mariadb_error (db : Db) (status_code : Nat) (env : Env) : Db :=
  sqldbal_err_set db status_code env.strdupOk

/-- The applied-option list of the MariaDB session handle. -/
def mariadbApplied (db : Db) : List (String × String) :=
  match db.handle with
  | DbHandle.mariadb h => h.appliedOptions
  | _ => []

/-- sqldbal_mariadb_mysql_options, lines 843 to 855.  A failing
mysql_options call sets invalid-parameter; a successful one is recorded on
the session handle.  The oracle is indexed by the number of options applied
so far. -/
def sqldbal_mariadb_mysql_options (db : Db) (option arg : String)
    (env : Env) : Db :=
  if env.mysqlOptionsFail (mariadbApplied db).length then
    (sqldbal_status_code_set db SQLDBAL_STATUS_PARAM).1
  else
    match db.handle with
    | DbHandle.mariadb h =>
        let h2 := { h with appliedOptions := h.appliedOptions ++ [(option, arg)] }
        { db with handle := DbHandle.mariadb h2 }
    | _ => db

/-- Option loop of sqldbal_mariadb_set_options, lines 873 to 905. -/
def sqldbal_mariadb_set_options_loop (env : Env) (db : Db) :
    List (String × String) → Db
  | [] => db
  | (key, value) :: rest =>
      let db :=
        if key = "CONNECT_TIMEOUT" then
          let (db, st, timeout) := sqldbal_strtoui db (Option.some value)
            SQLDBAL_MARIADB_MAX_CONNECT_TIMEOUT
          if st = SQLDBAL_STATUS_OK then
            sqldbal_mariadb_mysql_options db "MYSQL_OPT_CONNECT_TIMEOUT"
              (toString timeout) env
          else db
        else if key = "TLS_KEY" then
          sqldbal_mariadb_mysql_options db "MYSQL_OPT_SSL_KEY" value env
        else if key = "TLS_CERT" then
          sqldbal_mariadb_mysql_options db "MYSQL_OPT_SSL_CERT" value env
        else if key = "TLS_CA" then
          sqldbal_mariadb_mysql_options db "MYSQL_OPT_SSL_CA" value env
        else if key = "TLS_CAPATH" then
          sqldbal_mariadb_mysql_options db "MYSQL_OPT_SSL_CAPATH" value env
        else if key = "TLS_CIPHER" then
          sqldbal_mariadb_mysql_options db "MYSQL_OPT_SSL_CIPHER" value env
        else (sqldbal_status_code_set db SQLDBAL_STATUS_PARAM).1
      sqldbal_mariadb_set_options_loop env db rest

/-- sqldbal_mariadb_set_options, lines 865 to 908. -/
def sqldbal_mariadb_set_options (db : Db) (option_list : List (String × String))
    (env : Env) : Db × Nat :=
  let db := sqldbal_mariadb_set_options_loop env db option_list
  (db, sqldbal_status_code_get db)

/-- sqldbal_mariadb_open, lines 925 to 974. -/
def sqldbal_mariadb_open (db : Db) (port : Option String)
    (option_list : List (String × String)) (env : Env) : Db :=
  let (db, st, _port_i) := sqldbal_strtoui db port SQLDBAL_MAX_PORT_NUMBER
  if st ≠ SQLDBAL_STATUS_OK then
    (sqldbal_status_code_set db SQLDBAL_STATUS_PARAM).1
  else
    if ¬ env.mysqlInitOk then
      (sqldbal_status_code_set db SQLDBAL_STATUS_NOMEM).1
    else
      let db := { db with handle := DbHandle.mariadb { appliedOptions := [] } }
      let (db, st2) := sqldbal_mariadb_set_options db option_list env
      if st2 = SQLDBAL_STATUS_OK then
        let db := { db with connectCalls := db.connectCalls + 1 }
        if ¬ env.mysqlRealConnectOk then
          sqldbal_mariadb_error db SQLDBAL_STATUS_OPEN env
        else db
      else db

/-- sqldbal_mariadb_close, lines 981 to 989: mysql_close reports no
failure. -/
def sqldbal_mariadb_close (db : Db) (env : Env) : Db := db

/-- sqldbal_mariadb_begin_transaction, lines 1024 to 1034. -/
def sqldbal_mariadb_begin_transaction (db : Db) (env : Env) : Db :=
  if ¬ env.mysqlAutocommitOffOk then
    sqldbal_mariadb_error db SQLDBAL_STATUS_EXEC env
  else db

/-- sqldbal_mariadb_commit, lines 1041 to 1053. -/
def sqldbal_mariadb_commit (db : Db) (env : Env) : Db :=
  if ¬ env.mysqlCommitOk ∨ ¬ env.mysqlAutocommitOnOk then
    sqldbal_mariadb_error db SQLDBAL_STATUS_EXEC env
  else db

/-- sqldbal_mariadb_rollback, lines 1060 to 1072. -/
def sqldbal_mariadb_rollback (db : Db) (env : Env) : Db :=
  if ¬ env.mysqlRollbackOk ∨ ¬ env.mysqlAutocommitOnOk then
    sqldbal_mariadb_error db SQLDBAL_STATUS_EXEC env
  else db

/-- sqldbal_mariadb_fetch_lengths_conv_size, lines 1085 to 1102: the
conversion fails when any reported length does not fit a size_t. -/
def sqldbal_mariadb_fetch_lengths_conv_size (lengths : List Nat) : Bool :=
  lengths.any (fun l => (si_ulong_to_size l).1)

/-- Row loop of sqldbal_mariadb_exec, lines 1152 to 1169.  A length
conversion failure sets overflow and moves to the next row; a nonzero
callback return sets exec-failed and breaks. -/
def sqldbal_mariadb_exec_rows (db : Db) : List MariadbExecRow → Db
  | [] => db
  | row :: rest =>
      if sqldbal_mariadb_fetch_lengths_conv_size row.lengths then
        sqldbal_mariadb_exec_rows
          ((sqldbal_status_code_set db SQLDBAL_STATUS_OVERFLOW).1) rest
      else if row.cbRc then
        (sqldbal_status_code_set db SQLDBAL_STATUS_EXEC).1
      else sqldbal_mariadb_exec_rows db rest

/-- sqldbal_mariadb_exec, lines 1115 to 1180. -/
def sqldbal_mariadb_exec (db : Db) (hasCallback : Bool) (env : Env) : Db :=
  if ¬ env.mysqlRealQueryOk then
    sqldbal_mariadb_error db SQLDBAL_STATUS_EXEC env
  else if env.mysqlStoreResultSome then
    if hasCallback then
      if ¬ env.execAllocLengthsOk then
        (sqldbal_status_code_set db SQLDBAL_STATUS_NOMEM).1
      else sqldbal_mariadb_exec_rows db env.mariadbExecRows
    else db
  else if env.mysqlErrnoSet then
    (sqldbal_status_code_set db SQLDBAL_STATUS_EXEC).1
  else db

/-- sqldbal_mariadb_stmt_get_num_cols, lines 1212 to 1236. -/
def sqldbal_mariadb_stmt_get_num_cols (db : Db) (stmt : Stmt) (env : Env) :
    Db × Stmt :=
  if ¬ env.mysqlStmtMetadataSome then
    let stmt := { stmt with num_cols_result := 0 }
    if env.mysqlStmtErrnoSet then
      ((sqldbal_status_code_set db SQLDBAL_STATUS_NOMEM).1, stmt)
    else (db, stmt)
  else (db, { stmt with num_cols_result := env.mysqlNumFields })

/-- sqldbal_mariadb_stmt_prepare, lines 1246 to 1306. -/
def sqldbal_mariadb_stmt_prepare (db : Db) (stmt : Stmt) (env : Env) :
    Db × Stmt :=
  if ¬ env.mallocMariadbStmtOk then
    ((sqldbal_status_code_set db SQLDBAL_STATUS_NOMEM).1, stmt)
  else
    let h : MariadbStmt :=
      { stmtPresent := false, bindOut := [], bindInPresent := false,
        bindInNullList := [], bindInLengthList := [], bindInBufList := [] }
    if ¬ env.mysqlStmtInitOk then
      (sqldbal_mariadb_error db SQLDBAL_STATUS_PREPARE env,
       { stmt with handle := StmtHandle.mariadb h })
    else
      let h := { h with stmtPresent := true }
      if ¬ env.mysqlStmtPrepareOk then
        (sqldbal_mariadb_error db SQLDBAL_STATUS_PREPARE env,
         { stmt with handle := StmtHandle.mariadb h })
      else
        let stmt := { stmt with num_params := env.mysqlStmtParamCount }
        if ¬ env.reallocBindOutOk then
          ((sqldbal_status_code_set db SQLDBAL_STATUS_NOMEM).1,
           { stmt with handle :=
              StmtHandle.mariadb { h with stmtPresent := false } })
        else
          let h := { h with
            bindOut := List.replicate stmt.num_params Option.none }
          let stmt := { stmt with handle := StmtHandle.mariadb h }
          sqldbal_mariadb_stmt_get_num_cols db stmt env

/-- The MariaDB statement context of a statement value. -/
def mariadbStmtOf (stmt : Stmt) : MariadbStmt :=
  match stmt.handle with
  | StmtHandle.mariadb h => h
  | _ =>
      { stmtPresent := false, bindOut := [], bindInPresent := false,
        bindInNullList := [], bindInLengthList := [], bindInBufList := [] }

/-- sqldbal_mariadb_stmt_bind_free_buf, lines 1315 to 1321, lifted over
one slot of the outgoing bind list: a held buffer is released and the slot
cleared. -/
def sqldbal_mariadb_stmt_bind_free_buf (db : Db) (slot : Option Nat) :
    Db × Option Nat :=
  match slot with
  | Option.some b => (freeBuf db b, Option.none)
  | Option.none => (db, Option.none)

/-- Shared tail of the three MariaDB value binds: release the previous
buffer of the slot, then install the fresh buffer. -/
def mariadbInstallBind (db : Db) (stmt : Stmt) (col_idx : Nat)
    (newBuf : Nat) : Db × Stmt :=
  let h := mariadbStmtOf stmt
  let (db, _) := sqldbal_mariadb_stmt_bind_free_buf db (h.bindOut.getD col_idx Option.none)
  let h := { h with bindOut := h.bindOut.set col_idx (Option.some newBuf) }
  (db, { stmt with handle := StmtHandle.mariadb h })

/-- sqldbal_mariadb_stmt_bind_blob, lines 1331 to 1359. -/
def sqldbal_mariadb_stmt_bind_blob (db : Db) (stmt : Stmt) (col_idx : Nat)
    (blobsz : Nat) (env : Env) : Db × Stmt :=
  if ¬ env.mallocMariadbBindOk then
    ((sqldbal_status_code_set db SQLDBAL_STATUS_NOMEM).1, stmt)
  else
    let (db, blob_copy) := allocBuf db
    mariadbInstallBind db stmt col_idx blob_copy

/-- sqldbal_mariadb_stmt_bind_int64, lines 1368 to 1401. -/
def sqldbal_mariadb_stmt_bind_int64 (db : Db) (stmt : Stmt) (col_idx : Nat)
    (i64 : Int) (env : Env) : Db × Stmt :=
  if (si_int64_to_llong i64).1 then
    ((sqldbal_status_code_set db SQLDBAL_STATUS_OVERFLOW).1, stmt)
  else if ¬ env.mallocMariadbBindOk then
    ((sqldbal_status_code_set db SQLDBAL_STATUS_NOMEM).1, stmt)
  else
    let (db, ill) := allocBuf db
    mariadbInstallBind db stmt col_idx ill

/-- sqldbal_mariadb_stmt_bind_text, lines 1411 to 1439. -/
def sqldbal_mariadb_stmt_bind_text (db : Db) (stmt : Stmt) (col_idx : Nat)
    (slen : Nat) (env : Env) : Db × Stmt :=
  if ¬ env.mallocMariadbBindOk then
    ((sqldbal_status_code_set db SQLDBAL_STATUS_NOMEM).1, stmt)
  else
    let (db, s_copy) := allocBuf db
    mariadbInstallBind db stmt col_idx s_copy

/-- sqldbal_mariadb_stmt_bind_null, lines 1447 to 1464: the previous
buffer of the slot is released and the slot marked NULL. -/
def sqldbal_mariadb_stmt_bind_null (db : Db) (stmt : Stmt) (col_idx : Nat)
    (env : Env) : Db × Stmt :=
  let h := mariadbStmtOf stmt
  let (db, _) := sqldbal_mariadb_stmt_bind_free_buf db (h.bindOut.getD col_idx Option.none)
  let h := { h with bindOut := h.bindOut.set col_idx Option.none }
  (db, { stmt with handle := StmtHandle.mariadb h })

/-- sqldbal_mariadb_stmt_allocate_bind_in_list, lines 1473 to 1528. -/
def sqldbal_mariadb_stmt_allocate_bind_in_list (db : Db) (stmt : Stmt)
    (env : Env) : Db × Stmt × Nat :=
  if ¬ env.callocBindInListOk ∨ ¬ env.callocBindInLengthOk ∨
     ¬ env.callocBindInNullOk then
    let db := (sqldbal_status_code_set db SQLDBAL_STATUS_NOMEM).1
    (db, stmt, sqldbal_status_code_get db)
  else
    let h := mariadbStmtOf stmt
    let h :=
      { h with
        bindInPresent := true,
        bindInNullList := List.replicate stmt.num_cols_result false,
        bindInLengthList := List.replicate stmt.num_cols_result 0,
        bindInBufList := List.replicate stmt.num_cols_result "" }
    let stmt := { stmt with handle := StmtHandle.mariadb h }
    let failCol := (List.range stmt.num_cols_result).find?
      (fun i => (si_size_to_uint i).1 ∨ ¬ env.bindInMallocOk i)
    match failCol with
    | Option.some _ =>
        let db := (sqldbal_status_code_set db SQLDBAL_STATUS_NOMEM).1
        (db, stmt, sqldbal_status_code_get db)
    | Option.none => (db, stmt, sqldbal_status_code_get db)

/-- sqldbal_mariadb_stmt_execute, lines 1535 to 1578. -/
def sqldbal_mariadb_stmt_execute (db : Db) (stmt : Stmt) (env : Env) :
    Db × Stmt :=
  if ¬ env.mysqlStmtAttrSetOk ∨ ¬ env.mysqlStmtBindParamOk ∨
     ¬ env.mysqlStmtExecuteOk ∨ ¬ env.mysqlStmtStoreResultOk then
    (sqldbal_mariadb_error db SQLDBAL_STATUS_EXEC env, stmt)
  else if stmt.num_cols_result ≠ 0 then
    if env.mysqlStmtMetadataSome then
      let (db, stmt, st) := sqldbal_mariadb_stmt_allocate_bind_in_list db stmt env
      if st = SQLDBAL_STATUS_OK then
        if ¬ env.mysqlStmtBindResultOk then
          (sqldbal_mariadb_error db SQLDBAL_STATUS_EXEC env, stmt)
        else (db, stmt)
      else (db, stmt)
    else (sqldbal_mariadb_error db SQLDBAL_STATUS_NOMEM env, stmt)
  else (db, stmt)

/-- sqldbal_mariadb_stmt_fetch, lines 1586 to 1608.  The stored-result
buffers of the statement state are treated as already holding the row the
oracle chose; the call itself only classifies the outcome. -/
def sqldbal_mariadb_stmt_fetch (db : Db) (stmt : Stmt) (env : Env) :
    Db × Stmt × FetchResult :=
  match env.mysqlStmtFetchRc with
  | MariadbFetchRc.row => (db, stmt, FetchResult.row)
  | MariadbFetchRc.nodata => (db, stmt, FetchResult.done)
  | MariadbFetchRc.error =>
      (sqldbal_mariadb_error db SQLDBAL_STATUS_FETCH env, stmt,
       FetchResult.error)

/-- sqldbal_mariadb_stmt_column_blob, lines 1618 to 1635.  Returns the
blob presence and the reported size. -/
def sqldbal_mariadb_stmt_column_blob (db : Db) (stmt : Stmt) (col_idx : Nat) :
    Db × Bool × Nat :=
  let h := mariadbStmtOf stmt
  if h.bindInNullList.getD col_idx false then (db, false, 0)
  else (db, true, h.bindInLengthList.getD col_idx 0)

/-- sqldbal_mariadb_stmt_column_int64, lines 1644 to 1660. -/
def sqldbal_mariadb_stmt_column_int64 (db : Db) (stmt : Stmt)
    (col_idx : Nat) : Db × Int :=
  let h := mariadbStmtOf stmt
  if h.bindInNullList.getD col_idx false then (db, 0)
  else sqldbal_strtoi64 db (h.bindInBufList.getD col_idx "")

/-- sqldbal_mariadb_stmt_column_text, lines 1670 to 1687.  The reported
size is the stored length decremented by one in size_t arithmetic, which
wraps for a stored length of zero. -/
def sqldbal_mariadb_stmt_column_text (db : Db) (stmt : Stmt)
    (col_idx : Nat) : Db × Bool × Nat :=
  let h := mariadbStmtOf stmt
  if h.bindInNullList.getD col_idx false then (db, false, 0)
  else
    (db, true, (h.bindInLengthList.getD col_idx 0 + 2 ^ 64 - 1) % 2 ^ 64)

/-- sqldbal_mariadb_stmt_column_type, lines 1696 to 1710. -/
def sqldbal_mariadb_stmt_column_type (db : Db) (stmt : Stmt)
    (col_idx : Nat) : Db × Nat :=
  let h := mariadbStmtOf stmt
  if h.bindInNullList.getD col_idx false then (db, columnTypeNull)
  else (db, columnTypeBlob)

/-- sqldbal_mariadb_stmt_close, lines 1717 to 1748: releases the outgoing
bind buffers of the first num_params slots. -/
def sqldbal_mariadb_stmt_close (db : Db) (stmt : Stmt) (env : Env) : Db :=
  match stmt.handle with
  | StmtHandle.mariadb h =>
      (List.range stmt.num_params).foldl
        (fun db i =>
          (sqldbal_mariadb_stmt_bind_free_buf db (h.bindOut.getD i Option.none)).1)
        db
  | _ => db

/-! PostgreSQL adapter, sqldbal.c lines 1752 to 3198. -/

/-- sqldbal_pq_error, lines 1875 to 1884. -/
def sqldbal_pq_error (db : Db) (status_code : Nat) (env : Env) : Db :=
  sqldbal_err_set db status_code env.strdupOk

/-- sqldbal_pq_conninfo_param_len, lines 1982 to 2003: one space, the key,
the equals sign and the value, with wrap-checked additions evaluated in
short-circuit order. -/
def sqldbal_pq_conninfo_param_len (key : String) (value : Option String) :
    Bool × Nat :=
  match value with
  | Option.none => (false, 0)
  | Option.some v =>
      let (w1, len) := si_add_size_t key.length v.length
      if w1 then (true, len)
      else
        let (w2, len2) := si_add_size_t len 2
        (w2, len2)

/-- The fixed parameter table of sqldbal_pq_conninfo, lines 2063 to 2094,
in declaration order. -/
def pqConninfoParams (location port username password database :
    Option String) : List (String × Option String) :=
  [("host", location), ("hostaddr", Option.none), ("port", port),
   ("dbname", database), ("user", username), ("password", password),
   ("passfile", Option.none), ("connect_timeout", Option.none),
   ("client_encoding", Option.none), ("options", Option.none),
   ("application_name", Option.none),
   ("fallback_application_name", Option.none), ("keepalives", Option.none),
   ("keepalives_idle", Option.none), ("keepalives_interval", Option.none),
   ("keepalives_count", Option.none), ("tty", Option.none),
   ("replication", Option.none), ("sslmode", Option.none),
   ("requiressl", Option.none), ("sslcompression", Option.none),
   ("sslcert", Option.none), ("sslkey", Option.none),
   ("sslrootcert", Option.none), ("sslcrl", Option.none),
   ("requirepeer", Option.none), ("krbsrvname", Option.none),
   ("gsslib", Option.none), ("service", Option.none),
   ("target_session_attrs", Option.none)]

/-- Option loop of sqldbal_pq_conninfo, lines 2097 to 2117: recognized
keys fill the corresponding parameter slot, unknown keys set
invalid-parameter. -/
def pqConninfoApplyOptions (db : Db)
    (param_list : List (String × Option String)) :
    List (String × String) → Db × List (String × Option String)
  | [] => (db, param_list)
  | (key, value) :: rest =>
      let (db, param_list) :=
        if key = "CONNECT_TIMEOUT" then
          (db, param_list.set 7 ("connect_timeout", Option.some value))
        else if key = "TLS_MODE" then
          (db, param_list.set 18 ("sslmode", Option.some value))
        else if key = "TLS_CERT" then
          (db, param_list.set 21 ("sslcert", Option.some value))
        else if key = "TLS_KEY" then
          (db, param_list.set 22 ("sslkey", Option.some value))
        else if key = "TLS_CA" then
          (db, param_list.set 23 ("sslrootcert", Option.some value))
        else
          ((sqldbal_status_code_set db SQLDBAL_STATUS_PARAM).1, param_list)
      pqConninfoApplyOptions db param_list rest

/-- Size loop of sqldbal_pq_conninfo, lines 2119 to 2130: a wrap in any
length computation sets out-of-memory, and the loop continues over all
parameters. -/
def pqConninfoSizeLoop (db : Db) (conninfo_sz : Nat) :
    List (String × Option String) → Db × Nat
  | [] => (db, conninfo_sz)
  | (k, v) :: rest =>
      let (w1, inc) := sqldbal_pq_conninfo_param_len k v
      if w1 then
        pqConninfoSizeLoop ((sqldbal_status_code_set db SQLDBAL_STATUS_NOMEM).1)
          conninfo_sz rest
      else
        let (w2, sz2) := si_add_size_t conninfo_sz inc
        if w2 then
          pqConninfoSizeLoop
            ((sqldbal_status_code_set db SQLDBAL_STATUS_NOMEM).1) sz2 rest
        else pqConninfoSizeLoop db sz2 rest

/-- sqldbal_pq_conninfo, lines 2048 to 2153.  Returns whether a conninfo
string was produced. -/
def sqldbal_pq_conninfo (db : Db)
    (location port username password database : Option String)
    (option_list : List (String × String)) (env : Env) : Db × Bool :=
  let param_list := pqConninfoParams location port username password database
  let (db, param_list) := pqConninfoApplyOptions db param_list option_list
  let (db, conninfo_sz) := pqConninfoSizeLoop db 0 param_list
  let db :=
    let (w, _) := si_add_size_t conninfo_sz 1
    if w then (sqldbal_status_code_set db SQLDBAL_STATUS_NOMEM).1 else db
  if sqldbal_status_code_get db ≠ SQLDBAL_STATUS_OK then (db, false)
  else if ¬ env.mallocConninfoOk then
    ((sqldbal_status_code_set db SQLDBAL_STATUS_NOMEM).1, false)
  else (db, true)

/-- Row loop of sqldbal_pq_query_oid_list, lines 2198 to 2218: each oid
string parses through sqldbal_strtoui, and a parse failure breaks with the
column-coerce status; typnames truncate to the 47 characters the struct
field can hold. -/
def sqldbal_pq_query_oid_list_rows (db : Db) (acc : List PqOidTypname) :
    List (String × String) → Db × Nat × List PqOidTypname
  | [] => (db, SQLDBAL_STATUS_OK, acc)
  | (oid_str, typname) :: rest =>
      let (db, st, oid_conv) := sqldbal_strtoui db (Option.some oid_str) OID_MAX
      if st ≠ SQLDBAL_STATUS_OK then (db, SQLDBAL_STATUS_COLUMN_COERCE, acc)
      else
        sqldbal_pq_query_oid_list_rows db
          (acc ++ [{ oid := oid_conv, typname := typname.take 47 }]) rest

/-- sqldbal_pq_query_oid_list, lines 2165 to 2224. -/
def sqldbal_pq_query_oid_list (db : Db) (env : Env) :
    Db × Nat × List PqOidTypname :=
  if ¬ env.pqOidTuplesOk then (db, SQLDBAL_STATUS_EXEC, [])
  else if ¬ env.reallocOidListOk then (db, SQLDBAL_STATUS_NOMEM, [])
  else sqldbal_pq_query_oid_list_rows db [] env.pqOidRows

/-- sqldbal_pq_open, lines 2333 to 2400. -/
def sqldbal_pq_open (db : Db)
    (location port username password database : Option String)
    (option_list : List (String × String)) (env : Env) : Db :=
  if ¬ env.mallocPqDbOk then
    (sqldbal_status_code_set db SQLDBAL_STATUS_NOMEM).1
  else
    let db := { db with handle := DbHandle.none }
    let (db, hasConninfo) := sqldbal_pq_conninfo db location port username
      password database option_list env
    if ¬ hasConninfo then db
    else
      let db := { db with connectCalls := db.connectCalls + 1 }
      if ¬ env.pqConnectdbSome then
        (sqldbal_status_code_set db SQLDBAL_STATUS_OPEN).1
      else if ¬ env.pqStatusOk then
        (sqldbal_status_code_set db SQLDBAL_STATUS_OPEN).1
      else
        let (db, status_code, oidList) := sqldbal_pq_query_oid_list db env
        if status_code ≠ SQLDBAL_STATUS_OK then
          (sqldbal_status_code_set db status_code).1
        else
          { db with handle :=
              DbHandle.pq { stmtCounter := 1, oidTypnameList := oidList } }

/-- sqldbal_pq_close, lines 2407 to 2417: releases the session, no status
reporting. -/
def sqldbal_pq_close (db : Db) (env : Env) : Db := db

/-- sqldbal_pq_exec_noresult, lines 2453 to 2470. -/
def sqldbal_pq_exec_noresult (db : Db) (env : Env) : Db :=
  if ¬ env.pqExecNoresSome then
    (sqldbal_status_code_set db SQLDBAL_STATUS_NOMEM).1
  else if ¬ env.pqExecNoresOk then
    (sqldbal_status_code_set db SQLDBAL_STATUS_EXEC).1
  else db

/-- sqldbal_pq_begin_transaction, lines 2477 to 2480. -/
def sqldbal_pq_begin_transaction (db : Db) (env : Env) : Db :=
  sqldbal_pq_exec_noresult db env

/-- sqldbal_pq_commit, lines 2487 to 2490. -/
def sqldbal_pq_commit (db : Db) (env : Env) : Db :=
  sqldbal_pq_exec_noresult db env

/-- sqldbal_pq_rollback, lines 2497 to 2500. -/
def sqldbal_pq_rollback (db : Db) (env : Env) : Db :=
  sqldbal_pq_exec_noresult db env

/-- sqldbal_pq_is_oid, lines 2252 to 2264: linear scan of the cached oid
table; 0 means the oid carries the given typname. -/
def sqldbal_pq_is_oid (pq_db : PqDb) (oid : Nat) (typname : String) : Nat :=
  match pq_db.oidTypnameList.find? (fun e => e.oid == oid) with
  | Option.some e => if e.typname = typname then 0 else 1
  | Option.none => 1

/-- The PostgreSQL session context of a connection. -/
def pqDbOf (db : Db) : PqDb :=
  match db.handle with
  | DbHandle.pq h => h
  | _ => { stmtCounter := 0, oidTypnameList := [] }

/-- Column step of the sqldbal_pq_exec row loop, lines 2573 to 2613. -/
def sqldbal_pq_exec_col (db : Db) (env : Env) (r c : Nat) : Db :=
  if (si_size_to_int c).1 then
    (sqldbal_status_code_set db SQLDBAL_STATUS_NOMEM).1
  else if (si_int_to_size (env.pqCellLength r c)).1 then
    (sqldbal_status_code_set db SQLDBAL_STATUS_NOMEM).1
  else if env.pqCellIsNull r c then db
  else if sqldbal_pq_is_oid (pqDbOf db) (env.pqCellFtype c) "bytea" = 0 then
    let hexres :=
      if env.pqHexMallocOk then
        sqldbal_str_hex2bin ((env.pqCellValue r c).drop 2).data
      else Option.none
    match hexres with
    | Option.some _ => db
    | Option.none => (sqldbal_status_code_set db SQLDBAL_STATUS_NOMEM).1
  else db

/-- Row step of the sqldbal_pq_exec loop, lines 2572 to 2627: the
application callback runs only while the status is still OK, and a nonzero
return sets exec-failed without breaking the row loop. -/
def sqldbal_pq_exec_row (db : Db) (env : Env) (num_cols : Nat) (r : Nat) :
    Db :=
  let db := (List.range num_cols).foldl
    (fun db c => sqldbal_pq_exec_col db env r c) db
  if sqldbal_status_code_get db = SQLDBAL_STATUS_OK then
    if env.pqExecCbRc r then
      (sqldbal_status_code_set db SQLDBAL_STATUS_EXEC).1
    else db
  else db

/-- sqldbal_pq_exec, lines 2513 to 2640. -/
def sqldbal_pq_exec (db : Db) (hasCallback : Bool) (env : Env) : Db :=
  if ¬ env.pqExecSome then sqldbal_pq_error db SQLDBAL_STATUS_EXEC env
  else
    match env.pqExecStatus with
    | PqResultStatus.commandOk => db
    | PqResultStatus.tuplesOk =>
        if hasCallback then
          if (si_int_to_size env.pqExecNfields).1 then
            sqldbal_pq_error db SQLDBAL_STATUS_NOMEM env
          else if ¬ env.reallocColResultOk ∨ ¬ env.reallocColLengthOk ∨
              ¬ env.reallocColAttrOk then
            sqldbal_pq_error db SQLDBAL_STATUS_NOMEM env
          else
            (List.range env.pqExecNtuples).foldl
              (fun db r =>
                sqldbal_pq_exec_row db env env.pqExecNfields.toNat r) db
        else db
    | PqResultStatus.error => sqldbal_pq_error db SQLDBAL_STATUS_EXEC env

/-- Update of the PostgreSQL session context of a connection. -/
def setPqDb (db : Db) (h : PqDb) : Db := { db with handle := DbHandle.pq h }

/-- sqldbal_pq_gen_stmt_name, lines 1917 to 1965: allocates and prints the
name pqs followed by the counter, then increments the counter. -/
def sqldbal_pq_gen_stmt_name (db : Db) (pq_stmt : PqStmt) (env : Env) :
    Db × PqStmt × Nat :=
  if ¬ env.mallocNameOk then
    let db := (sqldbal_status_code_set db SQLDBAL_STATUS_NOMEM).1
    (db, pq_stmt, sqldbal_status_code_get db)
  else
    let pq_stmt := { pq_stmt with namePresent := true }
    if ¬ env.sprintfNameOk then
      let db := (sqldbal_status_code_set db SQLDBAL_STATUS_NOMEM).1
      (db, pq_stmt, sqldbal_status_code_get db)
    else
      let h := pqDbOf db
      let db := setPqDb db { h with stmtCounter := h.stmtCounter + 1 }
      (db, pq_stmt, sqldbal_status_code_get db)

/-- The PostgreSQL statement context of a statement value. -/
def pqStmtOf (stmt : Stmt) : PqStmt :=
  match stmt.handle with
  | StmtHandle.pq h => h
  | _ =>
      { namePresent := false, paramValueList := [], paramLengthList := [],
        paramFormatList := [], columnValueListPresent := false,
        columnValueList := [], execResultPresent := false,
        execRowCount := 0, fetchRowIndex := 0 }

/-- Update of the PostgreSQL statement context of a statement value. -/
def setPqStmt (stmt : Stmt) (h : PqStmt) : Stmt :=
  { stmt with handle := StmtHandle.pq h }

/-- sqldbal_pq_stmt_allocate_param_list, lines 2685 to 2729.  Returns the
rc of the C function; note that a parameter-count conversion failure sets
overflow yet leaves rc at 0. -/
def sqldbal_pq_stmt_allocate_param_list (db : Db) (stmt : Stmt)
    (pq_stmt : PqStmt) (env : Env) : Db × Stmt × PqStmt × Int :=
  if ¬ env.pqDescribeOk then
    ((sqldbal_status_code_set db SQLDBAL_STATUS_PREPARE).1, stmt, pq_stmt, -1)
  else
    let (w, n) := si_int_to_size env.pqNparams
    if w then
      ((sqldbal_status_code_set db SQLDBAL_STATUS_OVERFLOW).1, stmt,
       pq_stmt, 0)
    else
      let stmt := { stmt with num_params := n }
      if ¬ env.callocParamValueOk ∨ ¬ env.reallocParamLengthOk ∨
          ¬ env.reallocParamFormatOk then
        ((sqldbal_status_code_set db SQLDBAL_STATUS_NOMEM).1, stmt,
         pq_stmt, -1)
      else
        let pq_stmt :=
          { pq_stmt with
            paramValueList := List.replicate n Option.none,
            paramLengthList := List.replicate n 0,
            paramFormatList := List.replicate n 0 }
        (db, stmt, pq_stmt, 0)

/-- sqldbal_pq_stmt_prepare, lines 2739 to 2794. -/
def sqldbal_pq_stmt_prepare (db : Db) (stmt : Stmt) (env : Env) :
    Db × Stmt :=
  if ¬ env.mallocPqStmtOk then
    ((sqldbal_status_code_set db SQLDBAL_STATUS_NOMEM).1, stmt)
  else
    let stmt := { stmt with handle := StmtHandle.none }
    let pq_stmt : PqStmt :=
      { namePresent := false, paramValueList := [], paramLengthList := [],
        paramFormatList := [], columnValueListPresent := false,
        columnValueList := [], execResultPresent := false,
        execRowCount := 0, fetchRowIndex := 0 }
    let (db, pq_stmt, st) := sqldbal_pq_gen_stmt_name db pq_stmt env
    if st = SQLDBAL_STATUS_OK then
      if ¬ env.pqPrepareSome then
        (sqldbal_pq_error db SQLDBAL_STATUS_PREPARE env, stmt)
      else if ¬ env.pqPrepareOk then
        let db := (sqldbal_status_code_set db SQLDBAL_STATUS_PREPARE).1
        let db := sqldbal_errstr_set db env.strdupOk
        (db, stmt)
      else
        let (db, stmt, pq_stmt, rc) :=
          sqldbal_pq_stmt_allocate_param_list db stmt pq_stmt env
        if rc < 0 then (db, stmt)
        else (db, { stmt with handle := StmtHandle.pq pq_stmt })
    else (db, stmt)

/-- sqldbal_pq_stmt_bind_blob, lines 2804 to 2833: a rebind frees the
previously installed buffer before installing the copy. -/
def sqldbal_pq_stmt_bind_blob (db : Db) (stmt : Stmt) (col_idx : Nat)
    (blobsz : Nat) (env : Env) : Db × Stmt :=
  if (si_size_to_int blobsz).1 then
    ((sqldbal_status_code_set db SQLDBAL_STATUS_OVERFLOW).1, stmt)
  else if ¬ env.pqBindMallocOk then
    ((sqldbal_status_code_set db SQLDBAL_STATUS_NOMEM).1, stmt)
  else
    let (db, blob_copy) := allocBuf db
    let h := pqStmtOf stmt
    let db :=
      match h.paramValueList.getD col_idx Option.none with
      | Option.some old => freeBuf db old
      | Option.none => db
    let h :=
      { h with
        paramValueList := h.paramValueList.set col_idx (Option.some blob_copy),
        paramLengthList := h.paramLengthList.set col_idx blobsz,
        paramFormatList := h.paramFormatList.set col_idx 1 }
    (db, setPqStmt stmt h)

/-- sqldbal_pq_stmt_bind_int64, lines 2842 to 2864: the value is
stringified and bound through the blob path, then the parameter format is
reset to text. -/
def sqldbal_pq_stmt_bind_int64 (db : Db) (stmt : Stmt) (col_idx : Nat)
    (i64 : Int) (env : Env) : Db × Stmt :=
  if ¬ env.sprintfI64Ok then
    ((sqldbal_status_code_set db SQLDBAL_STATUS_BIND).1, stmt)
  else
    let slen := (toString i64).length
    let (db, stmt) := sqldbal_pq_stmt_bind_blob db stmt col_idx (slen + 1) env
    let h := pqStmtOf stmt
    (db, setPqStmt stmt
      { h with paramFormatList := h.paramFormatList.set col_idx 0 })

/-- sqldbal_pq_stmt_bind_text, lines 2874 to 2884. -/
def sqldbal_pq_stmt_bind_text (db : Db) (stmt : Stmt) (col_idx : Nat)
    (slen : Nat) (env : Env) : Db × Stmt :=
  let (db, stmt) := sqldbal_pq_stmt_bind_blob db stmt col_idx slen env
  let h := pqStmtOf stmt
  (db, setPqStmt stmt
    { h with paramFormatList := h.paramFormatList.set col_idx 0 })

/-- sqldbal_pq_stmt_bind_null, lines 2892 to 2901: the slot is overwritten
with NULL; the previously installed buffer is not released. -/
def sqldbal_pq_stmt_bind_null (db : Db) (stmt : Stmt) (col_idx : Nat)
    (env : Env) : Db × Stmt :=
  let h := pqStmtOf stmt
  let h :=
    { h with
      paramValueList := h.paramValueList.set col_idx Option.none,
      paramLengthList := h.paramLengthList.set col_idx 0,
      paramFormatList := h.paramFormatList.set col_idx 0 }
  (db, setPqStmt stmt h)

/-- sqldbal_pq_stmt_execute, lines 2908 to 2959. -/
def sqldbal_pq_stmt_execute (db : Db) (stmt : Stmt) (env : Env) :
    Db × Stmt :=
  let h := pqStmtOf stmt
  let h := { h with execResultPresent := true }
  if ¬ env.pqExecPrepOk then
    let db := (sqldbal_status_code_set db SQLDBAL_STATUS_EXEC).1
    let db := sqldbal_errstr_set db env.strdupOk
    (db, setPqStmt stmt { h with fetchRowIndex := 0 })
  else
    let h := { h with execRowCount := env.pqStmtNtuples }
    let (w, n) := si_int_to_size env.pqStmtNfields
    if w then
      ((sqldbal_status_code_set db SQLDBAL_STATUS_NOMEM).1,
       setPqStmt stmt { h with fetchRowIndex := 0 })
    else
      let stmt := { stmt with num_cols_result := n }
      if n ≠ 0 then
        if ¬ env.callocColumnListOk then
          ((sqldbal_status_code_set db SQLDBAL_STATUS_NOMEM).1,
           setPqStmt stmt { h with fetchRowIndex := 0 })
        else
          let h :=
            { h with
              columnValueListPresent := true,
              columnValueList := List.replicate n Option.none,
              fetchRowIndex := 0 }
          (db, setPqStmt stmt h)
      else (db, setPqStmt stmt { h with fetchRowIndex := 0 })

/-- sqldbal_pq_stmt_free_column_values, lines 2969 to 2981. -/
def sqldbal_pq_stmt_free_column_values (db : Db) (stmt : Stmt) :
    Db × Stmt :=
  let h := pqStmtOf stmt
  if h.columnValueListPresent then
    let db := h.columnValueList.foldl
      (fun db s =>
        match s with
        | Option.some b => freeBuf db b
        | Option.none => db) db
    (db, setPqStmt stmt
      { h with columnValueList := h.columnValueList.map (fun _ => Option.none) })
  else (db, stmt)

/-- sqldbal_pq_stmt_fetch, lines 2989 to 3005. -/
def sqldbal_pq_stmt_fetch (db : Db) (stmt : Stmt) (env : Env) :
    Db × Stmt × FetchResult :=
  let (db, stmt) := sqldbal_pq_stmt_free_column_values db stmt
  let h := pqStmtOf stmt
  if h.fetchRowIndex ≥ h.execRowCount then (db, stmt, FetchResult.done)
  else
    (db, setPqStmt stmt { h with fetchRowIndex := h.fetchRowIndex + 1 },
     FetchResult.row)

/-- sqldbal_pq_stmt_column_blob, lines 3015 to 3060.  Returns the blob
presence and the reported size, none where the out-parameter stays
unwritten; a bytea value decodes through sqldbal_str_hex2bin into an
adapter-owned buffer recorded in the column value list. -/
def sqldbal_pq_stmt_column_blob (db : Db) (stmt : Stmt) (col_idx : Nat)
    (env : Env) : Db × Stmt × Option Bool × Option Nat :=
  if (si_size_to_int col_idx).1 then
    ((sqldbal_status_code_set db SQLDBAL_STATUS_OVERFLOW).1, stmt,
     Option.some false, Option.none)
  else
    let pq_length := env.pqColLength col_idx
    let (w, blobsz) := si_int_to_size pq_length
    if w then
      ((sqldbal_status_code_set db SQLDBAL_STATUS_OVERFLOW).1, stmt,
       Option.some true, Option.none)
    else if blobsz = 0 ∧ env.pqColIsNull col_idx then
      (db, stmt, Option.some false, Option.some blobsz)
    else if (env.pqColValue col_idx).take 2 = "\\x" then
      let hexres :=
        if env.pqHexMallocOk then
          sqldbal_str_hex2bin ((env.pqColValue col_idx).drop 2).data
        else Option.none
      match hexres with
      | Option.some bs =>
          let (db, hid) := allocBuf db
          let h := pqStmtOf stmt
          let h :=
            { h with columnValueList :=
                h.columnValueList.set col_idx (Option.some hid) }
          (db, setPqStmt stmt h, Option.some true, Option.some bs.length)
      | Option.none =>
          let db := (sqldbal_status_code_set db SQLDBAL_STATUS_NOMEM).1
          let h := pqStmtOf stmt
          let h :=
            { h with columnValueList :=
                h.columnValueList.set col_idx Option.none }
          (db, setPqStmt stmt h, Option.some false, Option.some 0)
    else (db, stmt, Option.some true, Option.some blobsz)

/-- sqldbal_pq_stmt_column_text, lines 3070 to 3079. -/
def sqldbal_pq_stmt_column_text (db : Db) (stmt : Stmt) (col_idx : Nat)
    (env : Env) : Db × Stmt × Option Bool × Option Nat :=
  sqldbal_pq_stmt_column_blob db stmt col_idx env

/-- sqldbal_pq_stmt_column_int64, lines 3120 to 3135.  The cell text is
parsed with sqldbal_strtoi64 when present. -/
def sqldbal_pq_stmt_column_int64 (db : Db) (stmt : Stmt) (col_idx : Nat)
    (env : Env) : Db × Stmt × Int :=
  let (db, stmt, textPresent, _) := sqldbal_pq_stmt_column_text db stmt
    col_idx env
  if textPresent = Option.some true then
    let (db, i64) := sqldbal_strtoi64 db (env.pqColValue col_idx)
    (db, stmt, i64)
  else (db, stmt, 0)

/-- sqldbal_pq_stmt_column_type, lines 3088 to 3111. -/
def sqldbal_pq_stmt_column_type (db : Db) (stmt : Stmt) (col_idx : Nat)
    (env : Env) : Db × Nat :=
  if (si_size_to_int col_idx).1 then
    ((sqldbal_status_code_set db SQLDBAL_STATUS_OVERFLOW).1, columnTypeError)
  else if env.pqColIsNull col_idx then (db, columnTypeNull)
  else (db, columnTypeBlob)

/-! Dispatch facade, sqldbal.c lines 4131 to 4640.  Every dispatch through
the driver function table increments the ghost adapterCalls counter. -/

/-- g_db_error, lines 4204 to 4234: the statically allocated sentinel
connection returned when the connection allocation fails. -/
def g_db_error : Db :=
  { errstr := false, handle := DbHandle.none,
    status := SQLDBAL_STATUS_NOMEM, flags := SQLDBAL_FLAG_INVALID_MEMORY,
    driver := Driver.invalid, writes := [], adapterCalls := 0,
    connectCalls := 0, sleeps := [], allocSeq := 0, allocs := [],
    freed := [] }

/-- g_stmt_error, lines 4431 to 4439: the statically allocated sentinel
statement returned when the statement allocation fails. -/
def g_stmt_error : Stmt :=
  { num_params := 0, num_cols_result := 0, handle := StmtHandle.none,
    valid := 0, isErrorStmt := true }

/-- A freshly allocated connection value before initialization, lines 4250
to 4262.  The status field of the C value is uninitialized garbage until
sqldbal_status_code_set runs; the model starts it at 0. -/
def newDbValue (flags : Nat) (driver : Driver) : Db :=
  { errstr := false, handle := DbHandle.none, status := 0, flags := flags,
    driver := driver, writes := [], adapterCalls := 0, connectCalls := 0,
    sleeps := [], allocSeq := 0, allocs := [], freed := [] }

/-- sqldbal_open, lines 4236 to 4360. -/
def sqldbal_open (driver : Driver)
    (location port username password database : Option String)
    (flags : Nat) (option_list : List (String × String)) (env : Env) :
    Db × Nat :=
  if ¬ env.mallocDbOk then
    let db := (sqldbal_status_code_set g_db_error SQLDBAL_STATUS_NOMEM).1
    (db, sqldbal_status_code_get db)
  else
    let new_db := newDbValue flags driver
    let new_db := (sqldbal_status_code_set new_db SQLDBAL_STATUS_OK).1
    let new_db :=
      match driver with
      | Driver.mariadb | Driver.mysql | Driver.postgresql | Driver.sqlite =>
          new_db
      | Driver.invalid =>
          (sqldbal_status_code_set new_db SQLDBAL_STATUS_DRIVER_NOSUPPORT).1
    if sqldbal_status_code_get new_db = SQLDBAL_STATUS_OK then
      let new_db := { new_db with adapterCalls := new_db.adapterCalls + 1 }
      let new_db :=
        match driver with
        | Driver.mariadb | Driver.mysql =>
            sqldbal_mariadb_open new_db port option_list env
        | Driver.postgresql =>
            sqldbal_pq_open new_db location port username password database
              option_list env
        | Driver.sqlite => sqldbal_sqlite_open new_db option_list env
        | Driver.invalid => new_db
      (new_db, sqldbal_status_code_get new_db)
    else (new_db, sqldbal_status_code_get new_db)

/-- Deallocation effects of sqldbal_close, reported alongside the returned
status: whether the adapter close ran, and whether the error string and
the connection value were freed. -/
structure CloseEff where
  adapterClosed : Bool
  freedErrstr : Bool
  freedDb : Bool
deriving DecidableEq, Repr

/-- Driver dispatch of the close capability. -/
def dispatchDriverClose (db : Db) (env : Env) : Db :=
  match db.driver with
  | Driver.mariadb | Driver.mysql => sqldbal_mariadb_close db env
  | Driver.postgresql => sqldbal_pq_close db env
  | Driver.sqlite => sqldbal_sqlite_close db env
  | Driver.invalid => db

/-- sqldbal_close, lines 4362 to 4380.  The entry status is captured
first; the adapter close runs unless the sentinel marker is set or the
status is driver-not-supported; the adapter outcome replaces the captured
status only when the connection entered with OK; the connection is freed
unless the captured status ends up close-failed.  The free epilogue of the
C function appears once per branch here. -/
def sqldbal_close (db : Db) (env : Env) : Nat × Db × CloseEff :=
  let status := sqldbal_status_code_get db
  if db.flags &&& SQLDBAL_FLAG_INVALID_MEMORY = 0 then
    if status ≠ SQLDBAL_STATUS_DRIVER_NOSUPPORT then
      let db := { db with adapterCalls := db.adapterCalls + 1 }
      let db := dispatchDriverClose db env
      let status :=
        if status = SQLDBAL_STATUS_OK then sqldbal_status_code_get db
        else status
      if status ≠ SQLDBAL_STATUS_CLOSE then
        (status, { db with errstr := false },
         { adapterClosed := true, freedErrstr := true, freedDb := true })
      else
        (status, db,
         { adapterClosed := true, freedErrstr := false, freedDb := false })
    else
      if status ≠ SQLDBAL_STATUS_CLOSE then
        (status, { db with errstr := false },
         { adapterClosed := false, freedErrstr := true, freedDb := true })
      else
        (status, db,
         { adapterClosed := false, freedErrstr := false, freedDb := false })
  else
    (status, db,
     { adapterClosed := false, freedErrstr := false, freedDb := false })

/-- sqldbal_begin_transaction, lines 4392 to 4396. -/
def sqldbal_begin_transaction (db : Db) (env : Env) : Db × Nat :=
  let db := { db with adapterCalls := db.adapterCalls + 1 }
  let db :=
    match db.driver with
    | Driver.mariadb | Driver.mysql => sqldbal_mariadb_begin_transaction db env
    | Driver.postgresql => sqldbal_pq_begin_transaction db env
    | Driver.sqlite => sqldbal_sqlite_begin_transaction db env
    | Driver.invalid => db
  (db, sqldbal_status_code_get db)

/-- sqldbal_commit, lines 4398 to 4402. -/
def sqldbal_commit (db : Db) (env : Env) : Db × Nat :=
  let db := { db with adapterCalls := db.adapterCalls + 1 }
  let db :=
    match db.driver with
    | Driver.mariadb | Driver.mysql => sqldbal_mariadb_commit db env
    | Driver.postgresql => sqldbal_pq_commit db env
    | Driver.sqlite => sqldbal_sqlite_commit db env
    | Driver.invalid => db
  (db, sqldbal_status_code_get db)

/-- sqldbal_rollback, lines 4404 to 4408. -/
def sqldbal_rollback (db : Db) (env : Env) : Db × Nat :=
  let db := { db with adapterCalls := db.adapterCalls + 1 }
  let db :=
    match db.driver with
    | Driver.mariadb | Driver.mysql => sqldbal_mariadb_rollback db env
    | Driver.postgresql => sqldbal_pq_rollback db env
    | Driver.sqlite => sqldbal_sqlite_rollback db env
    | Driver.invalid => db
  (db, sqldbal_status_code_get db)

/-- sqldbal_exec, lines 4410 to 4417. -/
def sqldbal_exec (db : Db) (hasCallback : Bool) (env : Env) : Db × Nat :=
  let db := { db with adapterCalls := db.adapterCalls + 1 }
  let db :=
    match db.driver with
    | Driver.mariadb | Driver.mysql => sqldbal_mariadb_exec db hasCallback env
    | Driver.postgresql => sqldbal_pq_exec db hasCallback env
    | Driver.sqlite => sqldbal_sqlite_exec db hasCallback env
    | Driver.invalid => db
  (db, sqldbal_status_code_get db)

/-- sqldbal_pq_stmt_close, lines 3146 to 3196: clears the result, emits
DEALLOCATE through the direct-exec facade, then releases the parameter
buffers and the decoded column buffers. -/
def sqldbal_pq_stmt_close (db : Db) (stmt : Stmt) (env : Env) : Db :=
  match stmt.handle with
  | StmtHandle.pq h =>
      let (db, _) := sqldbal_exec db false env
      let db := h.paramValueList.foldl
        (fun db s =>
          match s with
          | Option.some b => freeBuf db b
          | Option.none => db) db
      if h.columnValueListPresent then
        h.columnValueList.foldl
          (fun db s =>
            match s with
            | Option.some b => freeBuf db b
            | Option.none => db) db
      else db
  | _ => db

/-- sqldbal_stmt_prepare, lines 4441 to 4463. -/
def sqldbal_stmt_prepare (db : Db) (sql_len : Nat) (env : Env) :
    Db × Stmt × Nat :=
  if ¬ env.mallocStmtOk then
    let db := (sqldbal_status_code_set db SQLDBAL_STATUS_NOMEM).1
    (db, g_stmt_error, sqldbal_status_code_get db)
  else
    let new_stmt : Stmt :=
      { num_params := 0, num_cols_result := 0, handle := StmtHandle.none,
        valid := 1, isErrorStmt := false }
    let db := { db with adapterCalls := db.adapterCalls + 1 }
    let (db, stmt) :=
      match db.driver with
      | Driver.mariadb | Driver.mysql =>
          sqldbal_mariadb_stmt_prepare db new_stmt env
      | Driver.postgresql => sqldbal_pq_stmt_prepare db new_stmt env
      | Driver.sqlite => sqldbal_sqlite_stmt_prepare db sql_len new_stmt env
      | Driver.invalid => (db, new_stmt)
    (db, stmt, sqldbal_status_code_get db)

/-- sqldbal_stmt_bind_in_range, lines 4473 to 4484: sets
invalid-parameter exactly when the index reaches the parameter count. -/
def sqldbal_stmt_bind_in_range (db : Db) (stmt : Stmt) (col_idx : Nat) :
    Db × Bool :=
  if col_idx ≥ stmt.num_params then
    ((sqldbal_status_code_set db SQLDBAL_STATUS_PARAM).1, false)
  else (db, true)

/-- sqldbal_stmt_bind_blob, lines 4486 to 4498. -/
def sqldbal_stmt_bind_blob (db : Db) (stmt : Stmt) (col_idx : Nat)
    (blobsz : Nat) (env : Env) : Db × Stmt × Nat :=
  let (db, inRange) := sqldbal_stmt_bind_in_range db stmt col_idx
  let (db, stmt) :=
    if inRange then
      let db := { db with adapterCalls := db.adapterCalls + 1 }
      match db.driver with
      | Driver.mariadb | Driver.mysql =>
          sqldbal_mariadb_stmt_bind_blob db stmt col_idx blobsz env
      | Driver.postgresql =>
          sqldbal_pq_stmt_bind_blob db stmt col_idx blobsz env
      | Driver.sqlite =>
          sqldbal_sqlite_stmt_bind_blob db stmt col_idx blobsz env
      | Driver.invalid => (db, stmt)
    else (db, stmt)
  (db, stmt, sqldbal_status_code_get db)

/-- sqldbal_stmt_bind_int64, lines 4500 to 4508. -/
def sqldbal_stmt_bind_int64 (db : Db) (stmt : Stmt) (col_idx : Nat)
    (i64 : Int) (env : Env) : Db × Stmt × Nat :=
  let (db, inRange) := sqldbal_stmt_bind_in_range db stmt col_idx
  let (db, stmt) :=
    if inRange then
      let db := { db with adapterCalls := db.adapterCalls + 1 }
      match db.driver with
      | Driver.mariadb | Driver.mysql =>
          sqldbal_mariadb_stmt_bind_int64 db stmt col_idx i64 env
      | Driver.postgresql =>
          sqldbal_pq_stmt_bind_int64 db stmt col_idx i64 env
      | Driver.sqlite =>
          sqldbal_sqlite_stmt_bind_int64 db stmt col_idx env
      | Driver.invalid => (db, stmt)
    else (db, stmt)
  (db, stmt, sqldbal_status_code_get db)

/-- sqldbal_stmt_bind_text, lines 4510 to 4529: a SIZE_MAX length means
NUL-terminated, and one byte is added for the terminator before the
adapter call. -/
def sqldbal_stmt_bind_text (db : Db) (stmt : Stmt) (col_idx : Nat)
    (s : String) (slen : Nat) (env : Env) : Db × Stmt × Nat :=
  let (db, inRange) := sqldbal_stmt_bind_in_range db stmt col_idx
  let (db, stmt) :=
    if inRange then
      let slen := if slen = SIZE_MAX then s.length else slen
      let (w, slen) := si_add_size_t slen 1
      if w then ((sqldbal_status_code_set db SQLDBAL_STATUS_NOMEM).1, stmt)
      else
        let db := { db with adapterCalls := db.adapterCalls + 1 }
        match db.driver with
        | Driver.mariadb | Driver.mysql =>
            sqldbal_mariadb_stmt_bind_text db stmt col_idx slen env
        | Driver.postgresql =>
            sqldbal_pq_stmt_bind_text db stmt col_idx slen env
        | Driver.sqlite =>
            sqldbal_sqlite_stmt_bind_text db stmt col_idx slen env
        | Driver.invalid => (db, stmt)
    else (db, stmt)
  (db, stmt, sqldbal_status_code_get db)

/-- sqldbal_stmt_bind_null, lines 4531 to 4538. -/
def sqldbal_stmt_bind_null (db : Db) (stmt : Stmt) (col_idx : Nat)
    (env : Env) : Db × Stmt × Nat :=
  let (db, inRange) := sqldbal_stmt_bind_in_range db stmt col_idx
  let (db, stmt) :=
    if inRange then
      let db := { db with adapterCalls := db.adapterCalls + 1 }
      match db.driver with
      | Driver.mariadb | Driver.mysql =>
          sqldbal_mariadb_stmt_bind_null db stmt col_idx env
      | Driver.postgresql =>
          sqldbal_pq_stmt_bind_null db stmt col_idx env
      | Driver.sqlite =>
          sqldbal_sqlite_stmt_bind_null db stmt col_idx env
      | Driver.invalid => (db, stmt)
    else (db, stmt)
  (db, stmt, sqldbal_status_code_get db)

/-- sqldbal_stmt_execute, lines 4540 to 4544. -/
def sqldbal_stmt_execute (db : Db) (stmt : Stmt) (env : Env) :
    Db × Stmt × Nat :=
  let db := { db with adapterCalls := db.adapterCalls + 1 }
  let (db, stmt) :=
    match db.driver with
    | Driver.mariadb | Driver.mysql =>
        sqldbal_mariadb_stmt_execute db stmt env
    | Driver.postgresql => sqldbal_pq_stmt_execute db stmt env
    | Driver.sqlite => sqldbal_sqlite_stmt_execute db stmt env
    | Driver.invalid => (db, stmt)
  (db, stmt, sqldbal_status_code_get db)

/-- sqldbal_stmt_fetch, lines 4546 to 4549. -/
def sqldbal_stmt_fetch (db : Db) (stmt : Stmt) (env : Env) :
    Db × Stmt × FetchResult :=
  let db := { db with adapterCalls := db.adapterCalls + 1 }
  match db.driver with
  | Driver.mariadb | Driver.mysql => sqldbal_mariadb_stmt_fetch db stmt env
  | Driver.postgresql => sqldbal_pq_stmt_fetch db stmt env
  | Driver.sqlite => sqldbal_sqlite_stmt_fetch db stmt env
  | Driver.invalid => (db, stmt, FetchResult.error)

/-- sqldbal_stmt_column_in_range, lines 4559 to 4570. -/
def sqldbal_stmt_column_in_range (db : Db) (stmt : Stmt) (col_idx : Nat) :
    Db × Bool :=
  if col_idx ≥ stmt.num_cols_result then
    ((sqldbal_status_code_set db SQLDBAL_STATUS_PARAM).1, false)
  else (db, true)

/-- sqldbal_stmt_column_blob, lines 4572 to 4584. -/
def sqldbal_stmt_column_blob (db : Db) (stmt : Stmt) (col_idx : Nat)
    (env : Env) : Db × Stmt × Nat :=
  let (db, inRange) := sqldbal_stmt_column_in_range db stmt col_idx
  let (db, stmt) :=
    if inRange then
      let db := { db with adapterCalls := db.adapterCalls + 1 }
      match db.driver with
      | Driver.mariadb | Driver.mysql =>
          ((sqldbal_mariadb_stmt_column_blob db stmt col_idx).1, stmt)
      | Driver.postgresql =>
          let (db, stmt, _, _) := sqldbal_pq_stmt_column_blob db stmt
            col_idx env
          (db, stmt)
      | Driver.sqlite =>
          ((sqldbal_sqlite_stmt_column_blob db stmt col_idx env).1, stmt)
      | Driver.invalid => (db, stmt)
    else (db, stmt)
  (db, stmt, sqldbal_status_code_get db)

/-- sqldbal_stmt_column_int64, lines 4586 to 4594. -/
def sqldbal_stmt_column_int64 (db : Db) (stmt : Stmt) (col_idx : Nat)
    (env : Env) : Db × Stmt × Nat :=
  let (db, inRange) := sqldbal_stmt_column_in_range db stmt col_idx
  let (db, stmt) :=
    if inRange then
      let db := { db with adapterCalls := db.adapterCalls + 1 }
      match db.driver with
      | Driver.mariadb | Driver.mysql =>
          ((sqldbal_mariadb_stmt_column_int64 db stmt col_idx).1, stmt)
      | Driver.postgresql =>
          let (db, stmt, _) := sqldbal_pq_stmt_column_int64 db stmt
            col_idx env
          (db, stmt)
      | Driver.sqlite =>
          ((sqldbal_sqlite_stmt_column_int64 db stmt col_idx env).1, stmt)
      | Driver.invalid => (db, stmt)
    else (db, stmt)
  (db, stmt, sqldbal_status_code_get db)

/-- sqldbal_stmt_column_text, lines 4596 to 4614. -/
def sqldbal_stmt_column_text (db : Db) (stmt : Stmt) (col_idx : Nat)
    (env : Env) : Db × Stmt × Nat :=
  let (db, inRange) := sqldbal_stmt_column_in_range db stmt col_idx
  let (db, stmt) :=
    if inRange then
      let db := { db with adapterCalls := db.adapterCalls + 1 }
      match db.driver with
      | Driver.mariadb | Driver.mysql =>
          ((sqldbal_mariadb_stmt_column_text db stmt col_idx).1, stmt)
      | Driver.postgresql =>
          let (db, stmt, _, _) := sqldbal_pq_stmt_column_text db stmt
            col_idx env
          (db, stmt)
      | Driver.sqlite =>
          ((sqldbal_sqlite_stmt_column_text db stmt col_idx env).1, stmt)
      | Driver.invalid => (db, stmt)
    else (db, stmt)
  (db, stmt, sqldbal_status_code_get db)

/-- sqldbal_stmt_column_type, lines 4616 to 4628. -/
def sqldbal_stmt_column_type (db : Db) (stmt : Stmt) (col_idx : Nat)
    (env : Env) : Db × Nat :=
  let (db, inRange) := sqldbal_stmt_column_in_range db stmt col_idx
  if inRange then
    let db := { db with adapterCalls := db.adapterCalls + 1 }
    match db.driver with
    | Driver.mariadb | Driver.mysql =>
        sqldbal_mariadb_stmt_column_type db stmt col_idx
    | Driver.postgresql => sqldbal_pq_stmt_column_type db stmt col_idx env
    | Driver.sqlite => sqldbal_sqlite_stmt_column_type db stmt col_idx env
    | Driver.invalid => (db, columnTypeError)
  else (db, columnTypeError)

/-- sqldbal_stmt_close, lines 4630 to 4640: the static error statement is
recognized by pointer identity and left alone. -/
def sqldbal_stmt_close (db : Db) (stmt : Stmt) (env : Env) : Db × Nat :=
  if ¬ stmt.isErrorStmt then
    let db := { db with adapterCalls := db.adapterCalls + 1 }
    let db :=
      match db.driver with
      | Driver.mariadb | Driver.mysql =>
          sqldbal_mariadb_stmt_close db stmt env
      | Driver.postgresql => sqldbal_pq_stmt_close db stmt env
      | Driver.sqlite => sqldbal_sqlite_stmt_close db stmt env
      | Driver.invalid => db
    (db, sqldbal_status_code_get db)
  else (db, sqldbal_status_code_get db)

/-- A SQLite connection that carries a prior exec failure, used as a
concrete evaluation point. -/
def dbExecSqlite : Db :=
  { dbInit with driver := Driver.sqlite, status := SQLDBAL_STATUS_EXEC }

/-- The all-success oracle except that the backend close fails. -/
def envSqliteCloseFail : Env := { envAllOk with sqliteCloseOk := false }

/-- A prepared SQLite statement value with one result column, used as a
concrete evaluation point. -/
def stmtSqlite1 : Stmt :=
  { num_params := 1, num_cols_result := 1, handle := StmtHandle.sqlite,
    valid := 1, isErrorStmt := false }

/-- The all-success oracle where the stored text length of the current
SQLite column is zero and the text pointer is non-NULL. -/
def envSqliteText0 : Env :=
  { envAllOk with sqliteColBytes := 0, sqliteColTextNull := false }

/-- A prepared MariaDB statement value whose single result column holds a
non-NULL five-byte stored text, used as a concrete evaluation point. -/
def stmtMariadb1 : Stmt :=
  { num_params := 0, num_cols_result := 1,
    handle := StmtHandle.mariadb
      { stmtPresent := true, bindOut := [], bindInPresent := true,
        bindInNullList := [false], bindInLengthList := [5],
        bindInBufList := ["abcd"] },
    valid := 1, isErrorStmt := false }

/-- A prepared MariaDB statement value whose single result column holds a
non-NULL text of stored length zero, used as a concrete evaluation point. -/
def stmtMariadb0 : Stmt :=
  { num_params := 0, num_cols_result := 1,
    handle := StmtHandle.mariadb
      { stmtPresent := true, bindOut := [], bindInPresent := true,
        bindInNullList := [false], bindInLengthList := [0],
        bindInBufList := [""] },
    valid := 1, isErrorStmt := false }

/-- The option keys recognized by the MariaDB set_options loop, lines 873
to 905, with the TLS keys available. -/
def mariadbKeyRecognized (k : String) : Bool :=
  k == "CONNECT_TIMEOUT" || k == "TLS_KEY" || k == "TLS_CERT" ||
  k == "TLS_CA" || k == "TLS_CAPATH" || k == "TLS_CIPHER"

/-- A fresh connection on the PostgreSQL driver. -/
def dbPq7 : Db := { dbInit with driver := Driver.postgresql }

/-- A prepared PostgreSQL statement value with one parameter slot, still
unbound, used as a concrete evaluation point. -/
def stmtPq7 : Stmt :=
  { num_params := 1, num_cols_result := 0,
    handle := StmtHandle.pq
      { namePresent := true, paramValueList := [Option.none],
        paramLengthList := [0], paramFormatList := [0],
        columnValueListPresent := false, columnValueList := [],
        execResultPresent := false, execRowCount := 0, fetchRowIndex := 0 },
    valid := 1, isErrorStmt := false }

/-- A prepared MariaDB statement value whose single parameter slot holds
the installed buffer with ghost id 5. -/
def stmtMa7 : Stmt :=
  { num_params := 1, num_cols_result := 0,
    handle := StmtHandle.mariadb
      { stmtPresent := true, bindOut := [Option.some 5],
        bindInPresent := false, bindInNullList := [],
        bindInLengthList := [], bindInBufList := [] },
    valid := 1, isErrorStmt := false }

/-- The connection after binding a blob at slot 0 of stmtPq7, then
binding NULL at the same slot, then closing the statement: the life cycle
of one PostgreSQL parameter buffer. -/
def pqLeakFinal : Db :=
  let p1 := sqldbal_pq_stmt_bind_blob dbPq7 stmtPq7 0 4 envAllOk
  let p2 := sqldbal_pq_stmt_bind_null p1.1 p1.2 0 envAllOk
  sqldbal_pq_stmt_close p2.1 p2.2 envAllOk

/-- The all-success oracle except that every sqlite3_step call reports
SQLITE_BUSY. -/
def envBusy : Env :=
  { envAllOk with sqliteStep := fun _ => SqliteStepRc.busy }

/-- The write predicate of the bound-index analysis: a status value other
than invalid-parameter. -/
@[reducible] def NotParam (v : Nat) : Prop := v ≠ SQLDBAL_STATUS_PARAM

/-- The write predicate of the status monotonicity analysis: a status
value other than OK. -/
@[reducible] def NotOk (v : Nat) : Prop := v ≠ SQLDBAL_STATUS_OK

/-! Observation predicates used by the theorems. -/

/-- Monotonicity of a status write trace: once a non-OK value is written,
no later write stores OK. -/
def MonoOk (t : List Nat) : Prop :=
  ∀ i j (hi : i < t.length) (hj : j < t.length), i < j →
    t.get ⟨i, hi⟩ ≠ SQLDBAL_STATUS_OK → t.get ⟨j, hj⟩ ≠ SQLDBAL_STATUS_OK

/-- Evolution of the status state between two connection values: the write
trace grows by a suffix whose entries all satisfy P, and the status field
holds the last written value, or the old status when nothing was
written. -/
def StatusEvolves (P : Nat → Prop) (a b : Db) : Prop :=
  ∃ d, b.writes = a.writes ++ d ∧ (∀ v ∈ d, P v) ∧
    b.status = d.getLastD a.status

/-- A connection with its ghost write trace cleared, used to observe the
writes of a single operation. -/
def scrub (db : Db) : Db := { db with writes := [] }

/-- The public operations of the library facade, each carrying its call
arguments. -/
inductive PublicOp where
  | openOp (driver : Driver)
      (location port username password database : Option String)
      (flags : Nat) (option_list : List (String × String))
  | execOp (hasCallback : Bool)
  | beginOp
  | commitOp
  | rollbackOp
  | prepareOp (sql_len : Nat)
  | bindBlobOp (stmt : Stmt) (i n : Nat)
  | bindInt64Op (stmt : Stmt) (i : Nat) (i64 : Int)
  | bindTextOp (stmt : Stmt) (i : Nat) (s : String) (slen : Nat)
  | bindNullOp (stmt : Stmt) (i : Nat)
  | executeOp (stmt : Stmt)
  | fetchOp (stmt : Stmt)
  | columnBlobOp (stmt : Stmt) (i : Nat)
  | columnInt64Op (stmt : Stmt) (i : Nat)
  | columnTextOp (stmt : Stmt) (i : Nat)
  | columnTypeOp (stmt : Stmt) (i : Nat)
  | closeOp
  | stmtCloseOp (stmt : Stmt)

/-- One public operation run against a connection: the final connection
value together with the status value the call hands back to the
application, none for the fetch call, whose return value is a fetch
result rather than a status. -/
def runOp (db : Db) (op : PublicOp) (env : Env) : Db × Option Nat :=
  match op with
  | PublicOp.openOp driver location port username password database
      flags option_list =>
      let r := sqldbal_open driver location port username password database
        flags option_list env
      (r.1, Option.some r.2)
  | PublicOp.execOp cb =>
      let r := sqldbal_exec db cb env
      (r.1, Option.some r.2)
  | PublicOp.beginOp =>
      let r := sqldbal_begin_transaction db env
      (r.1, Option.some r.2)
  | PublicOp.commitOp =>
      let r := sqldbal_commit db env
      (r.1, Option.some r.2)
  | PublicOp.rollbackOp =>
      let r := sqldbal_rollback db env
      (r.1, Option.some r.2)
  | PublicOp.prepareOp sql_len =>
      let r := sqldbal_stmt_prepare db sql_len env
      (r.1, Option.some r.2.2)
  | PublicOp.bindBlobOp stmt i n =>
      let r := sqldbal_stmt_bind_blob db stmt i n env
      (r.1, Option.some r.2.2)
  | PublicOp.bindInt64Op stmt i i64 =>
      let r := sqldbal_stmt_bind_int64 db stmt i i64 env
      (r.1, Option.some r.2.2)
  | PublicOp.bindTextOp stmt i s slen =>
      let r := sqldbal_stmt_bind_text db stmt i s slen env
      (r.1, Option.some r.2.2)
  | PublicOp.bindNullOp stmt i =>
      let r := sqldbal_stmt_bind_null db stmt i env
      (r.1, Option.some r.2.2)
  | PublicOp.executeOp stmt =>
      let r := sqldbal_stmt_execute db stmt env
      (r.1, Option.some r.2.2)
  | PublicOp.fetchOp stmt =>
      let r := sqldbal_stmt_fetch db stmt env
      (r.1, Option.none)
  | PublicOp.columnBlobOp stmt i =>
      let r := sqldbal_stmt_column_blob db stmt i env
      (r.1, Option.some r.2.2)
  | PublicOp.columnInt64Op stmt i =>
      let r := sqldbal_stmt_column_int64 db stmt i env
      (r.1, Option.some r.2.2)
  | PublicOp.columnTextOp stmt i =>
      let r := sqldbal_stmt_column_text db stmt i env
      (r.1, Option.some r.2.2)
  | PublicOp.columnTypeOp stmt i =>
      let r := sqldbal_stmt_column_type db stmt i env
      (r.1, Option.some (sqldbal_status_code_get r.1))
  | PublicOp.closeOp =>
      let r := sqldbal_close db env
      (r.2.1, Option.some r.1)
  | PublicOp.stmtCloseOp stmt =>
      let r := sqldbal_stmt_close db stmt env
      (r.1, Option.some r.2)

/-- Closed form of sqldbal_status_code_set: the recursion bottoms out after
one level, writing invalid-parameter first and the raw value second when the
value lies outside the enumeration. -/
theorem sqldbal_status_code_set_eq (db : Db) (v : Nat) :
    sqldbal_status_code_set db v =
      (if SQLDBAL_STATUS_LAST ≤ v then
        { db with status := v, writes := db.writes ++ [SQLDBAL_STATUS_PARAM, v] }
       else { db with status := v, writes := db.writes ++ [v] }, v) := by
  by_cases h : SQLDBAL_STATUS_LAST ≤ v
  · rw [sqldbal_status_code_set, if_pos h, sqldbal_status_code_set,
      if_neg (by simp [SQLDBAL_STATUS_LAST, SQLDBAL_STATUS_PARAM]), if_pos h]
    simp
  · rw [sqldbal_status_code_set, if_neg h, if_neg h]

/-- Claim C4: the source normalization claim.  After the call the status
field is claimed to hold a member of the closed twelve-kind enumeration,
with an out-of-range value normalized to invalid-parameter.  The code
instead overwrites the recursive normalization with the raw value: at the
out-of-range input 100 the stored status is 100, which is not below the
enumeration bound and is not invalid-parameter. -/
theorem claim_C4_counterexample :
    (sqldbal_status_code_set dbInit 100).1.status = 100 ∧
    ¬ ((sqldbal_status_code_set dbInit 100).1.status < SQLDBAL_STATUS_LAST) ∧
    (sqldbal_status_code_set dbInit 100).1.status ≠ SQLDBAL_STATUS_PARAM := by
  rw [sqldbal_status_code_set_eq]
  refine ⟨?_, ?_, ?_⟩ <;>
    simp [SQLDBAL_STATUS_LAST, SQLDBAL_STATUS_PARAM]

/-- Claim C4 (amended): for every status value v, including values outside
the enumeration, sqldbal_status_code_set terminates with self-recursion
depth at most one, visible in the write trace of the call: an out-of-range
v produces exactly the two writes invalid-parameter then v, an in-range v
exactly the single write v.  Afterwards the status field holds v itself:
the out-of-range value is stored unchanged, not normalized. -/
theorem claim_C4 (db : Db) (v : Nat) :
    (sqldbal_status_code_set db v).1.status = v ∧
    (sqldbal_status_code_set db v).2 = v ∧
    (sqldbal_status_code_set db v).1.writes =
      db.writes ++
        (if SQLDBAL_STATUS_LAST ≤ v then [SQLDBAL_STATUS_PARAM, v] else [v]) := by
  rw [sqldbal_status_code_set_eq]
  by_cases h : SQLDBAL_STATUS_LAST ≤ v <;> simp [h]

/-! Claim C5 support: evaluation of the base-16 strtoul scan on chunks of
two hexadecimal digits, and the structural behavior of the hex2bin loop. -/

/-- No hexadecimal digit is a space character. -/
theorem hexDigit_not_space : ∀ c ∈ hexDigitList, cIsSpace c = false := by decide

/-- No hexadecimal digit is a sign character. -/
theorem hexDigit_not_sign : ∀ c ∈ hexDigitList, c ≠ '+' ∧ c ≠ '-' := by decide

/-- Hexadecimal digit values stay below 16. -/
theorem hexVal_lt_16 : ∀ c ∈ hexDigitList, hexVal c < 16 := by decide

/-- Re-encoding a digit value yields the lowercased digit character. -/
theorem hexDigitChar_hexVal :
    ∀ c ∈ hexDigitList, hexDigitChar (hexVal c) = c.toLower := by decide

/-- A chunk of two hexadecimal digits parses to its place value with the
end pointer on the terminator. -/
theorem strtoul16_pair (c0 c1 : Char) (h0 : cIsXDigit c0 = true)
    (h1 : cIsXDigit c1 = true) :
    strtoul16 [c0, c1] = (16 * hexVal c0 + hexVal c1, 2) := by
  have m0 : c0 ∈ hexDigitList := of_decide_eq_true h0
  have m1 : c1 ∈ hexDigitList := of_decide_eq_true h1
  have v0 := hexVal_lt_16 c0 m0
  have v1 := hexVal_lt_16 c1 m1
  have sgn := hexDigit_not_sign c0 m0
  unfold strtoul16
  simp only [List.takeWhile, hexDigit_not_space c0 m0, scanSign,
    if_neg sgn.1, if_neg sgn.2, List.drop, List.length, digitsVal,
    List.foldl, h0, h1, cond_false, cond_true, Bool.false_eq_true,
    ite_false, List.length_nil]
  have hle : ¬ ((0 * 16 + hexVal c0) * 16 + hexVal c1 > ULONG_MAX) := by
    simp [ULONG_MAX]; omega
  rw [if_neg (by omega : ¬ (0 + 1 + 1 = 0)), if_neg hle]
  simp only [Prod.mk.injEq]
  exact ⟨by ring, by norm_num⟩

/-- Round trip of the hex2bin loop on chunks of hexadecimal digits. -/
theorem hex2binLoop_roundtrip :
    ∀ H : List Char, (∀ c ∈ H, cIsXDigit c = true) → H.length % 2 = 0 →
      ∃ bs, hex2binLoop H = some bs ∧ bs.length = H.length / 2 ∧
        hexEncode bs = H.map Char.toLower
  | [], _, _ => ⟨[], rfl, rfl, rfl⟩
  | [c], _, hlen => by simp at hlen
  | c0 :: c1 :: rest, hall, hlen => by
      have h0 : cIsXDigit c0 = true := hall c0 (by simp)
      have h1 : cIsXDigit c1 = true := hall c1 (by simp)
      have hrest : rest.length % 2 = 0 := by
        simp [List.length] at hlen; omega
      obtain ⟨bs, hb1, hb2, hb3⟩ := hex2binLoop_roundtrip rest
        (fun c hc => hall c (by simp [hc])) hrest
      have v0 := hexVal_lt_16 c0 (of_decide_eq_true h0)
      have v1 := hexVal_lt_16 c1 (of_decide_eq_true h1)
      refine ⟨(16 * hexVal c0 + hexVal c1) % 256 :: bs, ?_, ?_, ?_⟩
      · simp [hex2binLoop, strtoul16_pair c0 c1 h0 h1, hb1]
      · simp [List.length, hb2]; omega
      · have hmod : (16 * hexVal c0 + hexVal c1) % 256 =
            16 * hexVal c0 + hexVal c1 := Nat.mod_eq_of_lt (by omega)
        have hdiv : (16 * hexVal c0 + hexVal c1) / 16 = hexVal c0 := by omega
        have hmod16 : (16 * hexVal c0 + hexVal c1) % 16 = hexVal c1 := by
          omega
        simp [hexEncode, hmod, hdiv, hmod16,
          hexDigitChar_hexVal c0 (of_decide_eq_true h0),
          hexDigitChar_hexVal c1 (of_decide_eq_true h1)]
        simpa [hexEncode] using hb3

/-- The byte count of every successful hex2bin loop run is half the
character count. -/
theorem hex2binLoop_length :
    ∀ H : List Char, ∀ bs, hex2binLoop H = some bs → bs.length = H.length / 2
  | [], bs, h => by simp [hex2binLoop] at h; simp [← h]
  | [c], bs, h => by simp [hex2binLoop] at h
  | c0 :: c1 :: rest, bs, h => by
      rw [hex2binLoop] at h
      by_cases hep : (strtoul16 [c0, c1]).2 ≠ 2
      · simp [hep] at h
      · simp only [hep, ite_false] at h
        rcases hrec : hex2binLoop rest with _ | bs'
        · rw [hrec] at h; simp at h
        · rw [hrec] at h
          simp only [Option.some.injEq] at h
          have := hex2binLoop_length rest bs' hrec
          simp [← h, List.length, this]
          omega

/-- The hex2bin loop fails exactly when some chunk is not consumed in
full by the base-16 strtoul scan. -/
theorem hex2binLoop_none_iff :
    ∀ H : List Char, H.length % 2 = 0 →
      (hex2binLoop H = none ↔ pairsOk H = false)
  | [], _ => by simp [hex2binLoop, pairsOk]
  | [c], hlen => by simp at hlen
  | c0 :: c1 :: rest, hlen => by
      have hrest : rest.length % 2 = 0 := by
        simp [List.length] at hlen; omega
      have ih := hex2binLoop_none_iff rest hrest
      rw [hex2binLoop, pairsOk]
      by_cases hep : (strtoul16 [c0, c1]).2 ≠ 2
      · simp [hep]
      · simp only [hep, ite_false]
        rcases hrec : hex2binLoop rest with _ | bs'
        · rw [hrec] at ih
          simp only [true_iff] at ih
          simp [ih, hep]
        · rw [hrec] at ih
          simp only [Option.some.injEq] at ih ⊢
          simp only [not_not] at hep
          simp [hep, ← ih]

/-- Claim C5: the source claims that every input containing a character
that is not a hexadecimal digit fails.  The two-character input made of a
plus sign and the digit 1 contains a non-hexadecimal character, yet the
decoder accepts it and returns the byte 1, because the base-16 strtoul
scan of the chunk consumes a leading sign. -/
theorem claim_C5_counterexample :
    sqldbal_str_hex2bin ['+', '1'] = some [1] ∧
    sqldbal_str_hex2bin ['+', '1'] ≠ none ∧
    cIsXDigit '+' = false := by decide

/-- Claim C5 (amended): for every even-length string of hexadecimal digits
the decoder returns a buffer of half the input length whose re-encoding
reproduces the input up to letter case; every odd-length input fails;
every successful run returns half the input length; and an even-length
input fails exactly when some two-character chunk is not consumed in full
by the base-16 strtoul scan - a chunk whose non-hexadecimal character is a
leading space or sign that strtoul accepts does not cause a failure. -/
theorem claim_C5 :
    (∀ H : List Char, (∀ c ∈ H, cIsXDigit c = true) → H.length % 2 = 0 →
      ∃ bs, sqldbal_str_hex2bin H = some bs ∧ bs.length = H.length / 2 ∧
        hexEncode bs = H.map Char.toLower) ∧
    (∀ H : List Char, H.length % 2 = 1 → sqldbal_str_hex2bin H = none) ∧
    (∀ H : List Char, ∀ bs, sqldbal_str_hex2bin H = some bs →
      bs.length = H.length / 2) ∧
    (∀ H : List Char, H.length % 2 = 0 →
      (sqldbal_str_hex2bin H = none ↔ pairsOk H = false)) := by
  refine ⟨?_, ?_, ?_, ?_⟩
  · intro H hall hlen
    obtain ⟨bs, h1, h2, h3⟩ := hex2binLoop_roundtrip H hall hlen
    exact ⟨bs, by simp [sqldbal_str_hex2bin, hlen, h1], h2, h3⟩
  · intro H hlen
    simp [sqldbal_str_hex2bin, hlen]
  · intro H bs h
    rw [sqldbal_str_hex2bin] at h
    by_cases hlen : H.length % 2 ≠ 1
    · exact hex2binLoop_length H bs (by simpa [hlen] using h)
    · simp [hlen] at h
  · intro H hlen
    rw [sqldbal_str_hex2bin, if_pos (by omega)]
    exact hex2binLoop_none_iff H hlen

/-- Claim C5 witness: the amended statement evaluated on the concrete
input made of the digits 0 and f. -/
theorem claim_C5_witness :
    (∀ c ∈ (['0', 'f'] : List Char), cIsXDigit c = true) ∧
    (['0', 'f'] : List Char).length % 2 = 0 ∧
    (∃ bs, sqldbal_str_hex2bin ['0', 'f'] = some bs ∧
      bs.length = (['0', 'f'] : List Char).length / 2 ∧
      hexEncode bs = (['0', 'f'] : List Char).map Char.toLower) ∧
    sqldbal_str_hex2bin ['0'] = none :=
  ⟨by decide, by decide,
   claim_C5.1 ['0', 'f'] (by decide) (by decide),
   claim_C5.2.1 ['0'] (by decide)⟩

/-! Toolkit for the status-evolution predicate. -/

/-- getLastD of a cons steps to the tail with the head as default. -/
theorem getLastD_cons (a x : Nat) (l : List Nat) :
    (a :: l).getLastD x = l.getLastD a := by
  cases l <;> simp [List.getLastD]

/-- getLastD distributes over append. -/
theorem getLastD_append (d1 d2 : List Nat) (x : Nat) :
    (d1 ++ d2).getLastD x = d2.getLastD (d1.getLastD x) := by
  induction d1 generalizing x with
  | nil => simp [List.getLastD]
  | cons a d1 ih => rw [List.cons_append, getLastD_cons, getLastD_cons, ih]

/-- The default-valued last element of a nonempty list is a member. -/
theorem getLastD_mem : ∀ (d : List Nat) (x : Nat), d ≠ [] → d.getLastD x ∈ d
  | [a], _, _ => by simp [List.getLastD]
  | a :: b :: d, x, _ => by
      rw [getLastD_cons]
      exact List.mem_cons_of_mem a (getLastD_mem (b :: d) a (by simp))

theorem se_refl {P : Nat → Prop} (a : Db) : StatusEvolves P a a :=
  ⟨[], by simp, by simp, by simp [List.getLastD]⟩

theorem se_ghost {P : Nat → Prop} {a b : Db} (hw : b.writes = a.writes)
    (hs : b.status = a.status) : StatusEvolves P a b :=
  ⟨[], by simp [hw], by simp, by simp [hs, List.getLastD]⟩

theorem se_trans {P : Nat → Prop} {a b c : Db} (h1 : StatusEvolves P a b)
    (h2 : StatusEvolves P b c) : StatusEvolves P a c := by
  obtain ⟨d1, hw1, hp1, hs1⟩ := h1
  obtain ⟨d2, hw2, hp2, hs2⟩ := h2
  refine ⟨d1 ++ d2, ?_, ?_, ?_⟩
  · rw [hw2, hw1, List.append_assoc]
  · intro v hv
    rcases List.mem_append.1 hv with h | h
    · exact hp1 v h
    · exact hp2 v h
  · rw [hs2, hs1, getLastD_append]

theorem se_set {P : Nat → Prop} (a : Db) (v : Nat) (hP : P v)
    (hP1 : SQLDBAL_STATUS_LAST ≤ v → P SQLDBAL_STATUS_PARAM) :
    StatusEvolves P a (sqldbal_status_code_set a v).1 := by
  rw [sqldbal_status_code_set_eq]
  by_cases h : SQLDBAL_STATUS_LAST ≤ v
  · refine ⟨[SQLDBAL_STATUS_PARAM, v], by simp [h], ?_, ?_⟩
    · intro u hu
      simp only [List.mem_cons, List.not_mem_nil, or_false] at hu
      rcases hu with rfl | rfl
      · exact hP1 h
      · exact hP
    · simp [h, getLastD_cons, List.getLastD]
  · refine ⟨[v], by simp [h], ?_, ?_⟩
    · intro u hu
      simp only [List.mem_cons, List.not_mem_nil, or_false] at hu
      rcases hu with rfl
      exact hP
    · simp [h, getLastD_cons, List.getLastD]

theorem se_errstr_set {P : Nat → Prop} (a : Db) (ok : Bool)
    (h2 : P SQLDBAL_STATUS_NOMEM) :
    StatusEvolves P a (sqldbal_errstr_set a ok) := by
  unfold sqldbal_errstr_set
  cases ok with
  | true => exact se_ghost (by simp) (by simp)
  | false =>
      simp only [Bool.false_eq_true, ite_false]
      have h := se_set (P := P) { a with errstr := false }
        SQLDBAL_STATUS_NOMEM h2
        (by intro hc; simp [SQLDBAL_STATUS_LAST, SQLDBAL_STATUS_NOMEM] at hc)
      exact se_trans (se_ghost (by simp) (by simp)) h

theorem se_err_set {P : Nat → Prop} (a : Db) (v : Nat) (ok : Bool)
    (hP : P v) (hP1 : SQLDBAL_STATUS_LAST ≤ v → P SQLDBAL_STATUS_PARAM)
    (h2 : P SQLDBAL_STATUS_NOMEM) :
    StatusEvolves P a (sqldbal_err_set a v ok) :=
  se_trans (se_set a v hP hP1) (se_errstr_set _ ok h2)

theorem se_strtoi64 {P : Nat → Prop} (a : Db) (t : String)
    (h8 : P SQLDBAL_STATUS_COLUMN_COERCE) :
    StatusEvolves P a (sqldbal_strtoi64 a t).1 := by
  rw [sqldbal_strtoi64]
  rcases strtoll10 t.data with ⟨lli, ep, erange⟩
  dsimp only
  split
  · exact se_set a SQLDBAL_STATUS_COLUMN_COERCE h8
      (by intro hc; simp [SQLDBAL_STATUS_LAST, SQLDBAL_STATUS_COLUMN_COERCE] at hc)
  · exact se_refl a

theorem se_strtoui {P : Nat → Prop} (a : Db) (s : Option String) (m : Nat)
    (h1 : P SQLDBAL_STATUS_PARAM) :
    StatusEvolves P a (sqldbal_strtoui a s m).1 := by
  match s with
  | Option.none => exact se_refl a
  | Option.some str =>
      simp only [sqldbal_strtoui]
      rcases strtoul10 str.data with ⟨ul, ep⟩
      dsimp only
      split
      · exact se_set a SQLDBAL_STATUS_PARAM h1 (fun _ => h1)
      · exact se_refl a

/-- The final status of an evolution either is the entry status or
satisfies the write predicate. -/
theorem se_status_cases {P : Nat → Prop} {a b : Db}
    (h : StatusEvolves P a b) : b.status = a.status ∨ P b.status := by
  obtain ⟨d, _, hp, hs⟩ := h
  rcases eq_or_ne d [] with rfl | hne
  · left; simpa [List.getLastD] using hs
  · right; rw [hs]; exact hp _ (getLastD_mem d a.status hne)

/-- Claim C2: an allocation failure in sqldbal_open stores the sentinel
connection in the output handle and returns out-of-memory; the sentinel
status is out-of-memory, its flags carry the invalid-memory marker, and
sqldbal_close on the returned sentinel calls no adapter function, frees
nothing and returns out-of-memory. -/
theorem claim_C2 (driver : Driver)
    (location port username password database : Option String)
    (flags : Nat) (option_list : List (String × String)) (env env2 : Env)
    (h : env.mallocDbOk = false) :
    (sqldbal_open driver location port username password database flags
        option_list env).2 = SQLDBAL_STATUS_NOMEM ∧
    (sqldbal_open driver location port username password database flags
        option_list env).1 =
      { g_db_error with writes := [SQLDBAL_STATUS_NOMEM] } ∧
    g_db_error.status = SQLDBAL_STATUS_NOMEM ∧
    g_db_error.flags &&& SQLDBAL_FLAG_INVALID_MEMORY ≠ 0 ∧
    (sqldbal_close (sqldbal_open driver location port username password
        database flags option_list env).1 env2).1 = SQLDBAL_STATUS_NOMEM ∧
    (sqldbal_close (sqldbal_open driver location port username password
        database flags option_list env).1 env2).2.2 =
      { adapterClosed := false, freedErrstr := false, freedDb := false } ∧
    (sqldbal_close (sqldbal_open driver location port username password
        database flags option_list env).1 env2).2.1 =
      (sqldbal_open driver location port username password database flags
        option_list env).1 := by
  have hopen : sqldbal_open driver location port username password database
      flags option_list env =
      ({ g_db_error with writes := [SQLDBAL_STATUS_NOMEM] },
       SQLDBAL_STATUS_NOMEM) := by
    unfold sqldbal_open
    rw [sqldbal_status_code_set_eq]
    simp [h, sqldbal_status_code_get, g_db_error, SQLDBAL_STATUS_LAST,
      SQLDBAL_STATUS_NOMEM]
  have hflags : SQLDBAL_FLAG_INVALID_MEMORY &&& SQLDBAL_FLAG_INVALID_MEMORY ≠ 0 := by
    decide
  have hne0 : ¬ (SQLDBAL_FLAG_INVALID_MEMORY = 0) := by decide
  have hclose : sqldbal_close
      ({ g_db_error with writes := [SQLDBAL_STATUS_NOMEM] }) env2 =
      (SQLDBAL_STATUS_NOMEM,
       { g_db_error with writes := [SQLDBAL_STATUS_NOMEM] },
       { adapterClosed := false, freedErrstr := false, freedDb := false }) := by
    unfold sqldbal_close
    simp [sqldbal_status_code_get, g_db_error, hflags, hne0]
  rw [hopen]
  refine ⟨rfl, rfl, rfl, by simpa [g_db_error] using hflags, ?_, ?_, ?_⟩ <;>
    simp [hclose]

/-- Claim C2 witness: the statement evaluated at the SQLite driver with
the all-success oracle except the connection allocation. -/
theorem claim_C2_witness :
    ({ envAllOk with mallocDbOk := false } : Env).mallocDbOk = false ∧
    (sqldbal_open Driver.sqlite Option.none Option.none Option.none
        Option.none Option.none 0 [] { envAllOk with mallocDbOk := false }).2 =
      SQLDBAL_STATUS_NOMEM :=
  ⟨rfl,
   (claim_C2 Driver.sqlite Option.none Option.none Option.none Option.none
      Option.none 0 [] { envAllOk with mallocDbOk := false } envAllOk
      rfl).1⟩

/-- Claim C10: the source claims that whenever the adapter close reports
close-failed, sqldbal_close returns close-failed and does not free the
connection.  On a connection that enters close with a prior exec failure,
a failing backend close still stores close-failed in the connection, yet
sqldbal_close returns the entry status exec-failed and frees the
connection, because the captured status is only refreshed from the
adapter when the connection entered with OK. -/
theorem claim_C10_counterexample :
    (sqldbal_close dbExecSqlite envSqliteCloseFail).2.1.status =
      SQLDBAL_STATUS_CLOSE ∧
    (sqldbal_close dbExecSqlite envSqliteCloseFail).1 =
      SQLDBAL_STATUS_EXEC ∧
    (sqldbal_close dbExecSqlite envSqliteCloseFail).2.2.freedDb = true ∧
    (sqldbal_close dbExecSqlite envSqliteCloseFail).2.2.freedErrstr = true := by
  have h : sqldbal_close dbExecSqlite envSqliteCloseFail =
      (SQLDBAL_STATUS_EXEC,
       { dbExecSqlite with
         errstr := false,
         adapterCalls := 1,
         status := SQLDBAL_STATUS_CLOSE,
         writes := [SQLDBAL_STATUS_CLOSE] },
       { adapterClosed := true, freedErrstr := true, freedDb := true }) := by
    unfold sqldbal_close dispatchDriverClose sqldbal_sqlite_close
      sqldbal_sqlite_error sqldbal_err_set sqldbal_errstr_set
    simp [sqldbal_status_code_set_eq, dbExecSqlite, dbInit,
      envSqliteCloseFail, envAllOk, sqldbal_status_code_get,
      SQLDBAL_STATUS_EXEC, SQLDBAL_STATUS_CLOSE, SQLDBAL_STATUS_LAST,
      SQLDBAL_STATUS_DRIVER_NOSUPPORT, SQLDBAL_STATUS_OK,
      SQLDBAL_FLAG_INVALID_MEMORY]
  rw [h]
  exact ⟨rfl, rfl, rfl, rfl⟩

/-- Claim C10 (amended): for every non-sentinel connection, the adapter
close is skipped exactly when the entry status is driver-not-supported;
the connection value and error string are freed exactly when the returned
status is not close-failed; a connection entering with a non-OK status
returns that entry status even when the adapter close fails, because the
captured status is refreshed from the adapter only when the entry status
was OK, so the frees are skipped only when the entry status itself was
close-failed; and on the embedded-engine driver entering with OK, a
failing backend close returns close-failed without freeing, while a
successful one returns OK and frees. -/
theorem claim_C10 (db : Db) (env : Env)
    (hsent : db.flags &&& SQLDBAL_FLAG_INVALID_MEMORY = 0) :
    ((sqldbal_close db env).2.2.adapterClosed =
      decide (db.status ≠ SQLDBAL_STATUS_DRIVER_NOSUPPORT)) ∧
    ((sqldbal_close db env).2.2.freedDb =
      decide ((sqldbal_close db env).1 ≠ SQLDBAL_STATUS_CLOSE)) ∧
    ((sqldbal_close db env).2.2.freedErrstr =
      decide ((sqldbal_close db env).1 ≠ SQLDBAL_STATUS_CLOSE)) ∧
    (db.status ≠ SQLDBAL_STATUS_OK → (sqldbal_close db env).1 = db.status) ∧
    (db.status = SQLDBAL_STATUS_OK → db.driver = Driver.sqlite →
      env.sqliteCloseOk = false → env.strdupOk = true →
      (sqldbal_close db env).1 = SQLDBAL_STATUS_CLOSE ∧
      (sqldbal_close db env).2.2.freedDb = false) ∧
    (db.status = SQLDBAL_STATUS_OK → db.driver = Driver.sqlite →
      env.sqliteCloseOk = true →
      (sqldbal_close db env).1 = SQLDBAL_STATUS_OK ∧
      (sqldbal_close db env).2.2.freedDb = true) := by
  by_cases hns : db.status = SQLDBAL_STATUS_DRIVER_NOSUPPORT
  · have h : sqldbal_close db env =
        (db.status, { db with errstr := false },
         { adapterClosed := false, freedErrstr := true, freedDb := true }) := by
      unfold sqldbal_close
      simp [hsent, sqldbal_status_code_get, hns, SQLDBAL_STATUS_CLOSE,
        SQLDBAL_STATUS_DRIVER_NOSUPPORT]
    rw [h]
    refine ⟨by simp [hns], by simp [hns, SQLDBAL_STATUS_DRIVER_NOSUPPORT,
      SQLDBAL_STATUS_CLOSE], by simp [hns, SQLDBAL_STATUS_DRIVER_NOSUPPORT,
      SQLDBAL_STATUS_CLOSE], fun _ => rfl, ?_, ?_⟩ <;>
      · intro h0
        rw [hns] at h0
        simp [SQLDBAL_STATUS_DRIVER_NOSUPPORT, SQLDBAL_STATUS_OK] at h0
  · have hunf : sqldbal_close db env =
        (if (if db.status = SQLDBAL_STATUS_OK then
              (dispatchDriverClose
                { db with adapterCalls := db.adapterCalls + 1 } env).status
            else db.status) ≠ SQLDBAL_STATUS_CLOSE then
          ((if db.status = SQLDBAL_STATUS_OK then
              (dispatchDriverClose
                { db with adapterCalls := db.adapterCalls + 1 } env).status
            else db.status),
           { dispatchDriverClose
              { db with adapterCalls := db.adapterCalls + 1 } env with
             errstr := false },
           { adapterClosed := true, freedErrstr := true, freedDb := true })
        else
          ((if db.status = SQLDBAL_STATUS_OK then
              (dispatchDriverClose
                { db with adapterCalls := db.adapterCalls + 1 } env).status
            else db.status),
           dispatchDriverClose
             { db with adapterCalls := db.adapterCalls + 1 } env,
           { adapterClosed := true, freedErrstr := false,
             freedDb := false })) := by
      unfold sqldbal_close
      simp only [hsent, sqldbal_status_code_get, hns, ne_eq,
        not_false_eq_true, ite_true, if_true]
    rw [hunf]
    set db1 := dispatchDriverClose
      { db with adapterCalls := db.adapterCalls + 1 } env with hdb1
    set r := (if db.status = SQLDBAL_STATUS_OK then db1.status
      else db.status) with hr
    refine ⟨?_, ?_, ?_, ?_, ?_, ?_⟩
    · split <;> simp [hns]
    · split <;> simp_all
    · split <;> simp_all
    · intro h0
      have hrr : r = db.status := by rw [hr, if_neg h0]
      split <;> simp [hrr]
    · intro hok hdrv hclose hdup
      have h1 : db1 = { db with
          adapterCalls := db.adapterCalls + 1,
          errstr := true,
          status := SQLDBAL_STATUS_CLOSE,
          writes := db.writes ++ [SQLDBAL_STATUS_CLOSE] } := by
        rw [hdb1]
        unfold dispatchDriverClose sqldbal_sqlite_close
          sqldbal_sqlite_error sqldbal_err_set sqldbal_errstr_set
        rw [hdrv]
        rw [sqldbal_status_code_set_eq]
        simp [hclose, hdup, SQLDBAL_STATUS_LAST, SQLDBAL_STATUS_CLOSE]
      have hrr : r = SQLDBAL_STATUS_CLOSE := by
        rw [hr, if_pos hok, h1]
      rw [if_neg (by simp [hrr])]
      exact ⟨hrr, rfl⟩
    · intro hok hdrv hclose
      have h1 : db1 = { db with adapterCalls := db.adapterCalls + 1 } := by
        rw [hdb1]
        unfold dispatchDriverClose sqldbal_sqlite_close
        rw [hdrv]
        simp [hclose]
      have hrr : r = SQLDBAL_STATUS_OK := by
        rw [hr, if_pos hok, h1, hok]
      have hne : r ≠ SQLDBAL_STATUS_CLOSE := by
        rw [hrr]; simp [SQLDBAL_STATUS_OK, SQLDBAL_STATUS_CLOSE]
      rw [if_pos hne]
      exact ⟨hrr, rfl⟩

/-- Claim C10 witness: the amended statement evaluated on a non-sentinel
SQLite connection that enters close with an exec failure. -/
theorem claim_C10_witness :
    dbExecSqlite.flags &&& SQLDBAL_FLAG_INVALID_MEMORY = 0 ∧
    dbExecSqlite.status ≠ SQLDBAL_STATUS_OK ∧
    (sqldbal_close dbExecSqlite envSqliteCloseFail).1 = dbExecSqlite.status :=
  ⟨by decide, by decide,
   (claim_C10 dbExecSqlite envSqliteCloseFail (by decide)).2.2.2.1
     (by decide)⟩

/-- Claim C8 counterexample: for a fetched non-NULL text column whose
stored length is zero, the SQLite adapter reports length 0 while the
MariaDB adapter reports the size_t wrap 2^64 - 1, so the reported length
is not the stored length decremented by one for both adapters, including
when the stored text length is zero: the SQLite decrement is guarded by
a nonzero test and is skipped at zero. -/
theorem claim_C8_counterexample :
    (sqldbal_sqlite_stmt_column_text dbInit stmtSqlite1 0 envSqliteText0).2.2
        = Option.some 0 ∧
    (sqldbal_mariadb_stmt_column_text dbInit stmtMariadb0 0).2.2
        = 2 ^ 64 - 1 ∧
    (0 : Nat) ≠ 2 ^ 64 - 1 := by
  refine ⟨by decide, ?_, by decide⟩
  simp [sqldbal_mariadb_stmt_column_text, stmtMariadb0, mariadbStmtOf]

/-- Claim C8, amended: for every fetched row and in-range column index,
stmt_column_text yields a non-NULL pointer together with a reported
length; for the MariaDB adapter the reported length is the stored length
decremented by one in size_t arithmetic, which equals stored - 1 when the
stored length is at least one but wraps to 2^64 - 1 when the stored
length is zero; for the SQLite adapter the decrement is guarded, so the
reported length is stored - 1 when the stored byte count is at least one
and 0 (not a wrap) when the stored byte count is zero. -/
theorem claim_C8 (db : Db) (sm ss : Stmt) (i : Nat) (env : Env) (len : Nat)
    (hm_nonnull : (mariadbStmtOf sm).bindInNullList.getD i false = false)
    (hm_len : (mariadbStmtOf sm).bindInLengthList.getD i 0 = len)
    (hlen : len < 2 ^ 64)
    (hi : i ≤ INT_MAX)
    (hb : 0 ≤ env.sqliteColBytes)
    (ht : env.sqliteColTextNull = false) :
    ((sqldbal_mariadb_stmt_column_text db sm i).2.1 = true ∧
     (sqldbal_mariadb_stmt_column_text db sm i).2.2 =
        (len + 2 ^ 64 - 1) % 2 ^ 64 ∧
     (1 ≤ len → (sqldbal_mariadb_stmt_column_text db sm i).2.2 = len - 1) ∧
     (len = 0 →
        (sqldbal_mariadb_stmt_column_text db sm i).2.2 = 2 ^ 64 - 1)) ∧
    ((sqldbal_sqlite_stmt_column_text db ss i env).2.1 = Option.some true ∧
     (1 ≤ env.sqliteColBytes.toNat →
        (sqldbal_sqlite_stmt_column_text db ss i env).2.2 =
          Option.some (env.sqliteColBytes.toNat - 1)) ∧
     (env.sqliteColBytes = 0 →
        (sqldbal_sqlite_stmt_column_text db ss i env).2.2 =
          Option.some 0)) := by
  constructor
  · simp only [sqldbal_mariadb_stmt_column_text, hm_nonnull, hm_len,
      Bool.false_eq_true, if_false]
    refine ⟨trivial, trivial, ?_, ?_⟩
    · intro h1; omega
    · intro h0; subst h0; rfl
  · have hsz : (si_size_to_int i).1 = false := by
      simp [si_size_to_int]
      omega
    have hw : (si_int_to_size env.sqliteColBytes).1 = false := by
      simp [si_int_to_size]
      omega
    have hv : (si_int_to_size env.sqliteColBytes).2 =
        env.sqliteColBytes.toNat := rfl
    simp only [sqldbal_sqlite_stmt_column_text, hsz, hw, hv, ht,
      Bool.false_eq_true, if_false, not_false_iff, ite_not]
    refine ⟨?_, ?_, ?_⟩
    · split <;> (try split) <;> rfl
    · intro h1
      rw [if_neg (by omega)]
      split <;> rfl
    · intro h0
      rw [if_pos (by simp [h0])]
      simp [h0]

/-- Claim C8 witness: the amended statement evaluated at stored length
five for MariaDB and stored length zero for SQLite. -/
theorem claim_C8_witness :
    (sqldbal_mariadb_stmt_column_text dbInit stmtMariadb1 0).2.2 = 4 ∧
    (sqldbal_sqlite_stmt_column_text dbInit stmtSqlite1 0
        envSqliteText0).2.2 = Option.some 0 := by
  have h := claim_C8 dbInit stmtMariadb1 stmtSqlite1 0 envSqliteText0 5
    rfl rfl (by norm_num) (Nat.zero_le _) (by decide) rfl
  exact ⟨h.1.2.2.1 (by norm_num), h.2.2.2 rfl⟩

/-- sqldbal_status_code_set changes only the status and the ghost write
trace: every other observable connection field is preserved, and the
stored status equals the argument. -/
theorem scs_fields (db : Db) (vv : Nat) :
    ((sqldbal_status_code_set db vv).1).connectCalls = db.connectCalls ∧
    ((sqldbal_status_code_set db vv).1).handle = db.handle ∧
    ((sqldbal_status_code_set db vv).1).flags = db.flags ∧
    ((sqldbal_status_code_set db vv).1).errstr = db.errstr ∧
    ((sqldbal_status_code_set db vv).1).driver = db.driver ∧
    ((sqldbal_status_code_set db vv).1).status = vv ∧
    mariadbApplied (sqldbal_status_code_set db vv).1 = mariadbApplied db := by
  rw [sqldbal_status_code_set_eq]
  by_cases h : SQLDBAL_STATUS_LAST ≤ vv
  · rw [if_pos h]
    exact ⟨rfl, rfl, rfl, rfl, rfl, rfl, rfl⟩
  · rw [if_neg h]
    exact ⟨rfl, rfl, rfl, rfl, rfl, rfl, rfl⟩

/-- sqldbal_strtoui leaves the connect count, the handle and the applied
MariaDB options unchanged. -/
theorem strtoui_fields (db : Db) (s : Option String) (m : Nat) :
    ((sqldbal_strtoui db s m).1).connectCalls = db.connectCalls ∧
    ((sqldbal_strtoui db s m).1).handle = db.handle ∧
    mariadbApplied (sqldbal_strtoui db s m).1 = mariadbApplied db := by
  cases s with
  | none => exact ⟨rfl, rfl, rfl⟩
  | some str =>
      simp only [sqldbal_strtoui]
      rcases strtoul10 str.data with ⟨ul, ep⟩
      dsimp only
      split
      · exact ⟨(scs_fields db SQLDBAL_STATUS_PARAM).1,
          (scs_fields db SQLDBAL_STATUS_PARAM).2.1,
          (scs_fields db SQLDBAL_STATUS_PARAM).2.2.2.2.2.2⟩
      · exact ⟨rfl, rfl, rfl⟩

/-- sqldbal_mariadb_mysql_options preserves the connect count and can only
extend the applied-option list of the session handle. -/
theorem mysql_options_fields (db : Db) (o a : String) (env : Env) :
    (sqldbal_mariadb_mysql_options db o a env).connectCalls =
        db.connectCalls ∧
    ∃ t, mariadbApplied (sqldbal_mariadb_mysql_options db o a env) =
        mariadbApplied db ++ t := by
  unfold sqldbal_mariadb_mysql_options
  split
  · exact ⟨(scs_fields db SQLDBAL_STATUS_PARAM).1,
      [], by
        rw [(scs_fields db SQLDBAL_STATUS_PARAM).2.2.2.2.2.2,
          List.append_nil]⟩
  · split
    · rename_i h heq
      refine ⟨rfl, [(o, a)], ?_⟩
      simp [mariadbApplied, heq]
    · exact ⟨rfl, [], (List.append_nil _).symm⟩

/-- The MariaDB option loop splits over list concatenation. -/
theorem mariadb_options_loop_append (env : Env)
    (l1 l2 : List (String × String)) :
    ∀ db, sqldbal_mariadb_set_options_loop env db (l1 ++ l2) =
      sqldbal_mariadb_set_options_loop env
        (sqldbal_mariadb_set_options_loop env db l1) l2 := by
  induction l1 with
  | nil => intro db; rfl
  | cons a rest ih =>
      intro db
      obtain ⟨k, v⟩ := a
      simp only [List.cons_append, sqldbal_mariadb_set_options_loop]
      exact ih _

/-- An unrecognized key makes one step of the MariaDB option loop a plain
invalid-parameter status write. -/
theorem mariadb_options_unknown_one (env : Env) (k v : String)
    (hk : mariadbKeyRecognized k = false) (db : Db) :
    sqldbal_mariadb_set_options_loop env db [(k, v)] =
      (sqldbal_status_code_set db SQLDBAL_STATUS_PARAM).1 := by
  simp only [mariadbKeyRecognized, Bool.or_eq_false_iff,
    beq_eq_false_iff_ne, ne_eq] at hk
  obtain ⟨⟨⟨⟨⟨hk1, hk2⟩, hk3⟩, hk4⟩, hk5⟩, hk6⟩ := hk
  simp only [sqldbal_mariadb_set_options_loop]
  rw [if_neg hk1, if_neg hk2, if_neg hk3, if_neg hk4, if_neg hk5,
    if_neg hk6]

/-- One step of the MariaDB option loop preserves the connect count and
can only extend the applied-option list. -/
theorem mariadb_options_one_fields (env : Env) (k v : String) (db : Db) :
    (sqldbal_mariadb_set_options_loop env db [(k, v)]).connectCalls =
        db.connectCalls ∧
    ∃ t, mariadbApplied (sqldbal_mariadb_set_options_loop env db [(k, v)]) =
        mariadbApplied db ++ t := by
  simp only [sqldbal_mariadb_set_options_loop]
  split
  · rcases hst : sqldbal_strtoui db (Option.some v)
        SQLDBAL_MARIADB_MAX_CONNECT_TIMEOUT with ⟨db1, st, timeout⟩
    have hf := strtoui_fields db (Option.some v)
      SQLDBAL_MARIADB_MAX_CONNECT_TIMEOUT
    rw [hst] at hf
    dsimp only at hf ⊢
    split
    · obtain ⟨hc, t, ha⟩ := mysql_options_fields db1
        "MYSQL_OPT_CONNECT_TIMEOUT" (toString timeout) env
      exact ⟨hc.trans hf.1, t, by rw [ha, hf.2.2]⟩
    · exact ⟨hf.1, [], by rw [hf.2.2, List.append_nil]⟩
  · split
    · exact mysql_options_fields db "MYSQL_OPT_SSL_KEY" v env
    · split
      · exact mysql_options_fields db "MYSQL_OPT_SSL_CERT" v env
      · split
        · exact mysql_options_fields db "MYSQL_OPT_SSL_CA" v env
        · split
          · exact mysql_options_fields db "MYSQL_OPT_SSL_CAPATH" v env
          · split
            · exact mysql_options_fields db "MYSQL_OPT_SSL_CIPHER" v env
            · exact ⟨(scs_fields db SQLDBAL_STATUS_PARAM).1, [], by
                rw [(scs_fields db SQLDBAL_STATUS_PARAM).2.2.2.2.2.2,
                  List.append_nil]⟩

/-- The MariaDB option loop preserves the connect count and can only
extend the applied-option list. -/
theorem mariadb_options_loop_fields (env : Env) :
    ∀ (l : List (String × String)) (db : Db),
      (sqldbal_mariadb_set_options_loop env db l).connectCalls =
          db.connectCalls ∧
      ∃ t, mariadbApplied (sqldbal_mariadb_set_options_loop env db l) =
          mariadbApplied db ++ t := by
  intro l
  induction l with
  | nil => exact fun db => ⟨rfl, [], (List.append_nil _).symm⟩
  | cons a rest ih =>
      intro db
      obtain ⟨k, v⟩ := a
      have hsplit := mariadb_options_loop_append env [(k, v)] rest db
      simp only [List.cons_append, List.nil_append] at hsplit
      rw [hsplit]
      obtain ⟨hc1, t0, ha1⟩ := mariadb_options_one_fields env k v db
      obtain ⟨hc2, t1, ha2⟩ :=
        ih (sqldbal_mariadb_set_options_loop env db [(k, v)])
      exact ⟨hc2.trans hc1, t0 ++ t1,
        by rw [ha2, ha1, List.append_assoc]⟩

/-- A trailing unrecognized key leaves the MariaDB option loop with the
invalid-parameter status, while the connect count is preserved and the
applied-option list only grows. -/
theorem mariadb_options_last_unknown (env : Env)
    (l : List (String × String)) (k v : String)
    (hk : mariadbKeyRecognized k = false) (db : Db) :
    (sqldbal_mariadb_set_options_loop env db (l ++ [(k, v)])).status =
        SQLDBAL_STATUS_PARAM ∧
    (sqldbal_mariadb_set_options_loop env db (l ++ [(k, v)])).connectCalls =
        db.connectCalls ∧
    ∃ t, mariadbApplied
        (sqldbal_mariadb_set_options_loop env db (l ++ [(k, v)])) =
        mariadbApplied db ++ t := by
  rw [mariadb_options_loop_append, mariadb_options_unknown_one env k v hk]
  obtain ⟨hc, t0, ha⟩ := mariadb_options_loop_fields env l db
  refine ⟨(scs_fields _ _).2.2.2.2.2.1, ?_, t0, ?_⟩
  · rw [(scs_fields _ _).1, hc]
  · rw [(scs_fields _ _).2.2.2.2.2.2, ha]

/-- The SQLite option loop preserves the connect count, the handle and
the flags, and ends with the invalid-parameter status exactly when some
key other than VFS appears in the list. -/
theorem sqlite_open_options_facts (l : List (String × String)) :
    ∀ db : Db,
      (sqldbal_sqlite_open_options db l).connectCalls = db.connectCalls ∧
      (sqldbal_sqlite_open_options db l).handle = db.handle ∧
      (sqldbal_sqlite_open_options db l).flags = db.flags ∧
      (sqldbal_sqlite_open_options db l).status =
        (if l.any (fun p => ! (p.1 == "VFS")) then SQLDBAL_STATUS_PARAM
         else db.status) := by
  induction l with
  | nil => exact fun db => ⟨rfl, rfl, rfl, rfl⟩
  | cons a rest ih =>
      intro db
      obtain ⟨k, v⟩ := a
      by_cases hk : k = "VFS"
      · have h1 : sqldbal_sqlite_open_options db ((k, v) :: rest) =
            sqldbal_sqlite_open_options db rest := by
          simp only [sqldbal_sqlite_open_options]
          rw [if_pos hk]
        have h2 : (((k, v) :: rest).any (fun p => ! (p.1 == "VFS"))) =
            rest.any (fun p => ! (p.1 == "VFS")) := by
          simp [hk]
        rw [h1, h2]
        exact ih db
      · have h1 : sqldbal_sqlite_open_options db ((k, v) :: rest) =
            sqldbal_sqlite_open_options
              ((sqldbal_status_code_set db SQLDBAL_STATUS_PARAM).1) rest := by
          simp only [sqldbal_sqlite_open_options]
          rw [if_neg hk]
        obtain ⟨hc, hh, hf, hs⟩ :=
          ih ((sqldbal_status_code_set db SQLDBAL_STATUS_PARAM).1)
        refine ⟨?_, ?_, ?_, ?_⟩
        · rw [h1, hc, (scs_fields db SQLDBAL_STATUS_PARAM).1]
        · rw [h1, hh, (scs_fields db SQLDBAL_STATUS_PARAM).2.1]
        · rw [h1, hf, (scs_fields db SQLDBAL_STATUS_PARAM).2.2.1]
        · rw [h1, hs]
          have h3 : (((k, v) :: rest).any (fun p => ! (p.1 == "VFS"))) =
              true := by
            simp [hk]
          rw [h3, if_pos rfl]
          by_cases hr : rest.any (fun p => ! (p.1 == "VFS")) = true
          · rw [if_pos hr]
          · rw [if_neg hr, (scs_fields db SQLDBAL_STATUS_PARAM).2.2.2.2.2.1]

/-- When every sqlite3_step reports busy, the execute retry loop started
at retry count j performs 10 - j sleeps of 10000 microseconds and ends in
the exec-failed error path. -/
theorem sqlite_execute_loop_all_busy (env : Env)
    (hb : ∀ n, env.sqliteStep n = SqliteStepRc.busy)
    (j : Nat) (hj : j ≤ SQLDBAL_SQLITE_MAX_NUM_RETRIES) (db : Db) :
    sqldbal_sqlite_stmt_execute_loop db env j =
      sqldbal_sqlite_error
        { db with sleeps := db.sleeps ++
            List.replicate (SQLDBAL_SQLITE_MAX_NUM_RETRIES - j) 10000 }
        SQLDBAL_STATUS_EXEC env := by
  rw [sqldbal_sqlite_stmt_execute_loop, hb j]
  by_cases h : j < SQLDBAL_SQLITE_MAX_NUM_RETRIES
  · rw [if_pos h]
    have ih := sqlite_execute_loop_all_busy env hb (j + 1) (by omega)
      (sqldbal_sqlite_busy_sleep db)
    rw [ih]
    congr 1
    simp only [sqldbal_sqlite_busy_sleep]
    congr 1
    rw [List.append_assoc]
    congr 1
    have h2 : SQLDBAL_SQLITE_MAX_NUM_RETRIES - j =
        (SQLDBAL_SQLITE_MAX_NUM_RETRIES - (j + 1)) + 1 := by
      simp only [SQLDBAL_SQLITE_MAX_NUM_RETRIES] at h ⊢
      omega
    rw [h2]
    rfl
  · rw [if_neg h]
    have h0 : SQLDBAL_SQLITE_MAX_NUM_RETRIES - j = 0 := by
      simp only [SQLDBAL_SQLITE_MAX_NUM_RETRIES] at h ⊢
      omega
    rw [h0]
    simp
termination_by SQLDBAL_SQLITE_MAX_NUM_RETRIES + 1 - j
decreasing_by simp only [SQLDBAL_SQLITE_MAX_NUM_RETRIES] at *; omega

/-- When every sqlite3_step reports busy, the fetch retry loop started at
retry count j performs 10 - j sleeps of 10000 microseconds, ends in the
fetch-failed error path, and reports the ERROR fetch result. -/
theorem sqlite_fetch_loop_all_busy (env : Env)
    (hb : ∀ n, env.sqliteStep n = SqliteStepRc.busy)
    (j : Nat) (hj : j ≤ SQLDBAL_SQLITE_MAX_NUM_RETRIES) (db : Db) :
    sqldbal_sqlite_stmt_fetch_loop db env j =
      (sqldbal_sqlite_error
        { db with sleeps := db.sleeps ++
            List.replicate (SQLDBAL_SQLITE_MAX_NUM_RETRIES - j) 10000 }
        SQLDBAL_STATUS_FETCH env, FetchResult.error) := by
  rw [sqldbal_sqlite_stmt_fetch_loop, hb j]
  by_cases h : j < SQLDBAL_SQLITE_MAX_NUM_RETRIES
  · rw [if_pos h]
    have ih := sqlite_fetch_loop_all_busy env hb (j + 1) (by omega)
      (sqldbal_sqlite_busy_sleep db)
    rw [ih]
    congr 2
    simp only [sqldbal_sqlite_busy_sleep]
    congr 1
    rw [List.append_assoc]
    congr 1
    have h2 : SQLDBAL_SQLITE_MAX_NUM_RETRIES - j =
        (SQLDBAL_SQLITE_MAX_NUM_RETRIES - (j + 1)) + 1 := by
      simp only [SQLDBAL_SQLITE_MAX_NUM_RETRIES] at h ⊢
      omega
    rw [h2]
    rfl
  · rw [if_neg h]
    have h0 : SQLDBAL_SQLITE_MAX_NUM_RETRIES - j = 0 := by
      simp only [SQLDBAL_SQLITE_MAX_NUM_RETRIES] at h ⊢
      omega
    rw [h0]
    simp
termination_by SQLDBAL_SQLITE_MAX_NUM_RETRIES + 1 - j
decreasing_by simp only [SQLDBAL_SQLITE_MAX_NUM_RETRIES] at *; omega

/-- The SQLite error path keeps the sleep trace and, when the error
string duplication succeeds, stores exactly the given status. -/
theorem sqlite_error_fields (d : Db) (v : Nat) (env : Env)
    (hd : env.strdupOk = true) (hv : ¬ SQLDBAL_STATUS_LAST ≤ v) :
    (sqldbal_sqlite_error d v env).status = v ∧
    (sqldbal_sqlite_error d v env).sleeps = d.sleeps := by
  unfold sqldbal_sqlite_error sqldbal_err_set sqldbal_errstr_set
  simp [hd, sqldbal_status_code_set_eq, hv]

/-- Claim C6: for the embedded-engine driver, a busy step result with
retries left sleeps exactly 10000 microseconds and retries, on both the
execute and the fetch loop; the 11th consecutive busy result (retry count
10) stops retrying and takes the exec-failed or fetch-failed error path,
the fetch loop also reporting the ERROR result; under an always-busy
backend, stmt_execute records 10 sleeps of 10000 microseconds and ends
with status exec-failed, and stmt_fetch records 10 sleeps, ends with
status fetch-failed, and returns ERROR. -/
theorem claim_C6 (db : Db) (stmt : Stmt) (env : Env)
    (hb : ∀ n, env.sqliteStep n = SqliteStepRc.busy)
    (hd : env.strdupOk = true) :
    (∀ (e : Env) (d : Db) (j : Nat),
      e.sqliteStep j = SqliteStepRc.busy →
      j < SQLDBAL_SQLITE_MAX_NUM_RETRIES →
      sqldbal_sqlite_stmt_execute_loop d e j =
        sqldbal_sqlite_stmt_execute_loop
          { d with sleeps := d.sleeps ++ [10000] } e (j + 1)) ∧
    (∀ (e : Env) (d : Db) (j : Nat),
      e.sqliteStep j = SqliteStepRc.busy →
      j < SQLDBAL_SQLITE_MAX_NUM_RETRIES →
      sqldbal_sqlite_stmt_fetch_loop d e j =
        sqldbal_sqlite_stmt_fetch_loop
          { d with sleeps := d.sleeps ++ [10000] } e (j + 1)) ∧
    (∀ (e : Env) (d : Db),
      e.sqliteStep SQLDBAL_SQLITE_MAX_NUM_RETRIES = SqliteStepRc.busy →
      sqldbal_sqlite_stmt_execute_loop d e SQLDBAL_SQLITE_MAX_NUM_RETRIES =
        sqldbal_sqlite_error d SQLDBAL_STATUS_EXEC e ∧
      sqldbal_sqlite_stmt_fetch_loop d e SQLDBAL_SQLITE_MAX_NUM_RETRIES =
        (sqldbal_sqlite_error d SQLDBAL_STATUS_FETCH e,
         FetchResult.error)) ∧
    ((sqldbal_sqlite_stmt_execute db stmt env).1.sleeps =
        db.sleeps ++ List.replicate SQLDBAL_SQLITE_MAX_NUM_RETRIES 10000 ∧
     (sqldbal_sqlite_stmt_execute db stmt env).1.status =
        SQLDBAL_STATUS_EXEC) ∧
    ((sqldbal_sqlite_stmt_fetch db stmt env).1.sleeps =
        db.sleeps ++ List.replicate SQLDBAL_SQLITE_MAX_NUM_RETRIES 10000 ∧
     (sqldbal_sqlite_stmt_fetch db stmt env).1.status =
        SQLDBAL_STATUS_FETCH ∧
     (sqldbal_sqlite_stmt_fetch db stmt env).2.2 = FetchResult.error) := by
  have hex := sqlite_execute_loop_all_busy env hb 0 (by omega) db
  have hfe := sqlite_fetch_loop_all_busy env hb 0 (by omega) db
  have herrE := sqlite_error_fields
    { db with sleeps := db.sleeps ++
        List.replicate (SQLDBAL_SQLITE_MAX_NUM_RETRIES - 0) 10000 }
    SQLDBAL_STATUS_EXEC env hd (by decide)
  have herrF := sqlite_error_fields
    { db with sleeps := db.sleeps ++
        List.replicate (SQLDBAL_SQLITE_MAX_NUM_RETRIES - 0) 10000 }
    SQLDBAL_STATUS_FETCH env hd (by decide)
  refine ⟨?_, ?_, ?_, ?_, ?_⟩
  · intro e d j hbj hj
    rw [sqldbal_sqlite_stmt_execute_loop, hbj, if_pos hj]
    rfl
  · intro e d j hbj hj
    rw [sqldbal_sqlite_stmt_fetch_loop, hbj, if_pos hj]
    rfl
  · intro e d hbj
    have hlt : ¬ (SQLDBAL_SQLITE_MAX_NUM_RETRIES <
        SQLDBAL_SQLITE_MAX_NUM_RETRIES) := by omega
    constructor
    · rw [sqldbal_sqlite_stmt_execute_loop, hbj, if_neg hlt]
    · rw [sqldbal_sqlite_stmt_fetch_loop, hbj, if_neg hlt]
  · unfold sqldbal_sqlite_stmt_execute
    rw [hex]
    exact ⟨herrE.2, herrE.1⟩
  · unfold sqldbal_sqlite_stmt_fetch
    rw [hfe]
    exact ⟨herrF.2, herrF.1, rfl⟩

/-- Claim C6 witness: the always-busy oracle against a fresh connection
and statement. -/
theorem claim_C6_witness :
    (sqldbal_sqlite_stmt_fetch dbInit stmtSqlite1 envBusy).2.2 =
        FetchResult.error ∧
    (sqldbal_sqlite_stmt_fetch dbInit stmtSqlite1 envBusy).1.sleeps =
        List.replicate 10 10000 ∧
    (sqldbal_sqlite_stmt_execute dbInit stmtSqlite1 envBusy).1.status =
        SQLDBAL_STATUS_EXEC := by
  have h := claim_C6 dbInit stmtSqlite1 envBusy (fun _ => rfl) rfl
  exact ⟨h.2.2.2.2.2.2, h.2.2.2.2.1, h.2.2.2.1.2⟩

/-- Claim C9 counterexample: opening the embedded-engine driver with the
single unknown option key BOGUS returns invalid-parameter, performs no
backend connect, and assigns no driver handle: the unknown key does abort
the open operation rather than leaving it unaffected. -/
theorem claim_C9_counterexample :
    (sqldbal_open Driver.sqlite Option.none Option.none Option.none
        Option.none Option.none 0 [("BOGUS", "1")] envAllOk).2 =
      SQLDBAL_STATUS_PARAM ∧
    (sqldbal_open Driver.sqlite Option.none Option.none Option.none
        Option.none Option.none 0 [("BOGUS", "1")] envAllOk).1.connectCalls
      = 0 ∧
    (sqldbal_open Driver.sqlite Option.none Option.none Option.none
        Option.none Option.none 0 [("BOGUS", "1")] envAllOk).1.handle =
      DbHandle.none := by
  have h : sqldbal_open Driver.sqlite Option.none Option.none Option.none
      Option.none Option.none 0 [("BOGUS", "1")] envAllOk =
      ({ errstr := false, handle := DbHandle.none,
         status := SQLDBAL_STATUS_PARAM, flags := 0,
         driver := Driver.sqlite,
         writes := [SQLDBAL_STATUS_OK, SQLDBAL_STATUS_PARAM],
         adapterCalls := 1, connectCalls := 0, sleeps := [], allocSeq := 0,
         allocs := [], freed := [] }, SQLDBAL_STATUS_PARAM) := by
    unfold sqldbal_open sqldbal_sqlite_open newDbValue
    simp [sqldbal_status_code_set_eq, sqldbal_status_code_get,
      sqldbal_sqlite_open_options, envAllOk, SQLDBAL_STATUS_OK,
      SQLDBAL_STATUS_PARAM, SQLDBAL_STATUS_LAST]
  rw [h]
  exact ⟨rfl, rfl, rfl⟩

/-- Claim C9, amended: an unknown option key sets status
invalid-parameter and recognized keys applied earlier in the list remain
applied, but the open operation IS aborted by the unknown key: the
backend connect step is skipped because it is guarded by the status still
being OK after the option loop.  For the embedded-engine driver any
unknown key in the list leaves the open with status invalid-parameter,
an unchanged connect count and no assigned handle; for the MySQL-family
driver a trailing unknown key leaves set_options returning
invalid-parameter with the previously applied options still recorded,
and the enclosing open performs no backend connect and ends with status
invalid-parameter. -/
theorem claim_C9 (db dbm : Db) (env : Env)
    (l lm : List (String × String)) (k v : String)
    (hl : l.any (fun p => ! (p.1 == "VFS")) = true)
    (hk : mariadbKeyRecognized k = false)
    (hdbm : dbm.status = SQLDBAL_STATUS_OK)
    (hinit : env.mysqlInitOk = true) :
    ((sqldbal_sqlite_open db l env).status = SQLDBAL_STATUS_PARAM ∧
     (sqldbal_sqlite_open db l env).connectCalls = db.connectCalls ∧
     (sqldbal_sqlite_open db l env).handle = db.handle) ∧
    ((sqldbal_mariadb_set_options dbm (lm ++ [(k, v)]) env).2 =
        SQLDBAL_STATUS_PARAM ∧
     (∃ t, mariadbApplied
          (sqldbal_mariadb_set_options dbm (lm ++ [(k, v)]) env).1 =
        mariadbApplied dbm ++ t)) ∧
    ((sqldbal_mariadb_open dbm Option.none (lm ++ [(k, v)]) env).status =
        SQLDBAL_STATUS_PARAM ∧
     (sqldbal_mariadb_open dbm Option.none (lm ++ [(k, v)]) env).connectCalls
        = dbm.connectCalls) := by
  obtain ⟨hc, hh, hf, hs⟩ := sqlite_open_options_facts l db
  rw [if_pos hl] at hs
  refine ⟨?_, ?_, ?_⟩
  · unfold sqldbal_sqlite_open
    rw [if_neg (by
      rw [sqldbal_status_code_get, hs]
      decide)]
    exact ⟨hs, hc, hh⟩
  · obtain ⟨hs2, hc2, t, ha2⟩ :=
      mariadb_options_last_unknown env lm k v hk dbm
    constructor
    · simp only [sqldbal_mariadb_set_options, sqldbal_status_code_get]
      exact hs2
    · exact ⟨t, by
        simp only [sqldbal_mariadb_set_options]
        exact ha2⟩
  · unfold sqldbal_mariadb_open
    simp only [sqldbal_strtoui]
    rw [if_neg (by
      rw [sqldbal_status_code_get, hdbm]
      simp)]
    rw [if_neg (by rw [hinit]; simp)]
    simp only [sqldbal_mariadb_set_options]
    obtain ⟨hs3, hc3, _⟩ := mariadb_options_last_unknown env lm k v hk
      { dbm with handle := DbHandle.mariadb { appliedOptions := [] } }
    rw [if_neg (by
      rw [sqldbal_status_code_get, hs3]
      decide)]
    exact ⟨hs3, hc3⟩

/-- Claim C9 witness: the amended statement evaluated at the single
unknown key BOGUS against fresh connections and the all-success oracle. -/
theorem claim_C9_witness :
    (sqldbal_sqlite_open dbInit [("BOGUS", "1")] envAllOk).connectCalls =
        0 ∧
    (sqldbal_mariadb_open dbInit Option.none [("BOGUS", "1")]
        envAllOk).status = SQLDBAL_STATUS_PARAM := by
  have h := claim_C9 dbInit dbInit envAllOk [("BOGUS", "1")] [] "BOGUS" "1"
    (by decide) (by decide) (by decide) (by decide)
  exact ⟨h.1.2.1.trans rfl, h.2.2.1⟩

/-- Claim C7: the rebinding half of the claim holds (a second bind at an
occupied PostgreSQL slot releases the old buffer, and the MariaDB
bind_null releases the held buffer), but the PostgreSQL bind_null drops
the previously installed buffer without releasing it, and the later
statement close walks the parameter list in which the slot is already
NULL, so the buffer with ghost id 0 is allocated, never freed by
bind_null, and still unfreed after stmt_close: a parameter buffer
outlives its statement. -/
theorem claim_C7 :
    (sqldbal_pq_stmt_bind_blob dbPq7 stmtPq7 0 4 envAllOk).1.allocs = [0] ∧
    (pqStmtOf (sqldbal_pq_stmt_bind_null
        (sqldbal_pq_stmt_bind_blob dbPq7 stmtPq7 0 4 envAllOk).1
        (sqldbal_pq_stmt_bind_blob dbPq7 stmtPq7 0 4 envAllOk).2 0
        envAllOk).2).paramValueList = [Option.none] ∧
    (sqldbal_pq_stmt_bind_null
        (sqldbal_pq_stmt_bind_blob dbPq7 stmtPq7 0 4 envAllOk).1
        (sqldbal_pq_stmt_bind_blob dbPq7 stmtPq7 0 4 envAllOk).2 0
        envAllOk).1.freed = [] ∧
    0 ∈ pqLeakFinal.allocs ∧ 0 ∉ pqLeakFinal.freed ∧
    (sqldbal_pq_stmt_bind_blob
        (sqldbal_pq_stmt_bind_blob dbPq7 stmtPq7 0 4 envAllOk).1
        (sqldbal_pq_stmt_bind_blob dbPq7 stmtPq7 0 4 envAllOk).2 0 4
        envAllOk).1.freed = [0] ∧
    (sqldbal_mariadb_stmt_bind_null dbInit stmtMa7 0 envAllOk).1.freed =
      [5] := by decide

/-! Status evolution of the adapter bind and column operations under the
predicate NotParam: none of them ever writes the invalid-parameter
status. -/

theorem seNP_set (a : Db) (v : Nat) (hv : v ≠ SQLDBAL_STATUS_PARAM)
    (hlt : v < SQLDBAL_STATUS_LAST) :
    StatusEvolves NotParam a (sqldbal_status_code_set a v).1 :=
  se_set a v hv (fun hc => absurd hc (Nat.not_le.mpr hlt))

theorem seNP_err_set (a : Db) (v : Nat) (ok : Bool)
    (hv : v ≠ SQLDBAL_STATUS_PARAM) (hlt : v < SQLDBAL_STATUS_LAST) :
    StatusEvolves NotParam a (sqldbal_err_set a v ok) :=
  se_err_set a v ok hv (fun hc => absurd hc (Nat.not_le.mpr hlt)) (by decide)

theorem seNP_sqlite_error (db : Db) (v : Nat) (env : Env)
    (hv : v ≠ SQLDBAL_STATUS_PARAM) (hlt : v < SQLDBAL_STATUS_LAST) :
    StatusEvolves NotParam db (sqldbal_sqlite_error db v env) := by
  unfold sqldbal_sqlite_error
  exact seNP_err_set db v env.strdupOk hv hlt

theorem seNP_sqlite_bind_blob (db : Db) (stmt : Stmt) (i n : Nat)
    (env : Env) :
    StatusEvolves NotParam db
      (sqldbal_sqlite_stmt_bind_blob db stmt i n env).1 := by
  unfold sqldbal_sqlite_stmt_bind_blob
  split
  · exact seNP_set db SQLDBAL_STATUS_OVERFLOW (by decide) (by decide)
  · split
    · exact seNP_sqlite_error db SQLDBAL_STATUS_BIND env (by decide)
        (by decide)
    · exact se_refl db

theorem seNP_sqlite_bind_int64 (db : Db) (stmt : Stmt) (i : Nat)
    (env : Env) :
    StatusEvolves NotParam db
      (sqldbal_sqlite_stmt_bind_int64 db stmt i env).1 := by
  unfold sqldbal_sqlite_stmt_bind_int64
  split
  · exact seNP_set db SQLDBAL_STATUS_OVERFLOW (by decide) (by decide)
  · split
    · exact seNP_sqlite_error db SQLDBAL_STATUS_BIND env (by decide)
        (by decide)
    · exact se_refl db

theorem seNP_sqlite_bind_text (db : Db) (stmt : Stmt) (i n : Nat)
    (env : Env) :
    StatusEvolves NotParam db
      (sqldbal_sqlite_stmt_bind_text db stmt i n env).1 := by
  unfold sqldbal_sqlite_stmt_bind_text
  split
  · exact seNP_set db SQLDBAL_STATUS_OVERFLOW (by decide) (by decide)
  · split
    · exact seNP_sqlite_error db SQLDBAL_STATUS_BIND env (by decide)
        (by decide)
    · exact se_refl db

theorem seNP_sqlite_bind_null (db : Db) (stmt : Stmt) (i : Nat)
    (env : Env) :
    StatusEvolves NotParam db
      (sqldbal_sqlite_stmt_bind_null db stmt i env).1 := by
  unfold sqldbal_sqlite_stmt_bind_null
  split
  · exact seNP_set db SQLDBAL_STATUS_OVERFLOW (by decide) (by decide)
  · split
    · exact seNP_sqlite_error db SQLDBAL_STATUS_BIND env (by decide)
        (by decide)
    · exact se_refl db

theorem seNP_sqlite_column_blob (db : Db) (stmt : Stmt) (i : Nat)
    (env : Env) :
    StatusEvolves NotParam db
      (sqldbal_sqlite_stmt_column_blob db stmt i env).1 := by
  unfold sqldbal_sqlite_stmt_column_blob
  split
  · exact seNP_set db SQLDBAL_STATUS_OVERFLOW (by decide) (by decide)
  · dsimp only
    split
    · exact seNP_set db SQLDBAL_STATUS_OVERFLOW (by decide) (by decide)
    · split
      · exact seNP_sqlite_error db SQLDBAL_STATUS_NOMEM env (by decide)
          (by decide)
      · exact se_refl db

theorem seNP_sqlite_column_int64 (db : Db) (stmt : Stmt) (i : Nat)
    (env : Env) :
    StatusEvolves NotParam db
      (sqldbal_sqlite_stmt_column_int64 db stmt i env).1 := by
  unfold sqldbal_sqlite_stmt_column_int64
  split
  · exact seNP_set db SQLDBAL_STATUS_OVERFLOW (by decide) (by decide)
  · exact se_refl db

theorem seNP_sqlite_column_text (db : Db) (stmt : Stmt) (i : Nat)
    (env : Env) :
    StatusEvolves NotParam db
      (sqldbal_sqlite_stmt_column_text db stmt i env).1 := by
  unfold sqldbal_sqlite_stmt_column_text
  split
  · exact seNP_set db SQLDBAL_STATUS_OVERFLOW (by decide) (by decide)
  · dsimp only
    split
    · exact seNP_set db SQLDBAL_STATUS_OVERFLOW (by decide) (by decide)
    · split
      · split
        · exact seNP_sqlite_error db SQLDBAL_STATUS_NOMEM env (by decide)
            (by decide)
        · exact se_refl db
      · exact se_refl db

theorem seNP_sqlite_column_type (db : Db) (stmt : Stmt) (i : Nat)
    (env : Env) :
    StatusEvolves NotParam db
      (sqldbal_sqlite_stmt_column_type db stmt i env).1 := by
  unfold sqldbal_sqlite_stmt_column_type
  split
  · exact seNP_set db SQLDBAL_STATUS_OVERFLOW (by decide) (by decide)
  · exact se_refl db

theorem seNP_mariadb_free_buf (db : Db) (slot : Option Nat) :
    StatusEvolves NotParam db
      (sqldbal_mariadb_stmt_bind_free_buf db slot).1 := by
  cases slot with
  | none => exact se_refl db
  | some b => exact se_ghost rfl rfl

theorem seNP_mariadb_install (db : Db) (stmt : Stmt) (i b : Nat) :
    StatusEvolves NotParam db (mariadbInstallBind db stmt i b).1 := by
  unfold mariadbInstallBind
  dsimp only
  rcases h : sqldbal_mariadb_stmt_bind_free_buf db
      ((mariadbStmtOf stmt).bindOut.getD i Option.none) with ⟨db2, s2⟩
  have h2 := seNP_mariadb_free_buf db
    ((mariadbStmtOf stmt).bindOut.getD i Option.none)
  rw [h] at h2
  exact h2

theorem seNP_mariadb_bind_blob (db : Db) (stmt : Stmt) (i n : Nat)
    (env : Env) :
    StatusEvolves NotParam db
      (sqldbal_mariadb_stmt_bind_blob db stmt i n env).1 := by
  unfold sqldbal_mariadb_stmt_bind_blob
  split
  · exact seNP_set db SQLDBAL_STATUS_NOMEM (by decide) (by decide)
  · dsimp only [allocBuf]
    exact se_trans (se_ghost rfl rfl) (seNP_mariadb_install _ stmt i _)

theorem seNP_mariadb_bind_int64 (db : Db) (stmt : Stmt) (i : Nat)
    (i64 : Int) (env : Env) :
    StatusEvolves NotParam db
      (sqldbal_mariadb_stmt_bind_int64 db stmt i i64 env).1 := by
  unfold sqldbal_mariadb_stmt_bind_int64
  split
  · exact seNP_set db SQLDBAL_STATUS_OVERFLOW (by decide) (by decide)
  · split
    · exact seNP_set db SQLDBAL_STATUS_NOMEM (by decide) (by decide)
    · dsimp only [allocBuf]
      exact se_trans (se_ghost rfl rfl) (seNP_mariadb_install _ stmt i _)

theorem seNP_mariadb_bind_text (db : Db) (stmt : Stmt) (i n : Nat)
    (env : Env) :
    StatusEvolves NotParam db
      (sqldbal_mariadb_stmt_bind_text db stmt i n env).1 := by
  unfold sqldbal_mariadb_stmt_bind_text
  split
  · exact seNP_set db SQLDBAL_STATUS_NOMEM (by decide) (by decide)
  · dsimp only [allocBuf]
    exact se_trans (se_ghost rfl rfl) (seNP_mariadb_install _ stmt i _)

theorem seNP_mariadb_bind_null (db : Db) (stmt : Stmt) (i : Nat)
    (env : Env) :
    StatusEvolves NotParam db
      (sqldbal_mariadb_stmt_bind_null db stmt i env).1 := by
  unfold sqldbal_mariadb_stmt_bind_null
  dsimp only
  rcases h : sqldbal_mariadb_stmt_bind_free_buf db
      ((mariadbStmtOf stmt).bindOut.getD i Option.none) with ⟨db2, s2⟩
  have h2 := seNP_mariadb_free_buf db
    ((mariadbStmtOf stmt).bindOut.getD i Option.none)
  rw [h] at h2
  exact h2

theorem seNP_mariadb_column_blob (db : Db) (stmt : Stmt) (i : Nat) :
    StatusEvolves NotParam db
      (sqldbal_mariadb_stmt_column_blob db stmt i).1 := by
  unfold sqldbal_mariadb_stmt_column_blob
  dsimp only
  split
  · exact se_refl db
  · exact se_refl db

theorem seNP_mariadb_column_int64 (db : Db) (stmt : Stmt) (i : Nat) :
    StatusEvolves NotParam db
      (sqldbal_mariadb_stmt_column_int64 db stmt i).1 := by
  unfold sqldbal_mariadb_stmt_column_int64
  dsimp only
  split
  · exact se_refl db
  · exact se_strtoi64 db _ (by decide)

theorem seNP_mariadb_column_text (db : Db) (stmt : Stmt) (i : Nat) :
    StatusEvolves NotParam db
      (sqldbal_mariadb_stmt_column_text db stmt i).1 := by
  unfold sqldbal_mariadb_stmt_column_text
  dsimp only
  split
  · exact se_refl db
  · exact se_refl db

theorem seNP_mariadb_column_type (db : Db) (stmt : Stmt) (i : Nat) :
    StatusEvolves NotParam db
      (sqldbal_mariadb_stmt_column_type db stmt i).1 := by
  unfold sqldbal_mariadb_stmt_column_type
  dsimp only
  split
  · exact se_refl db
  · exact se_refl db

theorem seNP_pq_bind_blob (db : Db) (stmt : Stmt) (i n : Nat) (env : Env) :
    StatusEvolves NotParam db
      (sqldbal_pq_stmt_bind_blob db stmt i n env).1 := by
  unfold sqldbal_pq_stmt_bind_blob
  split
  · exact seNP_set db SQLDBAL_STATUS_OVERFLOW (by decide) (by decide)
  · split
    · exact seNP_set db SQLDBAL_STATUS_NOMEM (by decide) (by decide)
    · dsimp only [allocBuf]
      split
      · exact se_ghost rfl rfl
      · exact se_ghost rfl rfl

theorem seNP_pq_bind_int64 (db : Db) (stmt : Stmt) (i : Nat) (i64 : Int)
    (env : Env) :
    StatusEvolves NotParam db
      (sqldbal_pq_stmt_bind_int64 db stmt i i64 env).1 := by
  unfold sqldbal_pq_stmt_bind_int64
  split
  · exact seNP_set db SQLDBAL_STATUS_BIND (by decide) (by decide)
  · dsimp only
    rcases h : sqldbal_pq_stmt_bind_blob db stmt i
        ((toString i64).length + 1) env with ⟨db2, st2⟩
    have h2 := seNP_pq_bind_blob db stmt i ((toString i64).length + 1) env
    rw [h] at h2
    exact h2

theorem seNP_pq_bind_text (db : Db) (stmt : Stmt) (i n : Nat) (env : Env) :
    StatusEvolves NotParam db
      (sqldbal_pq_stmt_bind_text db stmt i n env).1 := by
  unfold sqldbal_pq_stmt_bind_text
  rcases h : sqldbal_pq_stmt_bind_blob db stmt i n env with ⟨db2, st2⟩
  have h2 := seNP_pq_bind_blob db stmt i n env
  rw [h] at h2
  exact h2

theorem seNP_pq_bind_null (db : Db) (stmt : Stmt) (i : Nat) (env : Env) :
    StatusEvolves NotParam db
      (sqldbal_pq_stmt_bind_null db stmt i env).1 :=
  se_refl db

theorem seNP_pq_column_blob (db : Db) (stmt : Stmt) (i : Nat) (env : Env) :
    StatusEvolves NotParam db
      (sqldbal_pq_stmt_column_blob db stmt i env).1 := by
  unfold sqldbal_pq_stmt_column_blob
  split
  · exact seNP_set db SQLDBAL_STATUS_OVERFLOW (by decide) (by decide)
  · dsimp only
    split
    · exact seNP_set db SQLDBAL_STATUS_OVERFLOW (by decide) (by decide)
    · split
      · exact se_refl db
      · split
        · split
          · dsimp only [allocBuf]
            exact se_ghost rfl rfl
          · exact seNP_set db SQLDBAL_STATUS_NOMEM (by decide) (by decide)
        · exact se_refl db

theorem seNP_pq_column_text (db : Db) (stmt : Stmt) (i : Nat) (env : Env) :
    StatusEvolves NotParam db
      (sqldbal_pq_stmt_column_text db stmt i env).1 := by
  unfold sqldbal_pq_stmt_column_text
  exact seNP_pq_column_blob db stmt i env

theorem seNP_pq_column_int64 (db : Db) (stmt : Stmt) (i : Nat) (env : Env) :
    StatusEvolves NotParam db
      (sqldbal_pq_stmt_column_int64 db stmt i env).1 := by
  unfold sqldbal_pq_stmt_column_int64
  rcases h : sqldbal_pq_stmt_column_text db stmt i env with ⟨db2, st2, tp, sz⟩
  have h1 := seNP_pq_column_text db stmt i env
  rw [h] at h1
  dsimp only
  split
  · rcases h2 : sqldbal_strtoi64 db2 (env.pqColValue i) with ⟨db3, v3⟩
    have h3 := se_strtoi64 (P := NotParam) db2 (env.pqColValue i) (by decide)
    rw [h2] at h3
    exact se_trans h1 h3
  · exact h1

theorem seNP_pq_column_type (db : Db) (stmt : Stmt) (i : Nat) (env : Env) :
    StatusEvolves NotParam db
      (sqldbal_pq_stmt_column_type db stmt i env).1 := by
  unfold sqldbal_pq_stmt_column_type
  split
  · exact seNP_set db SQLDBAL_STATUS_OVERFLOW (by decide) (by decide)
  · split
    · exact se_refl db
    · exact se_refl db

theorem scs_adapterCalls (db : Db) (vv : Nat) :
    ((sqldbal_status_code_set db vv).1).adapterCalls = db.adapterCalls := by
  rw [sqldbal_status_code_set_eq]
  by_cases h : SQLDBAL_STATUS_LAST ≤ vv
  · rw [if_pos h]
  · rw [if_neg h]

theorem bind_blob_range_facts (db : Db) (stmt : Stmt) (i n : Nat)
    (env : Env) (hok : db.status = SQLDBAL_STATUS_OK) :
    ((sqldbal_stmt_bind_blob db stmt i n env).2.2 = SQLDBAL_STATUS_PARAM ↔
      stmt.num_params ≤ i) ∧
    (stmt.num_params ≤ i →
      (sqldbal_stmt_bind_blob db stmt i n env).1.adapterCalls =
          db.adapterCalls ∧
      (sqldbal_stmt_bind_blob db stmt i n env).2.1 = stmt) := by
  by_cases hge : stmt.num_params ≤ i
  · unfold sqldbal_stmt_bind_blob sqldbal_stmt_bind_in_range
    rw [if_pos hge]
    dsimp only [sqldbal_status_code_get]
    simp only [Bool.false_eq_true, if_false]
    exact ⟨⟨fun _ => hge,
      fun _ => (scs_fields db SQLDBAL_STATUS_PARAM).2.2.2.2.2.1⟩,
      fun _ => ⟨scs_adapterCalls db SQLDBAL_STATUS_PARAM, trivial⟩⟩
  · have hir : sqldbal_stmt_bind_in_range db stmt i = (db, true) := by
      unfold sqldbal_stmt_bind_in_range
      rw [if_neg hge]
    have hse : StatusEvolves NotParam db
        (sqldbal_stmt_bind_blob db stmt i n env).1 ∧
        (sqldbal_stmt_bind_blob db stmt i n env).2.2 =
          (sqldbal_stmt_bind_blob db stmt i n env).1.status := by
      unfold sqldbal_stmt_bind_blob
      rw [hir]
      dsimp only [sqldbal_status_code_get]
      rw [if_pos rfl]
      generalize hdb2 : { db with adapterCalls := db.adapterCalls + 1 } = db2
      have hg : StatusEvolves NotParam db db2 := by
        rw [← hdb2]
        exact se_ghost rfl rfl
      cases hd : db.driver <;> (try dsimp only)
      case mariadb | mysql =>
        rcases ha : sqldbal_mariadb_stmt_bind_blob db2 stmt i n env
          with ⟨db3, st3⟩
        have h2 := seNP_mariadb_bind_blob db2 stmt i n env
        rw [ha] at h2
        exact ⟨se_trans hg h2, rfl⟩
      case postgresql =>
        rcases ha : sqldbal_pq_stmt_bind_blob db2 stmt i n env
          with ⟨db3, st3⟩
        have h2 := seNP_pq_bind_blob db2 stmt i n env
        rw [ha] at h2
        exact ⟨se_trans hg h2, rfl⟩
      case sqlite =>
        rcases ha : sqldbal_sqlite_stmt_bind_blob db2 stmt i n env
          with ⟨db3, st3⟩
        have h2 := seNP_sqlite_bind_blob db2 stmt i n env
        rw [ha] at h2
        exact ⟨se_trans hg h2, rfl⟩
      case invalid =>
        exact ⟨hg, rfl⟩
    have hne : (sqldbal_stmt_bind_blob db stmt i n env).2.2 ≠
        SQLDBAL_STATUS_PARAM := by
      rcases se_status_cases hse.1 with h | h
      · rw [hse.2, h, hok]
        decide
      · rw [hse.2]
        exact h
    exact ⟨⟨fun hp => absurd hp hne, fun hge2 => absurd hge2 hge⟩,
      fun hge2 => absurd hge2 hge⟩


theorem bind_int64_range_facts (db : Db) (stmt : Stmt) (i : Nat) (i64 : Int)
    (env : Env) (hok : db.status = SQLDBAL_STATUS_OK) :
    ((sqldbal_stmt_bind_int64 db stmt i i64 env).2.2 = SQLDBAL_STATUS_PARAM ↔
      stmt.num_params ≤ i) ∧
    (stmt.num_params ≤ i →
      (sqldbal_stmt_bind_int64 db stmt i i64 env).1.adapterCalls =
          db.adapterCalls ∧
      (sqldbal_stmt_bind_int64 db stmt i i64 env).2.1 = stmt) := by
  by_cases hge : stmt.num_params ≤ i
  · unfold sqldbal_stmt_bind_int64 sqldbal_stmt_bind_in_range
    rw [if_pos hge]
    dsimp only [sqldbal_status_code_get]
    simp only [Bool.false_eq_true, if_false]
    exact ⟨⟨fun _ => hge,
      fun _ => (scs_fields db SQLDBAL_STATUS_PARAM).2.2.2.2.2.1⟩,
      fun _ => ⟨scs_adapterCalls db SQLDBAL_STATUS_PARAM, trivial⟩⟩
  · have hir : sqldbal_stmt_bind_in_range db stmt i = (db, true) := by
      unfold sqldbal_stmt_bind_in_range
      rw [if_neg hge]
    have hse : StatusEvolves NotParam db
        (sqldbal_stmt_bind_int64 db stmt i i64 env).1 ∧
        (sqldbal_stmt_bind_int64 db stmt i i64 env).2.2 =
          (sqldbal_stmt_bind_int64 db stmt i i64 env).1.status := by
      unfold sqldbal_stmt_bind_int64
      rw [hir]
      dsimp only [sqldbal_status_code_get]
      rw [if_pos rfl]
      generalize hdb2 : { db with adapterCalls := db.adapterCalls + 1 } = db2
      have hg : StatusEvolves NotParam db db2 := by
        rw [← hdb2]
        exact se_ghost rfl rfl
      cases hd : db.driver <;> (try dsimp only)
      case mariadb | mysql =>
        rcases ha : sqldbal_mariadb_stmt_bind_int64 db2 stmt i i64 env with ⟨db3, st3⟩
        have h2 := seNP_mariadb_bind_int64 db2 stmt i i64 env
        rw [ha] at h2
        exact ⟨se_trans hg h2, rfl⟩
      case postgresql =>
        rcases ha : sqldbal_pq_stmt_bind_int64 db2 stmt i i64 env with ⟨db3, st3⟩
        have h2 := seNP_pq_bind_int64 db2 stmt i i64 env
        rw [ha] at h2
        exact ⟨se_trans hg h2, rfl⟩
      case sqlite =>
        rcases ha : sqldbal_sqlite_stmt_bind_int64 db2 stmt i env with ⟨db3, st3⟩
        have h2 := seNP_sqlite_bind_int64 db2 stmt i env
        rw [ha] at h2
        exact ⟨se_trans hg h2, rfl⟩
      case invalid =>
        exact ⟨hg, rfl⟩
    have hne : (sqldbal_stmt_bind_int64 db stmt i i64 env).2.2 ≠
        SQLDBAL_STATUS_PARAM := by
      rcases se_status_cases hse.1 with h | h
      · rw [hse.2, h, hok]
        decide
      · rw [hse.2]
        exact h
    exact ⟨⟨fun hp => absurd hp hne, fun hge2 => absurd hge2 hge⟩,
      fun hge2 => absurd hge2 hge⟩

theorem bind_null_range_facts (db : Db) (stmt : Stmt) (i : Nat)
    (env : Env) (hok : db.status = SQLDBAL_STATUS_OK) :
    ((sqldbal_stmt_bind_null db stmt i env).2.2 = SQLDBAL_STATUS_PARAM ↔
      stmt.num_params ≤ i) ∧
    (stmt.num_params ≤ i →
      (sqldbal_stmt_bind_null db stmt i env).1.adapterCalls =
          db.adapterCalls ∧
      (sqldbal_stmt_bind_null db stmt i env).2.1 = stmt) := by
  by_cases hge : stmt.num_params ≤ i
  · unfold sqldbal_stmt_bind_null sqldbal_stmt_bind_in_range
    rw [if_pos hge]
    dsimp only [sqldbal_status_code_get]
    simp only [Bool.false_eq_true, if_false]
    exact ⟨⟨fun _ => hge,
      fun _ => (scs_fields db SQLDBAL_STATUS_PARAM).2.2.2.2.2.1⟩,
      fun _ => ⟨scs_adapterCalls db SQLDBAL_STATUS_PARAM, trivial⟩⟩
  · have hir : sqldbal_stmt_bind_in_range db stmt i = (db, true) := by
      unfold sqldbal_stmt_bind_in_range
      rw [if_neg hge]
    have hse : StatusEvolves NotParam db
        (sqldbal_stmt_bind_null db stmt i env).1 ∧
        (sqldbal_stmt_bind_null db stmt i env).2.2 =
          (sqldbal_stmt_bind_null db stmt i env).1.status := by
      unfold sqldbal_stmt_bind_null
      rw [hir]
      dsimp only [sqldbal_status_code_get]
      rw [if_pos rfl]
      generalize hdb2 : { db with adapterCalls := db.adapterCalls + 1 } = db2
      have hg : StatusEvolves NotParam db db2 := by
        rw [← hdb2]
        exact se_ghost rfl rfl
      cases hd : db.driver <;> (try dsimp only)
      case mariadb | mysql =>
        rcases ha : sqldbal_mariadb_stmt_bind_null db2 stmt i env with ⟨db3, st3⟩
        have h2 := seNP_mariadb_bind_null db2 stmt i env
        rw [ha] at h2
        exact ⟨se_trans hg h2, rfl⟩
      case postgresql =>
        rcases ha : sqldbal_pq_stmt_bind_null db2 stmt i env with ⟨db3, st3⟩
        have h2 := seNP_pq_bind_null db2 stmt i env
        rw [ha] at h2
        exact ⟨se_trans hg h2, rfl⟩
      case sqlite =>
        rcases ha : sqldbal_sqlite_stmt_bind_null db2 stmt i env with ⟨db3, st3⟩
        have h2 := seNP_sqlite_bind_null db2 stmt i env
        rw [ha] at h2
        exact ⟨se_trans hg h2, rfl⟩
      case invalid =>
        exact ⟨hg, rfl⟩
    have hne : (sqldbal_stmt_bind_null db stmt i env).2.2 ≠
        SQLDBAL_STATUS_PARAM := by
      rcases se_status_cases hse.1 with h | h
      · rw [hse.2, h, hok]
        decide
      · rw [hse.2]
        exact h
    exact ⟨⟨fun hp => absurd hp hne, fun hge2 => absurd hge2 hge⟩,
      fun hge2 => absurd hge2 hge⟩


theorem bind_text_range_facts (db : Db) (stmt : Stmt) (i : Nat)
    (s : String) (slen : Nat) (env : Env)
    (hok : db.status = SQLDBAL_STATUS_OK) :
    ((sqldbal_stmt_bind_text db stmt i s slen env).2.2 =
        SQLDBAL_STATUS_PARAM ↔ stmt.num_params ≤ i) ∧
    (stmt.num_params ≤ i →
      (sqldbal_stmt_bind_text db stmt i s slen env).1.adapterCalls =
          db.adapterCalls ∧
      (sqldbal_stmt_bind_text db stmt i s slen env).2.1 = stmt) := by
  by_cases hge : stmt.num_params ≤ i
  · unfold sqldbal_stmt_bind_text sqldbal_stmt_bind_in_range
    rw [if_pos hge]
    dsimp only [sqldbal_status_code_get]
    simp only [Bool.false_eq_true, if_false]
    exact ⟨⟨fun _ => hge,
      fun _ => (scs_fields db SQLDBAL_STATUS_PARAM).2.2.2.2.2.1⟩,
      fun _ => ⟨scs_adapterCalls db SQLDBAL_STATUS_PARAM, trivial⟩⟩
  · have hir : sqldbal_stmt_bind_in_range db stmt i = (db, true) := by
      unfold sqldbal_stmt_bind_in_range
      rw [if_neg hge]
    have hse : StatusEvolves NotParam db
        (sqldbal_stmt_bind_text db stmt i s slen env).1 ∧
        (sqldbal_stmt_bind_text db stmt i s slen env).2.2 =
          (sqldbal_stmt_bind_text db stmt i s slen env).1.status := by
      unfold sqldbal_stmt_bind_text
      rw [hir]
      dsimp only [sqldbal_status_code_get]
      rw [if_pos rfl]
      generalize hm : (if slen = SIZE_MAX then s.length else slen) = m
      dsimp only [si_add_size_t]
      split
      · exact ⟨seNP_set db SQLDBAL_STATUS_NOMEM (by decide) (by decide),
          rfl⟩
      · generalize hdb2 :
          { db with adapterCalls := db.adapterCalls + 1 } = db2
        have hg : StatusEvolves NotParam db db2 := by
          rw [← hdb2]
          exact se_ghost rfl rfl
        cases hd : db.driver <;> (try dsimp only)
        case mariadb | mysql =>
          rcases ha : sqldbal_mariadb_stmt_bind_text db2 stmt i
              ((m + 1) % 2 ^ 64) env with ⟨db3, st3⟩
          have h2 := seNP_mariadb_bind_text db2 stmt i
            ((m + 1) % 2 ^ 64) env
          rw [ha] at h2
          exact ⟨se_trans hg h2, rfl⟩
        case postgresql =>
          rcases ha : sqldbal_pq_stmt_bind_text db2 stmt i
              ((m + 1) % 2 ^ 64) env with ⟨db3, st3⟩
          have h2 := seNP_pq_bind_text db2 stmt i ((m + 1) % 2 ^ 64) env
          rw [ha] at h2
          exact ⟨se_trans hg h2, rfl⟩
        case sqlite =>
          rcases ha : sqldbal_sqlite_stmt_bind_text db2 stmt i
              ((m + 1) % 2 ^ 64) env with ⟨db3, st3⟩
          have h2 := seNP_sqlite_bind_text db2 stmt i
            ((m + 1) % 2 ^ 64) env
          rw [ha] at h2
          exact ⟨se_trans hg h2, rfl⟩
        case invalid =>
          exact ⟨hg, rfl⟩
    have hne : (sqldbal_stmt_bind_text db stmt i s slen env).2.2 ≠
        SQLDBAL_STATUS_PARAM := by
      rcases se_status_cases hse.1 with h | h
      · rw [hse.2, h, hok]
        decide
      · rw [hse.2]
        exact h
    exact ⟨⟨fun hp => absurd hp hne, fun hge2 => absurd hge2 hge⟩,
      fun hge2 => absurd hge2 hge⟩


theorem column_blob_range_facts (db : Db) (stmt : Stmt) (i : Nat)
    (env : Env) (hok : db.status = SQLDBAL_STATUS_OK) :
    ((sqldbal_stmt_column_blob db stmt i env).2.2 = SQLDBAL_STATUS_PARAM ↔
      stmt.num_cols_result ≤ i) ∧
    (stmt.num_cols_result ≤ i →
      (sqldbal_stmt_column_blob db stmt i env).1.adapterCalls = db.adapterCalls ∧
      (sqldbal_stmt_column_blob db stmt i env).2.1 = stmt) := by
  by_cases hge : stmt.num_cols_result ≤ i
  · unfold sqldbal_stmt_column_blob sqldbal_stmt_column_in_range
    rw [if_pos hge]
    dsimp only [sqldbal_status_code_get]
    simp only [Bool.false_eq_true, if_false]
    exact ⟨⟨fun _ => hge,
      fun _ => (scs_fields db SQLDBAL_STATUS_PARAM).2.2.2.2.2.1⟩,
      fun _ => ⟨scs_adapterCalls db SQLDBAL_STATUS_PARAM, trivial⟩⟩
  · have hir : sqldbal_stmt_column_in_range db stmt i = (db, true) := by
      unfold sqldbal_stmt_column_in_range
      rw [if_neg hge]
    have hse : StatusEvolves NotParam db
        (sqldbal_stmt_column_blob db stmt i env).1 ∧
        (sqldbal_stmt_column_blob db stmt i env).2.2 =
          (sqldbal_stmt_column_blob db stmt i env).1.status := by
      unfold sqldbal_stmt_column_blob
      rw [hir]
      dsimp only [sqldbal_status_code_get]
      rw [if_pos rfl]
      generalize hdb2 : { db with adapterCalls := db.adapterCalls + 1 } = db2
      have hg : StatusEvolves NotParam db db2 := by
        rw [← hdb2]
        exact se_ghost rfl rfl
      cases hd : db.driver <;> (try dsimp only)
      case mariadb | mysql =>
        exact ⟨se_trans hg (seNP_mariadb_column_blob db2 stmt i), rfl⟩
      case postgresql =>
        rcases ha : sqldbal_pq_stmt_column_blob db2 stmt i env with ⟨db3, st3, tp, sz⟩
        have h2 := seNP_pq_column_blob db2 stmt i env
        rw [ha] at h2
        exact ⟨se_trans hg h2, rfl⟩
      case sqlite =>
        exact ⟨se_trans hg (seNP_sqlite_column_blob db2 stmt i env), rfl⟩
      case invalid =>
        exact ⟨hg, rfl⟩
    have hne : (sqldbal_stmt_column_blob db stmt i env).2.2 ≠
        SQLDBAL_STATUS_PARAM := by
      rcases se_status_cases hse.1 with h | h
      · rw [hse.2, h, hok]
        decide
      · rw [hse.2]
        exact h
    exact ⟨⟨fun hp => absurd hp hne, fun hge2 => absurd hge2 hge⟩,
      fun hge2 => absurd hge2 hge⟩

theorem column_int64_range_facts (db : Db) (stmt : Stmt) (i : Nat)
    (env : Env) (hok : db.status = SQLDBAL_STATUS_OK) :
    ((sqldbal_stmt_column_int64 db stmt i env).2.2 = SQLDBAL_STATUS_PARAM ↔
      stmt.num_cols_result ≤ i) ∧
    (stmt.num_cols_result ≤ i →
      (sqldbal_stmt_column_int64 db stmt i env).1.adapterCalls = db.adapterCalls ∧
      (sqldbal_stmt_column_int64 db stmt i env).2.1 = stmt) := by
  by_cases hge : stmt.num_cols_result ≤ i
  · unfold sqldbal_stmt_column_int64 sqldbal_stmt_column_in_range
    rw [if_pos hge]
    dsimp only [sqldbal_status_code_get]
    simp only [Bool.false_eq_true, if_false]
    exact ⟨⟨fun _ => hge,
      fun _ => (scs_fields db SQLDBAL_STATUS_PARAM).2.2.2.2.2.1⟩,
      fun _ => ⟨scs_adapterCalls db SQLDBAL_STATUS_PARAM, trivial⟩⟩
  · have hir : sqldbal_stmt_column_in_range db stmt i = (db, true) := by
      unfold sqldbal_stmt_column_in_range
      rw [if_neg hge]
    have hse : StatusEvolves NotParam db
        (sqldbal_stmt_column_int64 db stmt i env).1 ∧
        (sqldbal_stmt_column_int64 db stmt i env).2.2 =
          (sqldbal_stmt_column_int64 db stmt i env).1.status := by
      unfold sqldbal_stmt_column_int64
      rw [hir]
      dsimp only [sqldbal_status_code_get]
      rw [if_pos rfl]
      generalize hdb2 : { db with adapterCalls := db.adapterCalls + 1 } = db2
      have hg : StatusEvolves NotParam db db2 := by
        rw [← hdb2]
        exact se_ghost rfl rfl
      cases hd : db.driver <;> (try dsimp only)
      case mariadb | mysql =>
        exact ⟨se_trans hg (seNP_mariadb_column_int64 db2 stmt i), rfl⟩
      case postgresql =>
        rcases ha : sqldbal_pq_stmt_column_int64 db2 stmt i env with ⟨db3, st3, v3⟩
        have h2 := seNP_pq_column_int64 db2 stmt i env
        rw [ha] at h2
        exact ⟨se_trans hg h2, rfl⟩
      case sqlite =>
        exact ⟨se_trans hg (seNP_sqlite_column_int64 db2 stmt i env), rfl⟩
      case invalid =>
        exact ⟨hg, rfl⟩
    have hne : (sqldbal_stmt_column_int64 db stmt i env).2.2 ≠
        SQLDBAL_STATUS_PARAM := by
      rcases se_status_cases hse.1 with h | h
      · rw [hse.2, h, hok]
        decide
      · rw [hse.2]
        exact h
    exact ⟨⟨fun hp => absurd hp hne, fun hge2 => absurd hge2 hge⟩,
      fun hge2 => absurd hge2 hge⟩

theorem column_text_range_facts (db : Db) (stmt : Stmt) (i : Nat)
    (env : Env) (hok : db.status = SQLDBAL_STATUS_OK) :
    ((sqldbal_stmt_column_text db stmt i env).2.2 = SQLDBAL_STATUS_PARAM ↔
      stmt.num_cols_result ≤ i) ∧
    (stmt.num_cols_result ≤ i →
      (sqldbal_stmt_column_text db stmt i env).1.adapterCalls = db.adapterCalls ∧
      (sqldbal_stmt_column_text db stmt i env).2.1 = stmt) := by
  by_cases hge : stmt.num_cols_result ≤ i
  · unfold sqldbal_stmt_column_text sqldbal_stmt_column_in_range
    rw [if_pos hge]
    dsimp only [sqldbal_status_code_get]
    simp only [Bool.false_eq_true, if_false]
    exact ⟨⟨fun _ => hge,
      fun _ => (scs_fields db SQLDBAL_STATUS_PARAM).2.2.2.2.2.1⟩,
      fun _ => ⟨scs_adapterCalls db SQLDBAL_STATUS_PARAM, trivial⟩⟩
  · have hir : sqldbal_stmt_column_in_range db stmt i = (db, true) := by
      unfold sqldbal_stmt_column_in_range
      rw [if_neg hge]
    have hse : StatusEvolves NotParam db
        (sqldbal_stmt_column_text db stmt i env).1 ∧
        (sqldbal_stmt_column_text db stmt i env).2.2 =
          (sqldbal_stmt_column_text db stmt i env).1.status := by
      unfold sqldbal_stmt_column_text
      rw [hir]
      dsimp only [sqldbal_status_code_get]
      rw [if_pos rfl]
      generalize hdb2 : { db with adapterCalls := db.adapterCalls + 1 } = db2
      have hg : StatusEvolves NotParam db db2 := by
        rw [← hdb2]
        exact se_ghost rfl rfl
      cases hd : db.driver <;> (try dsimp only)
      case mariadb | mysql =>
        exact ⟨se_trans hg (seNP_mariadb_column_text db2 stmt i), rfl⟩
      case postgresql =>
        rcases ha : sqldbal_pq_stmt_column_text db2 stmt i env with ⟨db3, st3, tp, sz⟩
        have h2 := seNP_pq_column_text db2 stmt i env
        rw [ha] at h2
        exact ⟨se_trans hg h2, rfl⟩
      case sqlite =>
        exact ⟨se_trans hg (seNP_sqlite_column_text db2 stmt i env), rfl⟩
      case invalid =>
        exact ⟨hg, rfl⟩
    have hne : (sqldbal_stmt_column_text db stmt i env).2.2 ≠
        SQLDBAL_STATUS_PARAM := by
      rcases se_status_cases hse.1 with h | h
      · rw [hse.2, h, hok]
        decide
      · rw [hse.2]
        exact h
    exact ⟨⟨fun hp => absurd hp hne, fun hge2 => absurd hge2 hge⟩,
      fun hge2 => absurd hge2 hge⟩


theorem column_type_range_facts (db : Db) (stmt : Stmt) (i : Nat)
    (env : Env) (hok : db.status = SQLDBAL_STATUS_OK) :
    ((sqldbal_stmt_column_type db stmt i env).1.status =
        SQLDBAL_STATUS_PARAM ↔ stmt.num_cols_result ≤ i) ∧
    (stmt.num_cols_result ≤ i →
      (sqldbal_stmt_column_type db stmt i env).1.adapterCalls =
        db.adapterCalls) := by
  by_cases hge : stmt.num_cols_result ≤ i
  · unfold sqldbal_stmt_column_type sqldbal_stmt_column_in_range
    rw [if_pos hge]
    simp only [Bool.false_eq_true, if_false]
    exact ⟨⟨fun _ => hge,
      fun _ => (scs_fields db SQLDBAL_STATUS_PARAM).2.2.2.2.2.1⟩,
      fun _ => scs_adapterCalls db SQLDBAL_STATUS_PARAM⟩
  · have hir : sqldbal_stmt_column_in_range db stmt i = (db, true) := by
      unfold sqldbal_stmt_column_in_range
      rw [if_neg hge]
    have hse : StatusEvolves NotParam db
        (sqldbal_stmt_column_type db stmt i env).1 := by
      unfold sqldbal_stmt_column_type
      rw [hir]
      dsimp only
      rw [if_pos rfl]
      generalize hdb2 : { db with adapterCalls := db.adapterCalls + 1 } = db2
      have hg : StatusEvolves NotParam db db2 := by
        rw [← hdb2]
        exact se_ghost rfl rfl
      cases hd : db.driver <;> (try dsimp only)
      case mariadb | mysql =>
        exact se_trans hg (seNP_mariadb_column_type db2 stmt i)
      case postgresql =>
        exact se_trans hg (seNP_pq_column_type db2 stmt i env)
      case sqlite =>
        exact se_trans hg (seNP_sqlite_column_type db2 stmt i env)
      case invalid =>
        exact hg
    have hne : (sqldbal_stmt_column_type db stmt i env).1.status ≠
        SQLDBAL_STATUS_PARAM := by
      rcases se_status_cases hse with h | h
      · rw [h, hok]
        decide
      · exact h
    exact ⟨⟨fun hp => absurd hp hne, fun hge2 => absurd hge2 hge⟩,
      fun hge2 => absurd hge2 hge⟩


/-- Claim C1: for a connection whose status is OK on entry, each public
bind operation sets the returned status to invalid-parameter exactly when
the index reaches the statement parameter count, and an out-of-range
index leaves the adapter dispatch counter and the statement untouched;
each public column accessor does the same against the result column
count.  The facades bind_blob, bind_int64, bind_text, bind_null,
column_blob, column_int64, column_text and column_type are covered in
that order. -/
theorem claim_C1 (db : Db) (stmt : Stmt) (i : Nat) (env : Env)
    (n : Nat) (i64 : Int) (s : String) (slen : Nat)
    (hok : db.status = SQLDBAL_STATUS_OK) :
    (((sqldbal_stmt_bind_blob db stmt i n env).2.2 =
        SQLDBAL_STATUS_PARAM ↔ stmt.num_params ≤ i) ∧
     (stmt.num_params ≤ i →
       (sqldbal_stmt_bind_blob db stmt i n env).1.adapterCalls =
           db.adapterCalls ∧
       (sqldbal_stmt_bind_blob db stmt i n env).2.1 = stmt)) ∧
    (((sqldbal_stmt_bind_int64 db stmt i i64 env).2.2 =
        SQLDBAL_STATUS_PARAM ↔ stmt.num_params ≤ i) ∧
     (stmt.num_params ≤ i →
       (sqldbal_stmt_bind_int64 db stmt i i64 env).1.adapterCalls =
           db.adapterCalls ∧
       (sqldbal_stmt_bind_int64 db stmt i i64 env).2.1 = stmt)) ∧
    (((sqldbal_stmt_bind_text db stmt i s slen env).2.2 =
        SQLDBAL_STATUS_PARAM ↔ stmt.num_params ≤ i) ∧
     (stmt.num_params ≤ i →
       (sqldbal_stmt_bind_text db stmt i s slen env).1.adapterCalls =
           db.adapterCalls ∧
       (sqldbal_stmt_bind_text db stmt i s slen env).2.1 = stmt)) ∧
    (((sqldbal_stmt_bind_null db stmt i env).2.2 =
        SQLDBAL_STATUS_PARAM ↔ stmt.num_params ≤ i) ∧
     (stmt.num_params ≤ i →
       (sqldbal_stmt_bind_null db stmt i env).1.adapterCalls =
           db.adapterCalls ∧
       (sqldbal_stmt_bind_null db stmt i env).2.1 = stmt)) ∧
    (((sqldbal_stmt_column_blob db stmt i env).2.2 =
        SQLDBAL_STATUS_PARAM ↔ stmt.num_cols_result ≤ i) ∧
     (stmt.num_cols_result ≤ i →
       (sqldbal_stmt_column_blob db stmt i env).1.adapterCalls =
           db.adapterCalls ∧
       (sqldbal_stmt_column_blob db stmt i env).2.1 = stmt)) ∧
    (((sqldbal_stmt_column_int64 db stmt i env).2.2 =
        SQLDBAL_STATUS_PARAM ↔ stmt.num_cols_result ≤ i) ∧
     (stmt.num_cols_result ≤ i →
       (sqldbal_stmt_column_int64 db stmt i env).1.adapterCalls =
           db.adapterCalls ∧
       (sqldbal_stmt_column_int64 db stmt i env).2.1 = stmt)) ∧
    (((sqldbal_stmt_column_text db stmt i env).2.2 =
        SQLDBAL_STATUS_PARAM ↔ stmt.num_cols_result ≤ i) ∧
     (stmt.num_cols_result ≤ i →
       (sqldbal_stmt_column_text db stmt i env).1.adapterCalls =
           db.adapterCalls ∧
       (sqldbal_stmt_column_text db stmt i env).2.1 = stmt)) ∧
    (((sqldbal_stmt_column_type db stmt i env).1.status =
        SQLDBAL_STATUS_PARAM ↔ stmt.num_cols_result ≤ i) ∧
     (stmt.num_cols_result ≤ i →
       (sqldbal_stmt_column_type db stmt i env).1.adapterCalls =
         db.adapterCalls)) :=
  ⟨bind_blob_range_facts db stmt i n env hok,
   bind_int64_range_facts db stmt i i64 env hok,
   bind_text_range_facts db stmt i s slen env hok,
   bind_null_range_facts db stmt i env hok,
   column_blob_range_facts db stmt i env hok,
   column_int64_range_facts db stmt i env hok,
   column_text_range_facts db stmt i env hok,
   column_type_range_facts db stmt i env hok⟩

/-- Claim C1 witness: index 5 against a one-parameter one-column SQLite
statement on a fresh OK connection is out of range for both a bind and a
column accessor, returning invalid-parameter without touching the
adapter dispatch counter; index 0 is in range and the bind returns a
status other than invalid-parameter. -/
theorem claim_C1_witness :
    (sqldbal_stmt_bind_blob dbInit stmtSqlite1 5 4 envAllOk).2.2 =
        SQLDBAL_STATUS_PARAM ∧
    (sqldbal_stmt_bind_blob dbInit stmtSqlite1 5 4 envAllOk).1.adapterCalls
        = dbInit.adapterCalls ∧
    (sqldbal_stmt_column_type dbInit stmtSqlite1 5 envAllOk).1.status =
        SQLDBAL_STATUS_PARAM ∧
    ¬ (sqldbal_stmt_bind_blob dbInit stmtSqlite1 0 4 envAllOk).2.2 =
        SQLDBAL_STATUS_PARAM := by
  have h5 := claim_C1 dbInit stmtSqlite1 5 envAllOk 4 0 "" 0 rfl
  have h0 := claim_C1 dbInit stmtSqlite1 0 envAllOk 4 0 "" 0 rfl
  refine ⟨h5.1.1.2 (by decide), (h5.1.2 (by decide)).1,
    (h5.2.2.2.2.2.2.2.1).2 (by decide), ?_⟩
  intro hp
  have := h0.1.1.1 hp
  revert this
  decide

/-! Status evolution of the adapter bind and column operations under the
predicate NotOk: none of them ever writes the OK status. -/

theorem seNO_set (a : Db) (v : Nat) (hv : v ≠ SQLDBAL_STATUS_OK)
    (hlt : v < SQLDBAL_STATUS_LAST) :
    StatusEvolves NotOk a (sqldbal_status_code_set a v).1 :=
  se_set a v hv (fun hc => absurd hc (Nat.not_le.mpr hlt))

theorem seNO_err_set (a : Db) (v : Nat) (ok : Bool)
    (hv : v ≠ SQLDBAL_STATUS_OK) (hlt : v < SQLDBAL_STATUS_LAST) :
    StatusEvolves NotOk a (sqldbal_err_set a v ok) :=
  se_err_set a v ok hv (fun hc => absurd hc (Nat.not_le.mpr hlt)) (by decide)

theorem seNO_sqlite_error (db : Db) (v : Nat) (env : Env)
    (hv : v ≠ SQLDBAL_STATUS_OK) (hlt : v < SQLDBAL_STATUS_LAST) :
    StatusEvolves NotOk db (sqldbal_sqlite_error db v env) := by
  unfold sqldbal_sqlite_error
  exact seNO_err_set db v env.strdupOk hv hlt

theorem seNO_sqlite_bind_blob (db : Db) (stmt : Stmt) (i n : Nat)
    (env : Env) :
    StatusEvolves NotOk db
      (sqldbal_sqlite_stmt_bind_blob db stmt i n env).1 := by
  unfold sqldbal_sqlite_stmt_bind_blob
  split
  · exact seNO_set db SQLDBAL_STATUS_OVERFLOW (by decide) (by decide)
  · split
    · exact seNO_sqlite_error db SQLDBAL_STATUS_BIND env (by decide)
        (by decide)
    · exact se_refl db

theorem seNO_sqlite_bind_int64 (db : Db) (stmt : Stmt) (i : Nat)
    (env : Env) :
    StatusEvolves NotOk db
      (sqldbal_sqlite_stmt_bind_int64 db stmt i env).1 := by
  unfold sqldbal_sqlite_stmt_bind_int64
  split
  · exact seNO_set db SQLDBAL_STATUS_OVERFLOW (by decide) (by decide)
  · split
    · exact seNO_sqlite_error db SQLDBAL_STATUS_BIND env (by decide)
        (by decide)
    · exact se_refl db

theorem seNO_sqlite_bind_text (db : Db) (stmt : Stmt) (i n : Nat)
    (env : Env) :
    StatusEvolves NotOk db
      (sqldbal_sqlite_stmt_bind_text db stmt i n env).1 := by
  unfold sqldbal_sqlite_stmt_bind_text
  split
  · exact seNO_set db SQLDBAL_STATUS_OVERFLOW (by decide) (by decide)
  · split
    · exact seNO_sqlite_error db SQLDBAL_STATUS_BIND env (by decide)
        (by decide)
    · exact se_refl db

theorem seNO_sqlite_bind_null (db : Db) (stmt : Stmt) (i : Nat)
    (env : Env) :
    StatusEvolves NotOk db
      (sqldbal_sqlite_stmt_bind_null db stmt i env).1 := by
  unfold sqldbal_sqlite_stmt_bind_null
  split
  · exact seNO_set db SQLDBAL_STATUS_OVERFLOW (by decide) (by decide)
  · split
    · exact seNO_sqlite_error db SQLDBAL_STATUS_BIND env (by decide)
        (by decide)
    · exact se_refl db

theorem seNO_sqlite_column_blob (db : Db) (stmt : Stmt) (i : Nat)
    (env : Env) :
    StatusEvolves NotOk db
      (sqldbal_sqlite_stmt_column_blob db stmt i env).1 := by
  unfold sqldbal_sqlite_stmt_column_blob
  split
  · exact seNO_set db SQLDBAL_STATUS_OVERFLOW (by decide) (by decide)
  · dsimp only
    split
    · exact seNO_set db SQLDBAL_STATUS_OVERFLOW (by decide) (by decide)
    · split
      · exact seNO_sqlite_error db SQLDBAL_STATUS_NOMEM env (by decide)
          (by decide)
      · exact se_refl db

theorem seNO_sqlite_column_int64 (db : Db) (stmt : Stmt) (i : Nat)
    (env : Env) :
    StatusEvolves NotOk db
      (sqldbal_sqlite_stmt_column_int64 db stmt i env).1 := by
  unfold sqldbal_sqlite_stmt_column_int64
  split
  · exact seNO_set db SQLDBAL_STATUS_OVERFLOW (by decide) (by decide)
  · exact se_refl db

theorem seNO_sqlite_column_text (db : Db) (stmt : Stmt) (i : Nat)
    (env : Env) :
    StatusEvolves NotOk db
      (sqldbal_sqlite_stmt_column_text db stmt i env).1 := by
  unfold sqldbal_sqlite_stmt_column_text
  split
  · exact seNO_set db SQLDBAL_STATUS_OVERFLOW (by decide) (by decide)
  · dsimp only
    split
    · exact seNO_set db SQLDBAL_STATUS_OVERFLOW (by decide) (by decide)
    · split
      · split
        · exact seNO_sqlite_error db SQLDBAL_STATUS_NOMEM env (by decide)
            (by decide)
        · exact se_refl db
      · exact se_refl db

theorem seNO_sqlite_column_type (db : Db) (stmt : Stmt) (i : Nat)
    (env : Env) :
    StatusEvolves NotOk db
      (sqldbal_sqlite_stmt_column_type db stmt i env).1 := by
  unfold sqldbal_sqlite_stmt_column_type
  split
  · exact seNO_set db SQLDBAL_STATUS_OVERFLOW (by decide) (by decide)
  · exact se_refl db

theorem seNO_mariadb_free_buf (db : Db) (slot : Option Nat) :
    StatusEvolves NotOk db
      (sqldbal_mariadb_stmt_bind_free_buf db slot).1 := by
  cases slot with
  | none => exact se_refl db
  | some b => exact se_ghost rfl rfl

theorem seNO_mariadb_install (db : Db) (stmt : Stmt) (i b : Nat) :
    StatusEvolves NotOk db (mariadbInstallBind db stmt i b).1 := by
  unfold mariadbInstallBind
  dsimp only
  rcases h : sqldbal_mariadb_stmt_bind_free_buf db
      ((mariadbStmtOf stmt).bindOut.getD i Option.none) with ⟨db2, s2⟩
  have h2 := seNO_mariadb_free_buf db
    ((mariadbStmtOf stmt).bindOut.getD i Option.none)
  rw [h] at h2
  exact h2

theorem seNO_mariadb_bind_blob (db : Db) (stmt : Stmt) (i n : Nat)
    (env : Env) :
    StatusEvolves NotOk db
      (sqldbal_mariadb_stmt_bind_blob db stmt i n env).1 := by
  unfold sqldbal_mariadb_stmt_bind_blob
  split
  · exact seNO_set db SQLDBAL_STATUS_NOMEM (by decide) (by decide)
  · dsimp only [allocBuf]
    exact se_trans (se_ghost rfl rfl) (seNO_mariadb_install _ stmt i _)

theorem seNO_mariadb_bind_int64 (db : Db) (stmt : Stmt) (i : Nat)
    (i64 : Int) (env : Env) :
    StatusEvolves NotOk db
      (sqldbal_mariadb_stmt_bind_int64 db stmt i i64 env).1 := by
  unfold sqldbal_mariadb_stmt_bind_int64
  split
  · exact seNO_set db SQLDBAL_STATUS_OVERFLOW (by decide) (by decide)
  · split
    · exact seNO_set db SQLDBAL_STATUS_NOMEM (by decide) (by decide)
    · dsimp only [allocBuf]
      exact se_trans (se_ghost rfl rfl) (seNO_mariadb_install _ stmt i _)

theorem seNO_mariadb_bind_text (db : Db) (stmt : Stmt) (i n : Nat)
    (env : Env) :
    StatusEvolves NotOk db
      (sqldbal_mariadb_stmt_bind_text db stmt i n env).1 := by
  unfold sqldbal_mariadb_stmt_bind_text
  split
  · exact seNO_set db SQLDBAL_STATUS_NOMEM (by decide) (by decide)
  · dsimp only [allocBuf]
    exact se_trans (se_ghost rfl rfl) (seNO_mariadb_install _ stmt i _)

theorem seNO_mariadb_bind_null (db : Db) (stmt : Stmt) (i : Nat)
    (env : Env) :
    StatusEvolves NotOk db
      (sqldbal_mariadb_stmt_bind_null db stmt i env).1 := by
  unfold sqldbal_mariadb_stmt_bind_null
  dsimp only
  rcases h : sqldbal_mariadb_stmt_bind_free_buf db
      ((mariadbStmtOf stmt).bindOut.getD i Option.none) with ⟨db2, s2⟩
  have h2 := seNO_mariadb_free_buf db
    ((mariadbStmtOf stmt).bindOut.getD i Option.none)
  rw [h] at h2
  exact h2

theorem seNO_mariadb_column_blob (db : Db) (stmt : Stmt) (i : Nat) :
    StatusEvolves NotOk db
      (sqldbal_mariadb_stmt_column_blob db stmt i).1 := by
  unfold sqldbal_mariadb_stmt_column_blob
  dsimp only
  split
  · exact se_refl db
  · exact se_refl db

theorem seNO_mariadb_column_int64 (db : Db) (stmt : Stmt) (i : Nat) :
    StatusEvolves NotOk db
      (sqldbal_mariadb_stmt_column_int64 db stmt i).1 := by
  unfold sqldbal_mariadb_stmt_column_int64
  dsimp only
  split
  · exact se_refl db
  · exact se_strtoi64 db _ (by decide)

theorem seNO_mariadb_column_text (db : Db) (stmt : Stmt) (i : Nat) :
    StatusEvolves NotOk db
      (sqldbal_mariadb_stmt_column_text db stmt i).1 := by
  unfold sqldbal_mariadb_stmt_column_text
  dsimp only
  split
  · exact se_refl db
  · exact se_refl db

theorem seNO_mariadb_column_type (db : Db) (stmt : Stmt) (i : Nat) :
    StatusEvolves NotOk db
      (sqldbal_mariadb_stmt_column_type db stmt i).1 := by
  unfold sqldbal_mariadb_stmt_column_type
  dsimp only
  split
  · exact se_refl db
  · exact se_refl db

theorem seNO_pq_bind_blob (db : Db) (stmt : Stmt) (i n : Nat) (env : Env) :
    StatusEvolves NotOk db
      (sqldbal_pq_stmt_bind_blob db stmt i n env).1 := by
  unfold sqldbal_pq_stmt_bind_blob
  split
  · exact seNO_set db SQLDBAL_STATUS_OVERFLOW (by decide) (by decide)
  · split
    · exact seNO_set db SQLDBAL_STATUS_NOMEM (by decide) (by decide)
    · dsimp only [allocBuf]
      split
      · exact se_ghost rfl rfl
      · exact se_ghost rfl rfl

theorem seNO_pq_bind_int64 (db : Db) (stmt : Stmt) (i : Nat) (i64 : Int)
    (env : Env) :
    StatusEvolves NotOk db
      (sqldbal_pq_stmt_bind_int64 db stmt i i64 env).1 := by
  unfold sqldbal_pq_stmt_bind_int64
  split
  · exact seNO_set db SQLDBAL_STATUS_BIND (by decide) (by decide)
  · dsimp only
    rcases h : sqldbal_pq_stmt_bind_blob db stmt i
        ((toString i64).length + 1) env with ⟨db2, st2⟩
    have h2 := seNO_pq_bind_blob db stmt i ((toString i64).length + 1) env
    rw [h] at h2
    exact h2

theorem seNO_pq_bind_text (db : Db) (stmt : Stmt) (i n : Nat) (env : Env) :
    StatusEvolves NotOk db
      (sqldbal_pq_stmt_bind_text db stmt i n env).1 := by
  unfold sqldbal_pq_stmt_bind_text
  rcases h : sqldbal_pq_stmt_bind_blob db stmt i n env with ⟨db2, st2⟩
  have h2 := seNO_pq_bind_blob db stmt i n env
  rw [h] at h2
  exact h2

theorem seNO_pq_bind_null (db : Db) (stmt : Stmt) (i : Nat) (env : Env) :
    StatusEvolves NotOk db
      (sqldbal_pq_stmt_bind_null db stmt i env).1 :=
  se_refl db

theorem seNO_pq_column_blob (db : Db) (stmt : Stmt) (i : Nat) (env : Env) :
    StatusEvolves NotOk db
      (sqldbal_pq_stmt_column_blob db stmt i env).1 := by
  unfold sqldbal_pq_stmt_column_blob
  split
  · exact seNO_set db SQLDBAL_STATUS_OVERFLOW (by decide) (by decide)
  · dsimp only
    split
    · exact seNO_set db SQLDBAL_STATUS_OVERFLOW (by decide) (by decide)
    · split
      · exact se_refl db
      · split
        · split
          · dsimp only [allocBuf]
            exact se_ghost rfl rfl
          · exact seNO_set db SQLDBAL_STATUS_NOMEM (by decide) (by decide)
        · exact se_refl db

theorem seNO_pq_column_text (db : Db) (stmt : Stmt) (i : Nat) (env : Env) :
    StatusEvolves NotOk db
      (sqldbal_pq_stmt_column_text db stmt i env).1 := by
  unfold sqldbal_pq_stmt_column_text
  exact seNO_pq_column_blob db stmt i env

theorem seNO_pq_column_int64 (db : Db) (stmt : Stmt) (i : Nat) (env : Env) :
    StatusEvolves NotOk db
      (sqldbal_pq_stmt_column_int64 db stmt i env).1 := by
  unfold sqldbal_pq_stmt_column_int64
  rcases h : sqldbal_pq_stmt_column_text db stmt i env with ⟨db2, st2, tp, sz⟩
  have h1 := seNO_pq_column_text db stmt i env
  rw [h] at h1
  dsimp only
  split
  · rcases h2 : sqldbal_strtoi64 db2 (env.pqColValue i) with ⟨db3, v3⟩
    have h3 := se_strtoi64 (P := NotOk) db2 (env.pqColValue i) (by decide)
    rw [h2] at h3
    exact se_trans h1 h3
  · exact h1

theorem seNO_pq_column_type (db : Db) (stmt : Stmt) (i : Nat) (env : Env) :
    StatusEvolves NotOk db
      (sqldbal_pq_stmt_column_type db stmt i env).1 := by
  unfold sqldbal_pq_stmt_column_type
  split
  · exact seNO_set db SQLDBAL_STATUS_OVERFLOW (by decide) (by decide)
  · split
    · exact se_refl db
    · exact se_refl db



/-! Status evolution toolkit for the remaining public operations under
NotOk: loops fold, ghost-only steps evolve trivially, and every status
written inside a public operation after the open initialization is
non-OK. -/

theorem se_foldl {P : Nat → Prop} {α : Type} (f : Db → α → Db)
    (hf : ∀ (d : Db) (x : α), StatusEvolves P d (f d x)) :
    ∀ (l : List α) (d : Db), StatusEvolves P d (l.foldl f d) := by
  intro l
  induction l with
  | nil => exact fun d => se_refl d
  | cons a rest ih =>
      intro d
      exact se_trans (hf d a) (ih (f d a))

theorem seNO_mariadb_begin (db : Db) (env : Env) :
    StatusEvolves NotOk db (sqldbal_mariadb_begin_transaction db env) := by
  unfold sqldbal_mariadb_begin_transaction sqldbal_mariadb_error
  split
  · exact seNO_err_set db SQLDBAL_STATUS_EXEC env.strdupOk (by decide)
      (by decide)
  · exact se_refl db

theorem seNO_mariadb_commit (db : Db) (env : Env) :
    StatusEvolves NotOk db (sqldbal_mariadb_commit db env) := by
  unfold sqldbal_mariadb_commit sqldbal_mariadb_error
  split
  · exact seNO_err_set db SQLDBAL_STATUS_EXEC env.strdupOk (by decide)
      (by decide)
  · exact se_refl db

theorem seNO_mariadb_rollback (db : Db) (env : Env) :
    StatusEvolves NotOk db (sqldbal_mariadb_rollback db env) := by
  unfold sqldbal_mariadb_rollback sqldbal_mariadb_error
  split
  · exact seNO_err_set db SQLDBAL_STATUS_EXEC env.strdupOk (by decide)
      (by decide)
  · exact se_refl db

theorem seNO_pq_noresult (db : Db) (env : Env) :
    StatusEvolves NotOk db (sqldbal_pq_exec_noresult db env) := by
  unfold sqldbal_pq_exec_noresult
  split
  · exact seNO_set db SQLDBAL_STATUS_NOMEM (by decide) (by decide)
  · split
    · exact seNO_set db SQLDBAL_STATUS_EXEC (by decide) (by decide)
    · exact se_refl db

theorem seNO_pq_begin (db : Db) (env : Env) :
    StatusEvolves NotOk db (sqldbal_pq_begin_transaction db env) := by
  unfold sqldbal_pq_begin_transaction
  exact seNO_pq_noresult db env

theorem seNO_pq_commit (db : Db) (env : Env) :
    StatusEvolves NotOk db (sqldbal_pq_commit db env) := by
  unfold sqldbal_pq_commit
  exact seNO_pq_noresult db env

theorem seNO_pq_rollback (db : Db) (env : Env) :
    StatusEvolves NotOk db (sqldbal_pq_rollback db env) := by
  unfold sqldbal_pq_rollback
  exact seNO_pq_noresult db env

theorem seNO_sqlite_noresult (db : Db) (env : Env) :
    StatusEvolves NotOk db (sqldbal_sqlite_noresult db env) := by
  unfold sqldbal_sqlite_noresult
  split
  · exact seNO_err_set db SQLDBAL_STATUS_EXEC env.strdupOk (by decide)
      (by decide)
  · exact se_refl db

theorem seNO_sqlite_begin (db : Db) (env : Env) :
    StatusEvolves NotOk db (sqldbal_sqlite_begin_transaction db env) := by
  unfold sqldbal_sqlite_begin_transaction
  exact seNO_sqlite_noresult db env

theorem seNO_sqlite_commit (db : Db) (env : Env) :
    StatusEvolves NotOk db (sqldbal_sqlite_commit db env) := by
  unfold sqldbal_sqlite_commit
  exact seNO_sqlite_noresult db env

theorem seNO_sqlite_rollback (db : Db) (env : Env) :
    StatusEvolves NotOk db (sqldbal_sqlite_rollback db env) := by
  unfold sqldbal_sqlite_rollback
  exact seNO_sqlite_noresult db env

theorem seNO_sqlite_close (db : Db) (env : Env) :
    StatusEvolves NotOk db (sqldbal_sqlite_close db env) := by
  unfold sqldbal_sqlite_close
  split
  · exact seNO_sqlite_error db SQLDBAL_STATUS_CLOSE env (by decide)
      (by decide)
  · exact se_refl db

theorem seNO_dispatch_close (db : Db) (env : Env) :
    StatusEvolves NotOk db (dispatchDriverClose db env) := by
  unfold dispatchDriverClose sqldbal_mariadb_close sqldbal_pq_close
  cases hd : db.driver <;> (try dsimp only)
  case mariadb | mysql => exact se_refl db
  case postgresql => exact se_refl db
  case sqlite => exact seNO_sqlite_close db env
  case invalid => exact se_refl db


theorem seNO_sqlite_exec_rows :
    ∀ (rows : List SqliteExecRow) (db : Db),
      StatusEvolves NotOk db (sqldbal_sqlite_exec_rows db rows).1 := by
  intro rows
  induction rows with
  | nil => exact fun db => se_refl db
  | cons r rest ih =>
      intro db
      unfold sqldbal_sqlite_exec_rows
      split
      · exact seNO_set db SQLDBAL_STATUS_NOMEM (by decide) (by decide)
      · split
        · exact seNO_set db SQLDBAL_STATUS_EXEC (by decide) (by decide)
        · exact ih db

theorem seNO_sqlite_exec (db : Db) (cb : Bool) (env : Env) :
    StatusEvolves NotOk db (sqldbal_sqlite_exec db cb env) := by
  unfold sqldbal_sqlite_exec
  cases cb with
  | false =>
      simp only [Bool.false_eq_true, if_false]
      split
      · exact seNO_err_set db SQLDBAL_STATUS_EXEC env.strdupOk (by decide)
          (by decide)
      · exact se_refl db
  | true =>
      rw [if_pos rfl]
      rcases h : sqldbal_sqlite_exec_rows db env.sqliteExecRows
        with ⟨db2, ab⟩
      have h2 := seNO_sqlite_exec_rows env.sqliteExecRows db
      rw [h] at h2
      dsimp only
      split
      · exact se_trans h2 (seNO_err_set db2 SQLDBAL_STATUS_EXEC
          env.strdupOk (by decide) (by decide))
      · exact h2

theorem seNO_mariadb_exec_rows :
    ∀ (rows : List MariadbExecRow) (db : Db),
      StatusEvolves NotOk db (sqldbal_mariadb_exec_rows db rows) := by
  intro rows
  induction rows with
  | nil => exact fun db => se_refl db
  | cons r rest ih =>
      intro db
      unfold sqldbal_mariadb_exec_rows
      split
      · exact se_trans
          (seNO_set db SQLDBAL_STATUS_OVERFLOW (by decide) (by decide))
          (ih _)
      · split
        · exact seNO_set db SQLDBAL_STATUS_EXEC (by decide) (by decide)
        · exact ih db

theorem seNO_mariadb_exec (db : Db) (cb : Bool) (env : Env) :
    StatusEvolves NotOk db (sqldbal_mariadb_exec db cb env) := by
  unfold sqldbal_mariadb_exec sqldbal_mariadb_error
  split
  · exact seNO_err_set db SQLDBAL_STATUS_EXEC env.strdupOk (by decide)
      (by decide)
  · split
    · split
      · split
        · exact seNO_set db SQLDBAL_STATUS_NOMEM (by decide) (by decide)
        · exact seNO_mariadb_exec_rows env.mariadbExecRows db
      · exact se_refl db
    · split
      · exact seNO_set db SQLDBAL_STATUS_EXEC (by decide) (by decide)
      · exact se_refl db

theorem seNO_pq_exec_col (db : Db) (env : Env) (r c : Nat) :
    StatusEvolves NotOk db (sqldbal_pq_exec_col db env r c) := by
  unfold sqldbal_pq_exec_col
  split
  · exact seNO_set db SQLDBAL_STATUS_NOMEM (by decide) (by decide)
  · split
    · exact seNO_set db SQLDBAL_STATUS_NOMEM (by decide) (by decide)
    · split
      · exact se_refl db
      · split
        · split
          · dsimp only
            split
            · exact se_refl db
            · exact seNO_set db SQLDBAL_STATUS_NOMEM (by decide)
                (by decide)
          · exact seNO_set db SQLDBAL_STATUS_NOMEM (by decide) (by decide)
        · exact se_refl db

theorem seNO_pq_exec_row (db : Db) (env : Env) (nc r : Nat) :
    StatusEvolves NotOk db (sqldbal_pq_exec_row db env nc r) := by
  unfold sqldbal_pq_exec_row
  have hf := se_foldl (P := NotOk)
    (fun db c => sqldbal_pq_exec_col db env r c)
    (fun d c => seNO_pq_exec_col d env r c) (List.range nc) db
  generalize hg : (List.range nc).foldl
    (fun db c => sqldbal_pq_exec_col db env r c) db = db2
  rw [hg] at hf
  split
  · dsimp only
    split
    · exact se_trans hf
        (seNO_set db2 SQLDBAL_STATUS_EXEC (by decide) (by decide))
    · exact hf
  · dsimp only
    split
    · exact hf
    · exact hf

theorem seNO_pq_exec (db : Db) (cb : Bool) (env : Env) :
    StatusEvolves NotOk db (sqldbal_pq_exec db cb env) := by
  unfold sqldbal_pq_exec sqldbal_pq_error
  split
  · exact seNO_err_set db SQLDBAL_STATUS_EXEC env.strdupOk (by decide)
      (by decide)
  · split
    · exact se_refl db
    · cases cb with
      | false =>
          simp only [Bool.false_eq_true, if_false]
          exact se_refl db
      | true =>
          rw [if_pos rfl]
          split
          · exact seNO_err_set db SQLDBAL_STATUS_NOMEM env.strdupOk
              (by decide) (by decide)
          · split
            · exact seNO_err_set db SQLDBAL_STATUS_NOMEM env.strdupOk
                (by decide) (by decide)
            · exact se_foldl (P := NotOk)
                (fun db r =>
                  sqldbal_pq_exec_row db env env.pqExecNfields.toNat r)
                (fun d r => seNO_pq_exec_row d env env.pqExecNfields.toNat r)
                (List.range env.pqExecNtuples) db
    · exact seNO_err_set db SQLDBAL_STATUS_EXEC env.strdupOk (by decide)
        (by decide)


theorem seNO_sqlite_prepare (db : Db) (sql_len : Nat) (stmt : Stmt)
    (env : Env) :
    StatusEvolves NotOk db
      (sqldbal_sqlite_stmt_prepare db sql_len stmt env).1 := by
  unfold sqldbal_sqlite_stmt_prepare
  dsimp only
  by_cases hb : decide (¬ sql_len = SIZE_MAX ∧ sql_len > INT_MAX) = true
  · rw [if_neg (by simp [hb]), if_pos hb]
    exact seNO_set db SQLDBAL_STATUS_PARAM (by decide) (by decide)
  · rw [if_pos hb, if_neg hb]
    split
    · exact seNO_sqlite_error db SQLDBAL_STATUS_PREPARE env (by decide)
        (by decide)
    · exact se_refl db

theorem seNO_mariadb_get_num_cols (db : Db) (stmt : Stmt) (env : Env) :
    StatusEvolves NotOk db
      (sqldbal_mariadb_stmt_get_num_cols db stmt env).1 := by
  unfold sqldbal_mariadb_stmt_get_num_cols
  split
  · split
    · exact seNO_set db SQLDBAL_STATUS_NOMEM (by decide) (by decide)
    · exact se_refl db
  · exact se_refl db

theorem seNO_mariadb_prepare (db : Db) (stmt : Stmt) (env : Env) :
    StatusEvolves NotOk db
      (sqldbal_mariadb_stmt_prepare db stmt env).1 := by
  unfold sqldbal_mariadb_stmt_prepare sqldbal_mariadb_error
  split
  · exact seNO_set db SQLDBAL_STATUS_NOMEM (by decide) (by decide)
  · split
    · exact seNO_err_set db SQLDBAL_STATUS_PREPARE env.strdupOk (by decide)
        (by decide)
    · split
      · exact seNO_err_set db SQLDBAL_STATUS_PREPARE env.strdupOk
          (by decide) (by decide)
      · split
        · exact seNO_set db SQLDBAL_STATUS_NOMEM (by decide) (by decide)
        · exact seNO_mariadb_get_num_cols db _ env

theorem seNO_pq_gen_stmt_name (db : Db) (pq_stmt : PqStmt) (env : Env) :
    StatusEvolves NotOk db (sqldbal_pq_gen_stmt_name db pq_stmt env).1 := by
  unfold sqldbal_pq_gen_stmt_name
  split
  · exact seNO_set db SQLDBAL_STATUS_NOMEM (by decide) (by decide)
  · split
    · exact seNO_set db SQLDBAL_STATUS_NOMEM (by decide) (by decide)
    · exact se_ghost rfl rfl

theorem seNO_pq_allocate_param_list (db : Db) (stmt : Stmt)
    (pq_stmt : PqStmt) (env : Env) :
    StatusEvolves NotOk db
      (sqldbal_pq_stmt_allocate_param_list db stmt pq_stmt env).1 := by
  unfold sqldbal_pq_stmt_allocate_param_list
  split
  · exact seNO_set db SQLDBAL_STATUS_PREPARE (by decide) (by decide)
  · dsimp only
    split
    · exact seNO_set db SQLDBAL_STATUS_OVERFLOW (by decide) (by decide)
    · split
      · exact seNO_set db SQLDBAL_STATUS_NOMEM (by decide) (by decide)
      · exact se_refl db

theorem seNO_pq_prepare (db : Db) (stmt : Stmt) (env : Env) :
    StatusEvolves NotOk db (sqldbal_pq_stmt_prepare db stmt env).1 := by
  unfold sqldbal_pq_stmt_prepare sqldbal_pq_error
  split
  · exact seNO_set db SQLDBAL_STATUS_NOMEM (by decide) (by decide)
  · dsimp only
    rcases h : sqldbal_pq_gen_stmt_name db
        { namePresent := false, paramValueList := [], paramLengthList := [],
          paramFormatList := [], columnValueListPresent := false,
          columnValueList := [], execResultPresent := false,
          execRowCount := 0, fetchRowIndex := 0 } env with ⟨db2, p2, st⟩
    have h1 := seNO_pq_gen_stmt_name db
      { namePresent := false, paramValueList := [], paramLengthList := [],
        paramFormatList := [], columnValueListPresent := false,
        columnValueList := [], execResultPresent := false,
        execRowCount := 0, fetchRowIndex := 0 } env
    rw [h] at h1
    split
    · split
      · exact se_trans h1 (seNO_err_set db2 SQLDBAL_STATUS_PREPARE
          env.strdupOk (by decide) (by decide))
      · split
        · exact se_trans h1 (se_trans
            (seNO_set db2 SQLDBAL_STATUS_PREPARE (by decide) (by decide))
            (se_errstr_set _ env.strdupOk (by decide)))
        · rcases h2 : sqldbal_pq_stmt_allocate_param_list db2
              { stmt with handle := StmtHandle.none } p2 env
            with ⟨db3, st3, p3, rc⟩
          have h3 := seNO_pq_allocate_param_list db2
            { stmt with handle := StmtHandle.none } p2 env
          rw [h2] at h3
          split
          · exact se_trans h1 h3
          · exact se_trans h1 h3
    · exact h1

theorem seNO_mariadb_allocate_bind_in_list (db : Db) (stmt : Stmt)
    (env : Env) :
    StatusEvolves NotOk db
      (sqldbal_mariadb_stmt_allocate_bind_in_list db stmt env).1 := by
  unfold sqldbal_mariadb_stmt_allocate_bind_in_list
  split
  · exact seNO_set db SQLDBAL_STATUS_NOMEM (by decide) (by decide)
  · dsimp only
    split
    · exact seNO_set db SQLDBAL_STATUS_NOMEM (by decide) (by decide)
    · exact se_refl db

theorem seNO_mariadb_execute (db : Db) (stmt : Stmt) (env : Env) :
    StatusEvolves NotOk db
      (sqldbal_mariadb_stmt_execute db stmt env).1 := by
  unfold sqldbal_mariadb_stmt_execute sqldbal_mariadb_error
  split
  · exact seNO_err_set db SQLDBAL_STATUS_EXEC env.strdupOk (by decide)
      (by decide)
  · split
    · split
      · rcases h : sqldbal_mariadb_stmt_allocate_bind_in_list db stmt env
          with ⟨db2, st2, rc⟩
        have h1 := seNO_mariadb_allocate_bind_in_list db stmt env
        rw [h] at h1
        dsimp only
        split
        · split
          · exact se_trans h1 (seNO_err_set db2 SQLDBAL_STATUS_EXEC
              env.strdupOk (by decide) (by decide))
          · exact h1
        · exact h1
      · exact seNO_err_set db SQLDBAL_STATUS_NOMEM env.strdupOk (by decide)
          (by decide)
    · exact se_refl db

theorem seNO_pq_execute (db : Db) (stmt : Stmt) (env : Env) :
    StatusEvolves NotOk db (sqldbal_pq_stmt_execute db stmt env).1 := by
  unfold sqldbal_pq_stmt_execute
  split
  · exact se_trans
      (seNO_set db SQLDBAL_STATUS_EXEC (by decide) (by decide))
      (se_errstr_set _ env.strdupOk (by decide))
  · dsimp only
    split
    · exact seNO_set db SQLDBAL_STATUS_NOMEM (by decide) (by decide)
    · split
      · split
        · exact seNO_set db SQLDBAL_STATUS_NOMEM (by decide) (by decide)
        · exact se_refl db
      · exact se_refl db

theorem seNO_sqlite_execute_loop (env : Env) (j : Nat) (db : Db) :
    StatusEvolves NotOk db
      (sqldbal_sqlite_stmt_execute_loop db env j) := by
  rw [sqldbal_sqlite_stmt_execute_loop]
  cases hstep : env.sqliteStep j <;> dsimp only
  case done | row =>
    split
    · exact seNO_sqlite_error db SQLDBAL_STATUS_EXEC env (by decide)
        (by decide)
    · exact se_refl db
  case busy =>
    split
    · exact se_trans (se_ghost rfl rfl)
        (seNO_sqlite_execute_loop env (j + 1) (sqldbal_sqlite_busy_sleep db))
    · exact seNO_sqlite_error db SQLDBAL_STATUS_EXEC env (by decide)
        (by decide)
  case error =>
    exact seNO_sqlite_error db SQLDBAL_STATUS_EXEC env (by decide)
      (by decide)
termination_by SQLDBAL_SQLITE_MAX_NUM_RETRIES + 1 - j
decreasing_by simp only [SQLDBAL_SQLITE_MAX_NUM_RETRIES] at *; omega

theorem seNO_sqlite_execute (db : Db) (stmt : Stmt) (env : Env) :
    StatusEvolves NotOk db
      (sqldbal_sqlite_stmt_execute db stmt env).1 := by
  unfold sqldbal_sqlite_stmt_execute
  exact seNO_sqlite_execute_loop env 0 db

theorem seNO_sqlite_fetch_loop (env : Env) (j : Nat) (db : Db) :
    StatusEvolves NotOk db
      (sqldbal_sqlite_stmt_fetch_loop db env j).1 := by
  rw [sqldbal_sqlite_stmt_fetch_loop]
  cases hstep : env.sqliteStep j <;> dsimp only
  case done | row => exact se_refl db
  case busy =>
    split
    · exact se_trans (se_ghost rfl rfl)
        (seNO_sqlite_fetch_loop env (j + 1) (sqldbal_sqlite_busy_sleep db))
    · exact seNO_sqlite_error db SQLDBAL_STATUS_FETCH env (by decide)
        (by decide)
  case error =>
    exact seNO_sqlite_error db SQLDBAL_STATUS_FETCH env (by decide)
      (by decide)
termination_by SQLDBAL_SQLITE_MAX_NUM_RETRIES + 1 - j
decreasing_by simp only [SQLDBAL_SQLITE_MAX_NUM_RETRIES] at *; omega

theorem seNO_sqlite_fetch (db : Db) (stmt : Stmt) (env : Env) :
    StatusEvolves NotOk db (sqldbal_sqlite_stmt_fetch db stmt env).1 := by
  unfold sqldbal_sqlite_stmt_fetch
  rcases h : sqldbal_sqlite_stmt_fetch_loop db env 0 with ⟨db2, r⟩
  have h1 := seNO_sqlite_fetch_loop env 0 db
  rw [h] at h1
  exact h1

theorem seNO_mariadb_fetch (db : Db) (stmt : Stmt) (env : Env) :
    StatusEvolves NotOk db (sqldbal_mariadb_stmt_fetch db stmt env).1 := by
  unfold sqldbal_mariadb_stmt_fetch sqldbal_mariadb_error
  cases env.mysqlStmtFetchRc <;> dsimp only
  case row | nodata => exact se_refl db
  case error =>
    exact seNO_err_set db SQLDBAL_STATUS_FETCH env.strdupOk (by decide)
      (by decide)

theorem ghost_fold_free (l : List (Option Nat)) (db : Db) :
    StatusEvolves NotOk db
      (l.foldl
        (fun db s =>
          match s with
          | Option.some b => freeBuf db b
          | Option.none => db) db) := by
  refine se_foldl _ ?_ l db
  intro d s
  cases s with
  | none => exact se_refl d
  | some b => exact se_ghost rfl rfl

theorem seNO_pq_free_column_values (db : Db) (stmt : Stmt) :
    StatusEvolves NotOk db
      (sqldbal_pq_stmt_free_column_values db stmt).1 := by
  unfold sqldbal_pq_stmt_free_column_values
  dsimp only
  split
  · exact ghost_fold_free (pqStmtOf stmt).columnValueList db
  · exact se_refl db

theorem seNO_pq_fetch (db : Db) (stmt : Stmt) (env : Env) :
    StatusEvolves NotOk db (sqldbal_pq_stmt_fetch db stmt env).1 := by
  unfold sqldbal_pq_stmt_fetch
  rcases h : sqldbal_pq_stmt_free_column_values db stmt with ⟨db2, st2⟩
  have h1 := seNO_pq_free_column_values db stmt
  rw [h] at h1
  dsimp only
  split
  · exact h1
  · exact h1

theorem seNO_mariadb_stmt_close (db : Db) (stmt : Stmt) (env : Env) :
    StatusEvolves NotOk db (sqldbal_mariadb_stmt_close db stmt env) := by
  unfold sqldbal_mariadb_stmt_close
  split
  · refine se_foldl _ ?_ (List.range stmt.num_params) db
    intro d i
    exact seNO_mariadb_free_buf d _
  · exact se_refl db

theorem seNO_exec_facade (db : Db) (cb : Bool) (env : Env) :
    StatusEvolves NotOk db (sqldbal_exec db cb env).1 ∧
    (sqldbal_exec db cb env).2 = (sqldbal_exec db cb env).1.status := by
  unfold sqldbal_exec
  dsimp only [sqldbal_status_code_get]
  generalize hdb2 : { db with adapterCalls := db.adapterCalls + 1 } = db2
  have hg : StatusEvolves NotOk db db2 := by
    rw [← hdb2]
    exact se_ghost rfl rfl
  cases hd : db.driver <;> (try dsimp only)
  case mariadb | mysql =>
    exact ⟨se_trans hg (seNO_mariadb_exec db2 cb env), rfl⟩
  case postgresql =>
    exact ⟨se_trans hg (seNO_pq_exec db2 cb env), rfl⟩
  case sqlite =>
    exact ⟨se_trans hg (seNO_sqlite_exec db2 cb env), rfl⟩
  case invalid =>
    exact ⟨hg, rfl⟩

theorem seNO_pq_stmt_close (db : Db) (stmt : Stmt) (env : Env) :
    StatusEvolves NotOk db (sqldbal_pq_stmt_close db stmt env) := by
  unfold sqldbal_pq_stmt_close
  split
  · rename_i hs hp heq
    rcases h : sqldbal_exec db false env with ⟨db2, st⟩
    have h1 := (seNO_exec_facade db false env).1
    rw [h] at h1
    dsimp only
    refine se_trans h1 ?_
    refine se_trans (ghost_fold_free hp.paramValueList db2) ?_
    split
    · exact ghost_fold_free hp.columnValueList _
    · exact se_refl _
  · exact se_refl db

theorem seNO_sqlite_stmt_close (db : Db) (stmt : Stmt) (env : Env) :
    StatusEvolves NotOk db (sqldbal_sqlite_stmt_close db stmt env) := by
  unfold sqldbal_sqlite_stmt_close
  split
  · exact seNO_sqlite_error db SQLDBAL_STATUS_CLOSE env (by decide)
      (by decide)
  · exact se_refl db


theorem seNO_set2 (a : Db) (v : Nat) (hv : v ≠ SQLDBAL_STATUS_OK) :
    StatusEvolves NotOk a (sqldbal_status_code_set a v).1 :=
  se_set a v hv (fun _ => by decide)

theorem seNO_sqlite_open_options :
    ∀ (l : List (String × String)) (db : Db),
      StatusEvolves NotOk db (sqldbal_sqlite_open_options db l) := by
  intro l
  induction l with
  | nil => exact fun db => se_refl db
  | cons a rest ih =>
      intro db
      obtain ⟨k, v⟩ := a
      simp only [sqldbal_sqlite_open_options]
      split
      · exact ih db
      · exact se_trans (seNO_set2 db SQLDBAL_STATUS_PARAM (by decide))
          (ih _)

theorem seNO_sqlite_open (db : Db) (l : List (String × String))
    (env : Env) :
    StatusEvolves NotOk db (sqldbal_sqlite_open db l env) := by
  unfold sqldbal_sqlite_open
  have h1 := seNO_sqlite_open_options l db
  generalize hg : sqldbal_sqlite_open_options db l = db1
  rw [hg] at h1
  refine se_trans h1 ?_
  dsimp only
  by_cases hok : sqldbal_status_code_get db1 = SQLDBAL_STATUS_OK
  · rw [if_pos hok]
    split
    · refine se_trans (se_ghost rfl rfl
        (b := { db1 with connectCalls := db1.connectCalls + 1 })) ?_
      refine se_trans (seNO_sqlite_error
        { db1 with connectCalls := db1.connectCalls + 1 }
        SQLDBAL_STATUS_OPEN env (by decide) (by decide)) ?_
      exact se_ghost rfl rfl
    · split
      · refine se_trans (se_ghost rfl rfl
          (b := { db1 with connectCalls := db1.connectCalls + 1 })) ?_
        refine se_trans (seNO_sqlite_error
          { db1 with connectCalls := db1.connectCalls + 1 }
          SQLDBAL_STATUS_OPEN env (by decide) (by decide)) ?_
        exact se_ghost rfl rfl
      · refine se_trans (se_ghost rfl rfl
          (b := { db1 with connectCalls := db1.connectCalls + 1 })) ?_
        exact se_ghost rfl rfl
  · rw [if_neg hok]
    exact se_refl db1

theorem seNO_mysql_options (db : Db) (o a : String) (env : Env) :
    StatusEvolves NotOk db (sqldbal_mariadb_mysql_options db o a env) := by
  unfold sqldbal_mariadb_mysql_options
  split
  · exact seNO_set2 db SQLDBAL_STATUS_PARAM (by decide)
  · split
    · exact se_ghost rfl rfl
    · exact se_refl db

theorem seNO_mariadb_options_one (env : Env) (k v : String) (db : Db) :
    StatusEvolves NotOk db
      (sqldbal_mariadb_set_options_loop env db [(k, v)]) := by
  simp only [sqldbal_mariadb_set_options_loop]
  split
  · rcases hst : sqldbal_strtoui db (Option.some v)
        SQLDBAL_MARIADB_MAX_CONNECT_TIMEOUT with ⟨db1, st, t⟩
    have h1 := se_strtoui (P := NotOk) db (Option.some v)
      SQLDBAL_MARIADB_MAX_CONNECT_TIMEOUT (by decide)
    rw [hst] at h1
    dsimp only
    split
    · exact se_trans h1 (seNO_mysql_options db1 "MYSQL_OPT_CONNECT_TIMEOUT"
        (toString t) env)
    · exact h1
  · split
    · exact seNO_mysql_options db "MYSQL_OPT_SSL_KEY" v env
    · split
      · exact seNO_mysql_options db "MYSQL_OPT_SSL_CERT" v env
      · split
        · exact seNO_mysql_options db "MYSQL_OPT_SSL_CA" v env
        · split
          · exact seNO_mysql_options db "MYSQL_OPT_SSL_CAPATH" v env
          · split
            · exact seNO_mysql_options db "MYSQL_OPT_SSL_CIPHER" v env
            · exact seNO_set2 db SQLDBAL_STATUS_PARAM (by decide)

theorem seNO_mariadb_options_loop (env : Env) :
    ∀ (l : List (String × String)) (db : Db),
      StatusEvolves NotOk db
        (sqldbal_mariadb_set_options_loop env db l) := by
  intro l
  induction l with
  | nil => exact fun db => se_refl db
  | cons a rest ih =>
      intro db
      obtain ⟨k, v⟩ := a
      have hsplit := mariadb_options_loop_append env [(k, v)] rest db
      simp only [List.cons_append, List.nil_append] at hsplit
      rw [hsplit]
      exact se_trans (seNO_mariadb_options_one env k v db) (ih _)

theorem seNO_mariadb_open (db : Db) (port : Option String)
    (l : List (String × String)) (env : Env) :
    StatusEvolves NotOk db (sqldbal_mariadb_open db port l env) := by
  unfold sqldbal_mariadb_open
  rcases hst : sqldbal_strtoui db port SQLDBAL_MAX_PORT_NUMBER
    with ⟨db1, st, p⟩
  have h1 := se_strtoui (P := NotOk) db port SQLDBAL_MAX_PORT_NUMBER
    (by decide)
  rw [hst] at h1
  dsimp only
  split
  · exact se_trans h1 (seNO_set2 db1 SQLDBAL_STATUS_PARAM (by decide))
  · split
    · exact se_trans h1 (seNO_set2 db1 SQLDBAL_STATUS_NOMEM (by decide))
    · refine se_trans h1 (se_trans (se_ghost rfl rfl) ?_)
      simp only [sqldbal_mariadb_set_options]
      have h2 := seNO_mariadb_options_loop env l
        { db1 with handle := DbHandle.mariadb { appliedOptions := [] } }
      generalize hl : sqldbal_mariadb_set_options_loop env
        { db1 with handle := DbHandle.mariadb { appliedOptions := [] } } l
        = db2
      rw [hl] at h2
      refine se_trans h2 ?_
      split
      · (try dsimp only)
        split
        · exact se_trans (se_ghost rfl rfl)
            (seNO_err_set _ SQLDBAL_STATUS_OPEN env.strdupOk (by decide)
              (by decide))
        · exact se_ghost rfl rfl
      · exact se_refl db2


theorem seNO_pq_apply_options :
    ∀ (l : List (String × String)) (db : Db)
      (pl : List (String × Option String)),
      StatusEvolves NotOk db (pqConninfoApplyOptions db pl l).1 := by
  intro l
  induction l with
  | nil => exact fun db pl => se_refl db
  | cons a rest ih =>
      intro db pl
      obtain ⟨k, v⟩ := a
      simp only [pqConninfoApplyOptions]
      split
      · exact ih db _
      · split
        · exact ih db _
        · split
          · exact ih db _
          · split
            · exact ih db _
            · split
              · exact ih db _
              · exact se_trans
                  (seNO_set2 db SQLDBAL_STATUS_PARAM (by decide)) (ih _ _)

theorem seNO_pq_size_loop :
    ∀ (l : List (String × Option String)) (db : Db) (sz : Nat),
      StatusEvolves NotOk db (pqConninfoSizeLoop db sz l).1 := by
  intro l
  induction l with
  | nil => exact fun db sz => se_refl db
  | cons a rest ih =>
      intro db sz
      obtain ⟨k, v⟩ := a
      simp only [pqConninfoSizeLoop]
      split
      · exact se_trans (seNO_set2 db SQLDBAL_STATUS_NOMEM (by decide))
          (ih _ _)
      · split
        · exact se_trans (seNO_set2 db SQLDBAL_STATUS_NOMEM (by decide))
            (ih _ _)
        · exact ih db _

theorem seNO_pq_conninfo (db : Db)
    (location port username password database : Option String)
    (l : List (String × String)) (env : Env) :
    StatusEvolves NotOk db
      (sqldbal_pq_conninfo db location port username password database
        l env).1 := by
  unfold sqldbal_pq_conninfo
  rcases h1 : pqConninfoApplyOptions db
      (pqConninfoParams location port username password database) l
    with ⟨db1, pl1⟩
  have g1 := seNO_pq_apply_options l db
    (pqConninfoParams location port username password database)
  rw [h1] at g1
  (try dsimp only)
  (try rw [h1])
  rcases h2 : pqConninfoSizeLoop db1 0 pl1 with ⟨db2, sz2⟩
  have g2 := seNO_pq_size_loop pl1 db1 0
  rw [h2] at g2
  (try dsimp only)
  (try rw [h2])
  have g12 := se_trans g1 g2
  split
  · have g3 := se_trans g12
      (seNO_set2 db2 SQLDBAL_STATUS_NOMEM (by decide))
    split
    · exact g3
    · split
      · exact se_trans g3
          (seNO_set2 _ SQLDBAL_STATUS_NOMEM (by decide))
      · exact g3
  · split
    · exact g12
    · split
      · exact se_trans g12
          (seNO_set2 db2 SQLDBAL_STATUS_NOMEM (by decide))
      · exact g12

theorem seNO_pq_oid_rows :
    ∀ (l : List (String × String)) (db : Db) (acc : List PqOidTypname),
      StatusEvolves NotOk db
        (sqldbal_pq_query_oid_list_rows db acc l).1 := by
  intro l
  induction l with
  | nil => exact fun db acc => se_refl db
  | cons a rest ih =>
      intro db acc
      obtain ⟨o, t⟩ := a
      simp only [sqldbal_pq_query_oid_list_rows]
      rcases h : sqldbal_strtoui db (Option.some o) OID_MAX
        with ⟨db1, st, oid⟩
      have g1 := se_strtoui (P := NotOk) db (Option.some o) OID_MAX
        (by decide)
      rw [h] at g1
      dsimp only
      split
      · exact g1
      · exact se_trans g1 (ih db1 _)

theorem seNO_pq_query_oid_list (db : Db) (env : Env) :
    StatusEvolves NotOk db (sqldbal_pq_query_oid_list db env).1 := by
  unfold sqldbal_pq_query_oid_list
  split
  · exact se_refl db
  · split
    · exact se_refl db
    · exact seNO_pq_oid_rows env.pqOidRows db []

theorem pq_oid_rows_status :
    ∀ (l : List (String × String)) (db : Db) (acc : List PqOidTypname),
      (sqldbal_pq_query_oid_list_rows db acc l).2.1 = SQLDBAL_STATUS_OK ∨
      (sqldbal_pq_query_oid_list_rows db acc l).2.1 =
        SQLDBAL_STATUS_COLUMN_COERCE := by
  intro l
  induction l with
  | nil => exact fun db acc => Or.inl rfl
  | cons a rest ih =>
      intro db acc
      obtain ⟨o, t⟩ := a
      simp only [sqldbal_pq_query_oid_list_rows]
      rcases h : sqldbal_strtoui db (Option.some o) OID_MAX
        with ⟨db1, st, oid⟩
      dsimp only
      split
      · exact Or.inr rfl
      · exact ih db1 _

theorem seNO_pq_open (db : Db)
    (location port username password database : Option String)
    (l : List (String × String)) (env : Env) :
    StatusEvolves NotOk db
      (sqldbal_pq_open db location port username password database
        l env) := by
  unfold sqldbal_pq_open
  split
  · exact seNO_set2 db SQLDBAL_STATUS_NOMEM (by decide)
  · rcases h1 : sqldbal_pq_conninfo { db with handle := DbHandle.none }
        location port username password database l env with ⟨db1, has⟩
    have g1 := seNO_pq_conninfo { db with handle := DbHandle.none }
      location port username password database l env
    rw [h1] at g1
    have g0 : StatusEvolves NotOk db db1 :=
      se_trans (se_ghost rfl rfl) g1
    (try dsimp only)
    (try rw [h1])
    split
    · exact g0
    · refine se_trans g0 (se_trans (se_ghost rfl rfl
        (b := { db1 with connectCalls := db1.connectCalls + 1 })) ?_)
      split
      · exact seNO_set2 _ SQLDBAL_STATUS_OPEN (by decide)
      · split
        · exact seNO_set2 _ SQLDBAL_STATUS_OPEN (by decide)
        · rcases h2 : sqldbal_pq_query_oid_list
              { db1 with connectCalls := db1.connectCalls + 1 } env
            with ⟨db2, sc, ol⟩
          have g2 := seNO_pq_query_oid_list
            { db1 with connectCalls := db1.connectCalls + 1 } env
          rw [h2] at g2
          (try dsimp only)
          (try rw [h2])
          split
          · rename_i hne
            exact se_trans g2 (seNO_set2 db2 sc hne)
          · exact se_trans g2 (se_ghost rfl rfl)



theorem seNO_facade_bind_blob (db : Db) (stmt : Stmt) (i : Nat) (n : Nat) (env : Env) :
    StatusEvolves NotOk db (sqldbal_stmt_bind_blob db stmt i n env).1 ∧
    (sqldbal_stmt_bind_blob db stmt i n env).2.2 =
      (sqldbal_stmt_bind_blob db stmt i n env).1.status := by
  unfold sqldbal_stmt_bind_blob sqldbal_stmt_bind_in_range
  dsimp only [sqldbal_status_code_get]
  by_cases hge : stmt.num_params ≤ i
  · rw [if_pos hge]
    dsimp only
    simp only [Bool.false_eq_true, if_false]
    exact ⟨seNO_set2 db SQLDBAL_STATUS_PARAM (by decide), trivial⟩
  · rw [if_neg hge]
    dsimp only
    rw [if_pos rfl]
    generalize hdb2 : { db with adapterCalls := db.adapterCalls + 1 } = db2
    have hg : StatusEvolves NotOk db db2 := by
      rw [← hdb2]
      exact se_ghost rfl rfl
    cases hd : db.driver <;> (try dsimp only)
    · rcases ha : sqldbal_mariadb_stmt_bind_blob db2 stmt i n env with ⟨db3, st3⟩
      have h2 := seNO_mariadb_bind_blob db2 stmt i n env
      rw [ha] at h2
      exact ⟨se_trans hg h2, rfl⟩
    · rcases ha : sqldbal_mariadb_stmt_bind_blob db2 stmt i n env with ⟨db3, st3⟩
      have h2 := seNO_mariadb_bind_blob db2 stmt i n env
      rw [ha] at h2
      exact ⟨se_trans hg h2, rfl⟩
    · rcases ha : sqldbal_pq_stmt_bind_blob db2 stmt i n env with ⟨db3, st3⟩
      have h2 := seNO_pq_bind_blob db2 stmt i n env
      rw [ha] at h2
      exact ⟨se_trans hg h2, rfl⟩
    · rcases ha : sqldbal_sqlite_stmt_bind_blob db2 stmt i n env with ⟨db3, st3⟩
      have h2 := seNO_sqlite_bind_blob db2 stmt i n env
      rw [ha] at h2
      exact ⟨se_trans hg h2, rfl⟩
    · exact ⟨hg, rfl⟩

theorem seNO_facade_bind_int64 (db : Db) (stmt : Stmt) (i : Nat) (i64 : Int) (env : Env) :
    StatusEvolves NotOk db (sqldbal_stmt_bind_int64 db stmt i i64 env).1 ∧
    (sqldbal_stmt_bind_int64 db stmt i i64 env).2.2 =
      (sqldbal_stmt_bind_int64 db stmt i i64 env).1.status := by
  unfold sqldbal_stmt_bind_int64 sqldbal_stmt_bind_in_range
  dsimp only [sqldbal_status_code_get]
  by_cases hge : stmt.num_params ≤ i
  · rw [if_pos hge]
    dsimp only
    simp only [Bool.false_eq_true, if_false]
    exact ⟨seNO_set2 db SQLDBAL_STATUS_PARAM (by decide), trivial⟩
  · rw [if_neg hge]
    dsimp only
    rw [if_pos rfl]
    generalize hdb2 : { db with adapterCalls := db.adapterCalls + 1 } = db2
    have hg : StatusEvolves NotOk db db2 := by
      rw [← hdb2]
      exact se_ghost rfl rfl
    cases hd : db.driver <;> (try dsimp only)
    · rcases ha : sqldbal_mariadb_stmt_bind_int64 db2 stmt i i64 env with ⟨db3, st3⟩
      have h2 := seNO_mariadb_bind_int64 db2 stmt i i64 env
      rw [ha] at h2
      exact ⟨se_trans hg h2, rfl⟩
    · rcases ha : sqldbal_mariadb_stmt_bind_int64 db2 stmt i i64 env with ⟨db3, st3⟩
      have h2 := seNO_mariadb_bind_int64 db2 stmt i i64 env
      rw [ha] at h2
      exact ⟨se_trans hg h2, rfl⟩
    · rcases ha : sqldbal_pq_stmt_bind_int64 db2 stmt i i64 env with ⟨db3, st3⟩
      have h2 := seNO_pq_bind_int64 db2 stmt i i64 env
      rw [ha] at h2
      exact ⟨se_trans hg h2, rfl⟩
    · rcases ha : sqldbal_sqlite_stmt_bind_int64 db2 stmt i env with ⟨db3, st3⟩
      have h2 := seNO_sqlite_bind_int64 db2 stmt i env
      rw [ha] at h2
      exact ⟨se_trans hg h2, rfl⟩
    · exact ⟨hg, rfl⟩

theorem seNO_facade_bind_null (db : Db) (stmt : Stmt) (i : Nat) (env : Env) :
    StatusEvolves NotOk db (sqldbal_stmt_bind_null db stmt i env).1 ∧
    (sqldbal_stmt_bind_null db stmt i env).2.2 =
      (sqldbal_stmt_bind_null db stmt i env).1.status := by
  unfold sqldbal_stmt_bind_null sqldbal_stmt_bind_in_range
  dsimp only [sqldbal_status_code_get]
  by_cases hge : stmt.num_params ≤ i
  · rw [if_pos hge]
    dsimp only
    simp only [Bool.false_eq_true, if_false]
    exact ⟨seNO_set2 db SQLDBAL_STATUS_PARAM (by decide), trivial⟩
  · rw [if_neg hge]
    dsimp only
    rw [if_pos rfl]
    generalize hdb2 : { db with adapterCalls := db.adapterCalls + 1 } = db2
    have hg : StatusEvolves NotOk db db2 := by
      rw [← hdb2]
      exact se_ghost rfl rfl
    cases hd : db.driver <;> (try dsimp only)
    · rcases ha : sqldbal_mariadb_stmt_bind_null db2 stmt i env with ⟨db3, st3⟩
      have h2 := seNO_mariadb_bind_null db2 stmt i env
      rw [ha] at h2
      exact ⟨se_trans hg h2, rfl⟩
    · rcases ha : sqldbal_mariadb_stmt_bind_null db2 stmt i env with ⟨db3, st3⟩
      have h2 := seNO_mariadb_bind_null db2 stmt i env
      rw [ha] at h2
      exact ⟨se_trans hg h2, rfl⟩
    · rcases ha : sqldbal_pq_stmt_bind_null db2 stmt i env with ⟨db3, st3⟩
      have h2 := seNO_pq_bind_null db2 stmt i env
      rw [ha] at h2
      exact ⟨se_trans hg h2, rfl⟩
    · rcases ha : sqldbal_sqlite_stmt_bind_null db2 stmt i env with ⟨db3, st3⟩
      have h2 := seNO_sqlite_bind_null db2 stmt i env
      rw [ha] at h2
      exact ⟨se_trans hg h2, rfl⟩
    · exact ⟨hg, rfl⟩

theorem seNO_facade_bind_text (db : Db) (stmt : Stmt) (i : Nat)
    (s : String) (slen : Nat) (env : Env) :
    StatusEvolves NotOk db (sqldbal_stmt_bind_text db stmt i s slen env).1 ∧
    (sqldbal_stmt_bind_text db stmt i s slen env).2.2 =
      (sqldbal_stmt_bind_text db stmt i s slen env).1.status := by
  unfold sqldbal_stmt_bind_text sqldbal_stmt_bind_in_range
  dsimp only [sqldbal_status_code_get]
  by_cases hge : stmt.num_params ≤ i
  · rw [if_pos hge]
    dsimp only
    simp only [Bool.false_eq_true, if_false]
    exact ⟨seNO_set2 db SQLDBAL_STATUS_PARAM (by decide), trivial⟩
  · rw [if_neg hge]
    dsimp only
    rw [if_pos rfl]
    generalize hm : (if slen = SIZE_MAX then s.length else slen) = m
    dsimp only [si_add_size_t]
    split
    · exact ⟨seNO_set2 db SQLDBAL_STATUS_NOMEM (by decide), rfl⟩
    · generalize hdb2 : { db with adapterCalls := db.adapterCalls + 1 } = db2
      have hg : StatusEvolves NotOk db db2 := by
        rw [← hdb2]
        exact se_ghost rfl rfl
      cases hd : db.driver <;> (try dsimp only)
      · rcases ha : sqldbal_mariadb_stmt_bind_text db2 stmt i
            ((m + 1) % 2 ^ 64) env with ⟨db3, st3⟩
        have h2 := seNO_mariadb_bind_text db2 stmt i ((m + 1) % 2 ^ 64) env
        rw [ha] at h2
        exact ⟨se_trans hg h2, rfl⟩
      · rcases ha : sqldbal_mariadb_stmt_bind_text db2 stmt i
            ((m + 1) % 2 ^ 64) env with ⟨db3, st3⟩
        have h2 := seNO_mariadb_bind_text db2 stmt i ((m + 1) % 2 ^ 64) env
        rw [ha] at h2
        exact ⟨se_trans hg h2, rfl⟩
      · rcases ha : sqldbal_pq_stmt_bind_text db2 stmt i
            ((m + 1) % 2 ^ 64) env with ⟨db3, st3⟩
        have h2 := seNO_pq_bind_text db2 stmt i ((m + 1) % 2 ^ 64) env
        rw [ha] at h2
        exact ⟨se_trans hg h2, rfl⟩
      · rcases ha : sqldbal_sqlite_stmt_bind_text db2 stmt i
            ((m + 1) % 2 ^ 64) env with ⟨db3, st3⟩
        have h2 := seNO_sqlite_bind_text db2 stmt i ((m + 1) % 2 ^ 64) env
        rw [ha] at h2
        exact ⟨se_trans hg h2, rfl⟩
      · exact ⟨hg, rfl⟩

theorem seNO_facade_column_blob (db : Db) (stmt : Stmt) (i : Nat) (env : Env) :
    StatusEvolves NotOk db (sqldbal_stmt_column_blob db stmt i env).1 ∧
    (sqldbal_stmt_column_blob db stmt i env).2.2 =
      (sqldbal_stmt_column_blob db stmt i env).1.status := by
  unfold sqldbal_stmt_column_blob sqldbal_stmt_column_in_range
  dsimp only [sqldbal_status_code_get]
  by_cases hge : stmt.num_cols_result ≤ i
  · rw [if_pos hge]
    dsimp only
    simp only [Bool.false_eq_true, if_false]
    exact ⟨seNO_set2 db SQLDBAL_STATUS_PARAM (by decide), trivial⟩
  · rw [if_neg hge]
    dsimp only
    rw [if_pos rfl]
    generalize hdb2 : { db with adapterCalls := db.adapterCalls + 1 } = db2
    have hg : StatusEvolves NotOk db db2 := by
      rw [← hdb2]
      exact se_ghost rfl rfl
    cases hd : db.driver <;> (try dsimp only)
    · exact ⟨se_trans hg (seNO_mariadb_column_blob db2 stmt i), rfl⟩
    · exact ⟨se_trans hg (seNO_mariadb_column_blob db2 stmt i), rfl⟩
    · rcases ha : sqldbal_pq_stmt_column_blob db2 stmt i env with ⟨db3, st3, tp, sz⟩
      have h2 := seNO_pq_column_blob db2 stmt i env
      rw [ha] at h2
      exact ⟨se_trans hg h2, rfl⟩
    · exact ⟨se_trans hg (seNO_sqlite_column_blob db2 stmt i env), rfl⟩
    · exact ⟨hg, rfl⟩

theorem seNO_facade_column_int64 (db : Db) (stmt : Stmt) (i : Nat) (env : Env) :
    StatusEvolves NotOk db (sqldbal_stmt_column_int64 db stmt i env).1 ∧
    (sqldbal_stmt_column_int64 db stmt i env).2.2 =
      (sqldbal_stmt_column_int64 db stmt i env).1.status := by
  unfold sqldbal_stmt_column_int64 sqldbal_stmt_column_in_range
  dsimp only [sqldbal_status_code_get]
  by_cases hge : stmt.num_cols_result ≤ i
  · rw [if_pos hge]
    dsimp only
    simp only [Bool.false_eq_true, if_false]
    exact ⟨seNO_set2 db SQLDBAL_STATUS_PARAM (by decide), trivial⟩
  · rw [if_neg hge]
    dsimp only
    rw [if_pos rfl]
    generalize hdb2 : { db with adapterCalls := db.adapterCalls + 1 } = db2
    have hg : StatusEvolves NotOk db db2 := by
      rw [← hdb2]
      exact se_ghost rfl rfl
    cases hd : db.driver <;> (try dsimp only)
    · exact ⟨se_trans hg (seNO_mariadb_column_int64 db2 stmt i), rfl⟩
    · exact ⟨se_trans hg (seNO_mariadb_column_int64 db2 stmt i), rfl⟩
    · rcases ha : sqldbal_pq_stmt_column_int64 db2 stmt i env with ⟨db3, st3, v3⟩
      have h2 := seNO_pq_column_int64 db2 stmt i env
      rw [ha] at h2
      exact ⟨se_trans hg h2, rfl⟩
    · exact ⟨se_trans hg (seNO_sqlite_column_int64 db2 stmt i env), rfl⟩
    · exact ⟨hg, rfl⟩

theorem seNO_facade_column_text (db : Db) (stmt : Stmt) (i : Nat) (env : Env) :
    StatusEvolves NotOk db (sqldbal_stmt_column_text db stmt i env).1 ∧
    (sqldbal_stmt_column_text db stmt i env).2.2 =
      (sqldbal_stmt_column_text db stmt i env).1.status := by
  unfold sqldbal_stmt_column_text sqldbal_stmt_column_in_range
  dsimp only [sqldbal_status_code_get]
  by_cases hge : stmt.num_cols_result ≤ i
  · rw [if_pos hge]
    dsimp only
    simp only [Bool.false_eq_true, if_false]
    exact ⟨seNO_set2 db SQLDBAL_STATUS_PARAM (by decide), trivial⟩
  · rw [if_neg hge]
    dsimp only
    rw [if_pos rfl]
    generalize hdb2 : { db with adapterCalls := db.adapterCalls + 1 } = db2
    have hg : StatusEvolves NotOk db db2 := by
      rw [← hdb2]
      exact se_ghost rfl rfl
    cases hd : db.driver <;> (try dsimp only)
    · exact ⟨se_trans hg (seNO_mariadb_column_text db2 stmt i), rfl⟩
    · exact ⟨se_trans hg (seNO_mariadb_column_text db2 stmt i), rfl⟩
    · rcases ha : sqldbal_pq_stmt_column_text db2 stmt i env with ⟨db3, st3, tp, sz⟩
      have h2 := seNO_pq_column_text db2 stmt i env
      rw [ha] at h2
      exact ⟨se_trans hg h2, rfl⟩
    · exact ⟨se_trans hg (seNO_sqlite_column_text db2 stmt i env), rfl⟩
    · exact ⟨hg, rfl⟩

theorem seNO_facade_column_type (db : Db) (stmt : Stmt) (i : Nat)
    (env : Env) :
    StatusEvolves NotOk db (sqldbal_stmt_column_type db stmt i env).1 := by
  unfold sqldbal_stmt_column_type sqldbal_stmt_column_in_range
  by_cases hge : stmt.num_cols_result ≤ i
  · rw [if_pos hge]
    dsimp only
    simp only [Bool.false_eq_true, if_false]
    exact seNO_set2 db SQLDBAL_STATUS_PARAM (by decide)
  · rw [if_neg hge]
    dsimp only
    rw [if_pos rfl]
    generalize hdb2 : { db with adapterCalls := db.adapterCalls + 1 } = db2
    have hg : StatusEvolves NotOk db db2 := by
      rw [← hdb2]
      exact se_ghost rfl rfl
    cases hd : db.driver <;> (try dsimp only)
    · exact se_trans hg (seNO_mariadb_column_type db2 stmt i)
    · exact se_trans hg (seNO_mariadb_column_type db2 stmt i)
    · exact se_trans hg (seNO_pq_column_type db2 stmt i env)
    · exact se_trans hg (seNO_sqlite_column_type db2 stmt i env)
    · exact hg


theorem seNO_facade_begin (db : Db) (env : Env) :
    StatusEvolves NotOk db (sqldbal_begin_transaction db env).1 ∧
    (sqldbal_begin_transaction db env).2 = (sqldbal_begin_transaction db env).1.status := by
  unfold sqldbal_begin_transaction
  dsimp only [sqldbal_status_code_get]
  generalize hdb2 : { db with adapterCalls := db.adapterCalls + 1 } = db2
  have hg : StatusEvolves NotOk db db2 := by
    rw [← hdb2]
    exact se_ghost rfl rfl
  cases hd : db.driver <;> (try dsimp only)
  · exact ⟨se_trans hg (seNO_mariadb_begin db2 env), rfl⟩
  · exact ⟨se_trans hg (seNO_mariadb_begin db2 env), rfl⟩
  · exact ⟨se_trans hg (seNO_pq_begin db2 env), rfl⟩
  · exact ⟨se_trans hg (seNO_sqlite_begin db2 env), rfl⟩
  · exact ⟨hg, rfl⟩

theorem seNO_facade_commit (db : Db) (env : Env) :
    StatusEvolves NotOk db (sqldbal_commit db env).1 ∧
    (sqldbal_commit db env).2 = (sqldbal_commit db env).1.status := by
  unfold sqldbal_commit
  dsimp only [sqldbal_status_code_get]
  generalize hdb2 : { db with adapterCalls := db.adapterCalls + 1 } = db2
  have hg : StatusEvolves NotOk db db2 := by
    rw [← hdb2]
    exact se_ghost rfl rfl
  cases hd : db.driver <;> (try dsimp only)
  · exact ⟨se_trans hg (seNO_mariadb_commit db2 env), rfl⟩
  · exact ⟨se_trans hg (seNO_mariadb_commit db2 env), rfl⟩
  · exact ⟨se_trans hg (seNO_pq_commit db2 env), rfl⟩
  · exact ⟨se_trans hg (seNO_sqlite_commit db2 env), rfl⟩
  · exact ⟨hg, rfl⟩

theorem seNO_facade_rollback (db : Db) (env : Env) :
    StatusEvolves NotOk db (sqldbal_rollback db env).1 ∧
    (sqldbal_rollback db env).2 = (sqldbal_rollback db env).1.status := by
  unfold sqldbal_rollback
  dsimp only [sqldbal_status_code_get]
  generalize hdb2 : { db with adapterCalls := db.adapterCalls + 1 } = db2
  have hg : StatusEvolves NotOk db db2 := by
    rw [← hdb2]
    exact se_ghost rfl rfl
  cases hd : db.driver <;> (try dsimp only)
  · exact ⟨se_trans hg (seNO_mariadb_rollback db2 env), rfl⟩
  · exact ⟨se_trans hg (seNO_mariadb_rollback db2 env), rfl⟩
  · exact ⟨se_trans hg (seNO_pq_rollback db2 env), rfl⟩
  · exact ⟨se_trans hg (seNO_sqlite_rollback db2 env), rfl⟩
  · exact ⟨hg, rfl⟩

theorem seNO_facade_prepare (db : Db) (sql_len : Nat) (env : Env) :
    StatusEvolves NotOk db (sqldbal_stmt_prepare db sql_len env).1 ∧
    (sqldbal_stmt_prepare db sql_len env).2.2 =
      (sqldbal_stmt_prepare db sql_len env).1.status := by
  unfold sqldbal_stmt_prepare
  dsimp only [sqldbal_status_code_get]
  split
  · exact ⟨seNO_set2 db SQLDBAL_STATUS_NOMEM (by decide), rfl⟩
  · dsimp only
    generalize hdb2 : { db with adapterCalls := db.adapterCalls + 1 } = db2
    have hg : StatusEvolves NotOk db db2 := by
      rw [← hdb2]
      exact se_ghost rfl rfl
    cases hd : db.driver <;> (try dsimp only)
    · rcases ha : sqldbal_mariadb_stmt_prepare db2
          { num_params := 0, num_cols_result := 0,
            handle := StmtHandle.none, valid := 1, isErrorStmt := false }
          env with ⟨db3, st3⟩
      have h2 := seNO_mariadb_prepare db2
        { num_params := 0, num_cols_result := 0, handle := StmtHandle.none,
          valid := 1, isErrorStmt := false } env
      rw [ha] at h2
      exact ⟨se_trans hg h2, rfl⟩
    · rcases ha : sqldbal_mariadb_stmt_prepare db2
          { num_params := 0, num_cols_result := 0,
            handle := StmtHandle.none, valid := 1, isErrorStmt := false }
          env with ⟨db3, st3⟩
      have h2 := seNO_mariadb_prepare db2
        { num_params := 0, num_cols_result := 0, handle := StmtHandle.none,
          valid := 1, isErrorStmt := false } env
      rw [ha] at h2
      exact ⟨se_trans hg h2, rfl⟩
    · rcases ha : sqldbal_pq_stmt_prepare db2
          { num_params := 0, num_cols_result := 0,
            handle := StmtHandle.none, valid := 1, isErrorStmt := false }
          env with ⟨db3, st3⟩
      have h2 := seNO_pq_prepare db2
        { num_params := 0, num_cols_result := 0, handle := StmtHandle.none,
          valid := 1, isErrorStmt := false } env
      rw [ha] at h2
      exact ⟨se_trans hg h2, rfl⟩
    · rcases ha : sqldbal_sqlite_stmt_prepare db2 sql_len
          { num_params := 0, num_cols_result := 0,
            handle := StmtHandle.none, valid := 1, isErrorStmt := false }
          env with ⟨db3, st3⟩
      have h2 := seNO_sqlite_prepare db2 sql_len
        { num_params := 0, num_cols_result := 0, handle := StmtHandle.none,
          valid := 1, isErrorStmt := false } env
      rw [ha] at h2
      exact ⟨se_trans hg h2, rfl⟩
    · exact ⟨hg, rfl⟩

theorem seNO_facade_execute (db : Db) (stmt : Stmt) (env : Env) :
    StatusEvolves NotOk db (sqldbal_stmt_execute db stmt env).1 ∧
    (sqldbal_stmt_execute db stmt env).2.2 =
      (sqldbal_stmt_execute db stmt env).1.status := by
  unfold sqldbal_stmt_execute
  dsimp only [sqldbal_status_code_get]
  generalize hdb2 : { db with adapterCalls := db.adapterCalls + 1 } = db2
  have hg : StatusEvolves NotOk db db2 := by
    rw [← hdb2]
    exact se_ghost rfl rfl
  cases hd : db.driver <;> (try dsimp only)
  · rcases ha : sqldbal_mariadb_stmt_execute db2 stmt env with ⟨db3, st3⟩
    have h2 := seNO_mariadb_execute db2 stmt env
    rw [ha] at h2
    exact ⟨se_trans hg h2, rfl⟩
  · rcases ha : sqldbal_mariadb_stmt_execute db2 stmt env with ⟨db3, st3⟩
    have h2 := seNO_mariadb_execute db2 stmt env
    rw [ha] at h2
    exact ⟨se_trans hg h2, rfl⟩
  · rcases ha : sqldbal_pq_stmt_execute db2 stmt env with ⟨db3, st3⟩
    have h2 := seNO_pq_execute db2 stmt env
    rw [ha] at h2
    exact ⟨se_trans hg h2, rfl⟩
  · rcases ha : sqldbal_sqlite_stmt_execute db2 stmt env with ⟨db3, st3⟩
    have h2 := seNO_sqlite_execute db2 stmt env
    rw [ha] at h2
    exact ⟨se_trans hg h2, rfl⟩
  · exact ⟨hg, rfl⟩

theorem seNO_facade_fetch (db : Db) (stmt : Stmt) (env : Env) :
    StatusEvolves NotOk db (sqldbal_stmt_fetch db stmt env).1 := by
  unfold sqldbal_stmt_fetch
  generalize hdb2 : { db with adapterCalls := db.adapterCalls + 1 } = db2
  have hg : StatusEvolves NotOk db db2 := by
    rw [← hdb2]
    exact se_ghost rfl rfl
  dsimp only
  split
  · rcases ha : sqldbal_mariadb_stmt_fetch db2 stmt env with ⟨db3, st3, r3⟩
    have h2 := seNO_mariadb_fetch db2 stmt env
    rw [ha] at h2
    exact se_trans hg h2
  · rcases ha : sqldbal_mariadb_stmt_fetch db2 stmt env with ⟨db3, st3, r3⟩
    have h2 := seNO_mariadb_fetch db2 stmt env
    rw [ha] at h2
    exact se_trans hg h2
  · rcases ha : sqldbal_pq_stmt_fetch db2 stmt env with ⟨db3, st3, r3⟩
    have h2 := seNO_pq_fetch db2 stmt env
    rw [ha] at h2
    exact se_trans hg h2
  · rcases ha : sqldbal_sqlite_stmt_fetch db2 stmt env with ⟨db3, st3, r3⟩
    have h2 := seNO_sqlite_fetch db2 stmt env
    rw [ha] at h2
    exact se_trans hg h2
  · exact hg

theorem seNO_facade_stmt_close (db : Db) (stmt : Stmt) (env : Env) :
    StatusEvolves NotOk db (sqldbal_stmt_close db stmt env).1 ∧
    (sqldbal_stmt_close db stmt env).2 =
      (sqldbal_stmt_close db stmt env).1.status := by
  unfold sqldbal_stmt_close
  dsimp only [sqldbal_status_code_get]
  split
  · generalize hdb2 : { db with adapterCalls := db.adapterCalls + 1 } = db2
    have hg : StatusEvolves NotOk db db2 := by
      rw [← hdb2]
      exact se_ghost rfl rfl
    cases hd : db.driver <;> (try dsimp only)
    · exact ⟨se_trans hg (seNO_mariadb_stmt_close db2 stmt env), rfl⟩
    · exact ⟨se_trans hg (seNO_mariadb_stmt_close db2 stmt env), rfl⟩
    · exact ⟨se_trans hg (seNO_pq_stmt_close db2 stmt env), rfl⟩
    · exact ⟨se_trans hg (seNO_sqlite_stmt_close db2 stmt env), rfl⟩
    · exact ⟨hg, rfl⟩
  · exact ⟨se_refl db, rfl⟩


theorem mono_of_all_notok {t : List Nat}
    (hp : ∀ v ∈ t, v ≠ SQLDBAL_STATUS_OK) : MonoOk t := by
  intro i j hi hj hij hne
  exact hp _ (List.get_mem t j hj)

theorem mono_of_head_ok {rest : List Nat}
    (hp : ∀ v ∈ rest, v ≠ SQLDBAL_STATUS_OK) :
    MonoOk (SQLDBAL_STATUS_OK :: rest) := by
  intro i j hi hj hij hne
  cases j with
  | zero => omega
  | succ j2 =>
      have hlt : j2 < rest.length := by
        simpa using hj
      have hget : (SQLDBAL_STATUS_OK :: rest).get ⟨j2 + 1, hj⟩ =
          rest.get ⟨j2, hlt⟩ := rfl
      rw [hget]
      exact hp _ (List.get_mem rest j2 hlt)

theorem mono_of_se {e final : Db} (hw : e.writes = [])
    (h : StatusEvolves NotOk e final) :
    MonoOk final.writes ∧
    ((∃ v ∈ final.writes, v ≠ SQLDBAL_STATUS_OK) →
      final.status ≠ SQLDBAL_STATUS_OK) := by
  obtain ⟨d, hwd, hp, hs⟩ := h
  rw [hw] at hwd
  simp only [List.nil_append] at hwd
  constructor
  · rw [hwd]
    exact mono_of_all_notok hp
  · rintro ⟨v, hv, hvne⟩
    rw [hwd] at hv
    have hdne : d ≠ [] := by
      rintro rfl
      exact absurd hv (List.not_mem_nil v)
    rw [hs]
    exact hp _ (getLastD_mem d e.status hdne)

theorem mono_of_se_head {e final : Db}
    (hw : e.writes = [SQLDBAL_STATUS_OK])
    (hst : e.status = SQLDBAL_STATUS_OK)
    (h : StatusEvolves NotOk e final) :
    MonoOk final.writes ∧
    ((∃ v ∈ final.writes, v ≠ SQLDBAL_STATUS_OK) →
      final.status ≠ SQLDBAL_STATUS_OK) := by
  obtain ⟨d, hwd, hp, hs⟩ := h
  rw [hw] at hwd
  simp only [List.cons_append, List.nil_append] at hwd
  constructor
  · rw [hwd]
    exact mono_of_head_ok hp
  · rintro ⟨v, hv, hvne⟩
    rw [hwd] at hv
    simp only [List.mem_cons] at hv
    rcases hv with rfl | hv
    · exact absurd rfl hvne
    · have hdne : d ≠ [] := by
        rintro rfl
        exact absurd hv (List.not_mem_nil v)
      rw [hs, hst]
      exact hp _ (getLastD_mem d SQLDBAL_STATUS_OK hdne)

theorem open_facts (driver : Driver)
    (location port username password database : Option String)
    (flags : Nat) (l : List (String × String)) (env : Env) :
    MonoOk (sqldbal_open driver location port username password database
        flags l env).1.writes ∧
    ((∃ v ∈ (sqldbal_open driver location port username password database
        flags l env).1.writes, v ≠ SQLDBAL_STATUS_OK) →
      (sqldbal_open driver location port username password database
        flags l env).2 ≠ SQLDBAL_STATUS_OK) := by
  unfold sqldbal_open
  dsimp only [sqldbal_status_code_get]
  split
  · exact mono_of_se (e := g_db_error) rfl
      (seNO_set2 g_db_error SQLDBAL_STATUS_NOMEM (by decide))
  · have hew : ((sqldbal_status_code_set (newDbValue flags driver)
        SQLDBAL_STATUS_OK).1).writes = [SQLDBAL_STATUS_OK] := by
      rw [sqldbal_status_code_set_eq, if_neg (by decide)]
      rfl
    have hes : ((sqldbal_status_code_set (newDbValue flags driver)
        SQLDBAL_STATUS_OK).1).status = SQLDBAL_STATUS_OK := by
      rw [sqldbal_status_code_set_eq, if_neg (by decide)]
    generalize he : (sqldbal_status_code_set (newDbValue flags driver)
        SQLDBAL_STATUS_OK).1 = e
    rw [he] at hew hes
    cases driver <;> (try dsimp only)
    · rw [if_pos hes]
      exact mono_of_se_head hew hes (se_trans (se_ghost rfl rfl)
        (seNO_mariadb_open { e with adapterCalls := e.adapterCalls + 1 }
          port l env))
    · rw [if_pos hes]
      exact mono_of_se_head hew hes (se_trans (se_ghost rfl rfl)
        (seNO_mariadb_open { e with adapterCalls := e.adapterCalls + 1 }
          port l env))
    · rw [if_pos hes]
      exact mono_of_se_head hew hes (se_trans (se_ghost rfl rfl)
        (seNO_pq_open { e with adapterCalls := e.adapterCalls + 1 }
          location port username password database l env))
    · rw [if_pos hes]
      exact mono_of_se_head hew hes (se_trans (se_ghost rfl rfl)
        (seNO_sqlite_open { e with adapterCalls := e.adapterCalls + 1 }
          l env))
    · have hst9 : ((sqldbal_status_code_set e
          SQLDBAL_STATUS_DRIVER_NOSUPPORT).1).status =
          SQLDBAL_STATUS_DRIVER_NOSUPPORT := by
        rw [sqldbal_status_code_set_eq, if_neg (by decide)]
      rw [if_neg (by rw [hst9]; decide)]
      exact mono_of_se_head hew hes
        (seNO_set2 e SQLDBAL_STATUS_DRIVER_NOSUPPORT (by decide))

/-- Claim C3: for every public operation, the status writes the
operation performs on a connection are monotonic (once a non-OK value is
written, no later write of the same operation stores OK: the only OK
write is the one at the head of the open initialization), and whenever
some inner step wrote a non-OK value, the status value the operation
hands back to the application is non-OK. -/
theorem claim_C3 (db : Db) (op : PublicOp) (env : Env) :
    MonoOk (runOp (scrub db) op env).1.writes ∧
    (∀ r, (runOp (scrub db) op env).2 = Option.some r →
      (∃ v ∈ (runOp (scrub db) op env).1.writes,
        v ≠ SQLDBAL_STATUS_OK) →
      r ≠ SQLDBAL_STATUS_OK) := by
  cases op with
  | openOp driver location port username password database flags l =>
      dsimp only [runOp]
      have h := open_facts driver location port username password database
        flags l env
      refine ⟨h.1, ?_⟩
      intro r hr hex
      have h2 : (sqldbal_open driver location port username password
          database flags l env).2 = r := by
        injection hr
      rw [← h2]
      exact h.2 hex
  | execOp cb =>
      dsimp only [runOp]
      have h := seNO_exec_facade (scrub db) cb env
      have hm := mono_of_se (e := scrub db) rfl h.1
      refine ⟨hm.1, ?_⟩
      intro r hr hex
      have h2 : (sqldbal_exec (scrub db) cb env).2 = r := by injection hr
      rw [← h2, h.2]
      exact hm.2 hex
  | beginOp =>
      dsimp only [runOp]
      have h := seNO_facade_begin (scrub db) env
      have hm := mono_of_se (e := scrub db) rfl h.1
      refine ⟨hm.1, ?_⟩
      intro r hr hex
      have h2 : (sqldbal_begin_transaction (scrub db) env).2 = r := by
        injection hr
      rw [← h2, h.2]
      exact hm.2 hex
  | commitOp =>
      dsimp only [runOp]
      have h := seNO_facade_commit (scrub db) env
      have hm := mono_of_se (e := scrub db) rfl h.1
      refine ⟨hm.1, ?_⟩
      intro r hr hex
      have h2 : (sqldbal_commit (scrub db) env).2 = r := by injection hr
      rw [← h2, h.2]
      exact hm.2 hex
  | rollbackOp =>
      dsimp only [runOp]
      have h := seNO_facade_rollback (scrub db) env
      have hm := mono_of_se (e := scrub db) rfl h.1
      refine ⟨hm.1, ?_⟩
      intro r hr hex
      have h2 : (sqldbal_rollback (scrub db) env).2 = r := by injection hr
      rw [← h2, h.2]
      exact hm.2 hex
  | prepareOp sql_len =>
      dsimp only [runOp]
      have h := seNO_facade_prepare (scrub db) sql_len env
      have hm := mono_of_se (e := scrub db) rfl h.1
      refine ⟨hm.1, ?_⟩
      intro r hr hex
      have h2 : (sqldbal_stmt_prepare (scrub db) sql_len env).2.2 = r := by
        injection hr
      rw [← h2, h.2]
      exact hm.2 hex
  | bindBlobOp stmt i n =>
      dsimp only [runOp]
      have h := seNO_facade_bind_blob (scrub db) stmt i n env
      have hm := mono_of_se (e := scrub db) rfl h.1
      refine ⟨hm.1, ?_⟩
      intro r hr hex
      have h2 : (sqldbal_stmt_bind_blob (scrub db) stmt i n env).2.2 = r := by
        injection hr
      rw [← h2, h.2]
      exact hm.2 hex
  | bindInt64Op stmt i i64 =>
      dsimp only [runOp]
      have h := seNO_facade_bind_int64 (scrub db) stmt i i64 env
      have hm := mono_of_se (e := scrub db) rfl h.1
      refine ⟨hm.1, ?_⟩
      intro r hr hex
      have h2 : (sqldbal_stmt_bind_int64 (scrub db) stmt i i64 env).2.2 =
          r := by
        injection hr
      rw [← h2, h.2]
      exact hm.2 hex
  | bindTextOp stmt i s slen =>
      dsimp only [runOp]
      have h := seNO_facade_bind_text (scrub db) stmt i s slen env
      have hm := mono_of_se (e := scrub db) rfl h.1
      refine ⟨hm.1, ?_⟩
      intro r hr hex
      have h2 : (sqldbal_stmt_bind_text (scrub db) stmt i s slen
          env).2.2 = r := by
        injection hr
      rw [← h2, h.2]
      exact hm.2 hex
  | bindNullOp stmt i =>
      dsimp only [runOp]
      have h := seNO_facade_bind_null (scrub db) stmt i env
      have hm := mono_of_se (e := scrub db) rfl h.1
      refine ⟨hm.1, ?_⟩
      intro r hr hex
      have h2 : (sqldbal_stmt_bind_null (scrub db) stmt i env).2.2 = r := by
        injection hr
      rw [← h2, h.2]
      exact hm.2 hex
  | executeOp stmt =>
      dsimp only [runOp]
      have h := seNO_facade_execute (scrub db) stmt env
      have hm := mono_of_se (e := scrub db) rfl h.1
      refine ⟨hm.1, ?_⟩
      intro r hr hex
      have h2 : (sqldbal_stmt_execute (scrub db) stmt env).2.2 = r := by
        injection hr
      rw [← h2, h.2]
      exact hm.2 hex
  | fetchOp stmt =>
      dsimp only [runOp]
      have h := seNO_facade_fetch (scrub db) stmt env
      have hm := mono_of_se (e := scrub db) rfl h
      refine ⟨hm.1, ?_⟩
      intro r hr
      exact absurd hr (by simp)
  | columnBlobOp stmt i =>
      dsimp only [runOp]
      have h := seNO_facade_column_blob (scrub db) stmt i env
      have hm := mono_of_se (e := scrub db) rfl h.1
      refine ⟨hm.1, ?_⟩
      intro r hr hex
      have h2 : (sqldbal_stmt_column_blob (scrub db) stmt i env).2.2 =
          r := by
        injection hr
      rw [← h2, h.2]
      exact hm.2 hex
  | columnInt64Op stmt i =>
      dsimp only [runOp]
      have h := seNO_facade_column_int64 (scrub db) stmt i env
      have hm := mono_of_se (e := scrub db) rfl h.1
      refine ⟨hm.1, ?_⟩
      intro r hr hex
      have h2 : (sqldbal_stmt_column_int64 (scrub db) stmt i env).2.2 =
          r := by
        injection hr
      rw [← h2, h.2]
      exact hm.2 hex
  | columnTextOp stmt i =>
      dsimp only [runOp]
      have h := seNO_facade_column_text (scrub db) stmt i env
      have hm := mono_of_se (e := scrub db) rfl h.1
      refine ⟨hm.1, ?_⟩
      intro r hr hex
      have h2 : (sqldbal_stmt_column_text (scrub db) stmt i env).2.2 =
          r := by
        injection hr
      rw [← h2, h.2]
      exact hm.2 hex
  | columnTypeOp stmt i =>
      dsimp only [runOp]
      have h := seNO_facade_column_type (scrub db) stmt i env
      have hm := mono_of_se (e := scrub db) rfl h
      refine ⟨hm.1, ?_⟩
      intro r hr hex
      have h2 : sqldbal_status_code_get
          (sqldbal_stmt_column_type (scrub db) stmt i env).1 = r := by
        injection hr
      rw [← h2]
      exact hm.2 hex
  | closeOp =>
      dsimp only [runOp]
      unfold sqldbal_close
      dsimp only [sqldbal_status_code_get]
      split
      · split
        · generalize hdb2 : dispatchDriverClose
            { scrub db with
                adapterCalls := (scrub db).adapterCalls + 1 } env = db2
          have hse : StatusEvolves NotOk (scrub db) db2 := by
            rw [← hdb2]
            exact se_trans (se_ghost rfl rfl) (seNO_dispatch_close _ env)
          have hm := mono_of_se (e := scrub db) rfl hse
          by_cases hok : (scrub db).status = SQLDBAL_STATUS_OK
          · rw [if_pos hok]
            split
            · refine ⟨hm.1, ?_⟩
              intro r hr hex
              have h2 : db2.status = r := by injection hr
              rw [← h2]
              exact hm.2 hex
            · refine ⟨hm.1, ?_⟩
              intro r hr hex
              have h2 : db2.status = r := by injection hr
              rw [← h2]
              exact hm.2 hex
          · rw [if_neg hok]
            split
            · refine ⟨hm.1, ?_⟩
              intro r hr hex
              have h2 : (scrub db).status = r := by injection hr
              rw [← h2]
              exact hok
            · refine ⟨hm.1, ?_⟩
              intro r hr hex
              have h2 : (scrub db).status = r := by injection hr
              rw [← h2]
              exact hok
        · split
          · refine ⟨mono_of_all_notok ?_, ?_⟩
            · intro v hv
              exact absurd hv (List.not_mem_nil v)
            · rintro r hr ⟨v, hv, hvne⟩
              exact absurd hv (List.not_mem_nil v)
          · refine ⟨mono_of_all_notok ?_, ?_⟩
            · intro v hv
              exact absurd hv (List.not_mem_nil v)
            · rintro r hr ⟨v, hv, hvne⟩
              exact absurd hv (List.not_mem_nil v)
      · refine ⟨mono_of_all_notok ?_, ?_⟩
        · intro v hv
          exact absurd hv (List.not_mem_nil v)
        · rintro r hr ⟨v, hv, hvne⟩
          exact absurd hv (List.not_mem_nil v)
  | stmtCloseOp stmt =>
      dsimp only [runOp]
      have h := seNO_facade_stmt_close (scrub db) stmt env
      have hm := mono_of_se (e := scrub db) rfl h.1
      refine ⟨hm.1, ?_⟩
      intro r hr hex
      have h2 : (sqldbal_stmt_close (scrub db) stmt env).2 = r := by
        injection hr
      rw [← h2, h.2]
      exact hm.2 hex

/-- Claim C3 witness: an out-of-range bind on a fresh connection writes
the single non-OK status invalid-parameter and hands invalid-parameter,
not OK, back to the application. -/
theorem claim_C3_witness :
    (runOp (scrub dbInit) (PublicOp.bindBlobOp stmtSqlite1 5 4)
        envAllOk).2 = Option.some SQLDBAL_STATUS_PARAM ∧
    SQLDBAL_STATUS_PARAM ≠ SQLDBAL_STATUS_OK := by
  have hev : runOp (scrub dbInit) (PublicOp.bindBlobOp stmtSqlite1 5 4)
      envAllOk =
      ({ dbInit with
          status := SQLDBAL_STATUS_PARAM,
          writes := [SQLDBAL_STATUS_PARAM] },
       Option.some SQLDBAL_STATUS_PARAM) := by
    unfold runOp sqldbal_stmt_bind_blob sqldbal_stmt_bind_in_range
    simp [sqldbal_status_code_set_eq, sqldbal_status_code_get, scrub,
      dbInit, stmtSqlite1, SQLDBAL_STATUS_PARAM, SQLDBAL_STATUS_LAST]
  constructor
  · rw [hev]
  · exact (claim_C3 dbInit (PublicOp.bindBlobOp stmtSqlite1 5 4)
      envAllOk).2 SQLDBAL_STATUS_PARAM (by rw [hev])
      ⟨SQLDBAL_STATUS_PARAM, by rw [hev]; simp, by decide⟩

end Sqldbal
